import Mathlib

/-!
# Restaurant management: order-to-invoice aggregation and paginated listing

A shallow embedding of the request handlers in `controllers/`.

* The MongoDB database is a `Store`: one list of documents per collection, in
  natural (insertion) order. The field of `Store` that models a collection
  carries the collection's name.
* An aggregation pipeline is the composition of its stages, each stage a
  function on lists of documents, in the order the source passes them to
  `Aggregate`.
* A `float64` amount is the rational number it denotes. Every operation on
  such amounts, the Go arithmetic of `toFixed` as well as the `$multiply` and
  the `$sum` of the aggregation pipeline, rounds its result to the nearest
  binary64 value (`float64`).
* Go `int` is the 64-bit two's-complement integer: arithmetic on it is reduced
  by `wrapInt`.
-/

namespace Restaurant

/-! ## Data model -/

/-- The type `primitive.ObjectID`, identified with its hex string. -/
abbrev ObjectID := String

/-- The type `time.Time`, as a number of ticks. -/
abbrev Time := Nat

/-- Modelled from the spec: `models.Food` (the `models` package is not part of
the sources). The fields are the ones the handlers read and write; a pointer
field is an `Option`, `none` being the nil pointer, stored as BSON null. -/
structure Food where
  _id : ObjectID
  name : Option String
  price : Option ℚ
  food_image : Option String
  created_at : Time
  updated_at : Time
  food_id : String
  menu_id : Option String
deriving DecidableEq, Repr

/-- Modelled from the spec: `models.Order`. -/
structure Order where
  _id : ObjectID
  order_date : Time
  created_at : Time
  updated_at : Time
  order_id : String
  table_id : Option String
deriving DecidableEq, Repr

/-- Modelled from the spec: `models.Table`. -/
structure Table where
  _id : ObjectID
  number_of_guests : Option Int
  table_number : Option Int
  created_at : Time
  updated_at : Time
  table_id : String
deriving DecidableEq, Repr

/-- Modelled from the spec: `models.OrderItem`; the quantity is an integer and
the unit price the amount captured when the item was ordered. -/
structure OrderItem where
  _id : ObjectID
  quantity : Option Int
  unit_price : Option ℚ
  created_at : Time
  updated_at : Time
  food_id : Option String
  order_item_id : String
  order_id : String
deriving DecidableEq, Repr

/-- Modelled from the spec: `models.Invoice`. -/
structure Invoice where
  _id : ObjectID
  invoice_id : String
  order_id : String
  payment_method : Option String
  payment_status : Option String
  payment_due_date : Time
  created_at : Time
  updated_at : Time
deriving DecidableEq, Repr

/-- Modelled from the spec: `models.Menu`. The name and the category are plain
strings, which `UpdateMenu` compares with the empty string. -/
structure Menu where
  _id : ObjectID
  name : String
  category : String
  start_date : Option Time
  end_date : Option Time
  created_at : Time
  updated_at : Time
  menu_id : String
deriving DecidableEq, Repr

/-- Modelled from the spec: `models.User`, with the fields the handlers of
`userController.go` read and write. -/
structure User where
  _id : ObjectID
  first_name : Option String
  last_name : Option String
  password : Option String
  email : Option String
  phone : Option String
  token : Option String
  refresh_token : Option String
  created_at : Time
  updated_at : Time
  user_id : String
deriving DecidableEq, Repr

/-- The database. Each field is the collection of that name:
`foodCollection = OpenCollection(Client, "food")`, `menuCollection` is
`"menus"`, `orderCollection` is `"orders"`, `orderItemCollection` is
`"order_items"`, `tableCollection` is `"tables"`, `invoiceCollection` is
`"invoices"`, `userCollection` is `"user"`. The collections `"order"` and
`"table"` are the ones the `$lookup` stages of `ItemsByOrder` name in their
`from` field; no handler opens them. -/
structure Store where
  food : List Food
  menus : List Menu
  orders : List Order
  order_items : List OrderItem
  tables : List Table
  invoices : List Invoice
  order : List Order
  table : List Table
  user : List User := []
deriving Repr

/-- A handler's reply: `c.JSON(status, body)` with a payload, or
`c.JSON(status, gin.H{"error": msg})`; `aborted` is the handler stopped by a
nil pointer dereference before it replied. The text of a decoding or
validation error is abbreviated. -/
inductive Response (α : Type) where
  | json (status : Nat) (body : α)
  | error (status : Nat) (msg : String)
  | aborted
deriving DecidableEq, Repr

/-- The HTTP status of a reply; the recovery of an aborted handler answers with
status 500. -/
def Response.status {α : Type} : Response α → Nat
  | .json st _ => st
  | .error st _ => st
  | .aborted => 500

def StatusOK : Nat := 200
def StatusCreated : Nat := 201
def StatusBadRequest : Nat := 400
def StatusNotFound : Nat := 404
def StatusInternalServerError : Nat := 500

/-! ## Money rounding (`foodController.go`)

A finite `float64` is the rational number it denotes, and every Go operation on
`float64` values is the exact operation followed by `float64`, the rounding to
the nearest representable value. -/

/-- Rounding to the nearest integer, a tie going to the even one. -/
def roundHalfEven (x : ℚ) : Int :=
  if x - ⌊x⌋ < 1 / 2 then ⌊x⌋
  else if 1 / 2 < x - ⌊x⌋ then ⌊x⌋ + 1
  else if ⌊x⌋ % 2 = 0 then ⌊x⌋
  else ⌊x⌋ + 1

/-- The exponent of the last place of the binary64 values around `q`: 52 below
the exponent of `q`, and -1074 in the subnormal range. -/
def ulpExponent (q : ℚ) : Int :=
  max (Int.log 2 |q| - 52) (-1074)

/-- The binary64 value nearest to `q`, ties to even (IEEE 754 round to nearest).
Results beyond the largest finite value are outside the model. -/
def float64 (q : ℚ) : ℚ :=
  if q = 0 then 0 else (roundHalfEven (q / 2 ^ ulpExponent q) : ℚ) * 2 ^ ulpExponent q

/-- Go's `int(f)`: truncation toward zero. For a value outside the range of
`int` the language leaves the result to the implementation; the value here is
the one amd64 produces. -/
def truncToInt (x : ℚ) : Int :=
  if -(2 ^ 63) ≤ x ∧ x < 2 ^ 63 then (if 0 ≤ x then ⌊x⌋ else ⌈x⌉) else -(2 ^ 63)

/-- The value `math.Copysign(0.5, num)`. -/
def copysignHalf (num : ℚ) : ℚ :=
  if 0 ≤ num then 1 / 2 else -(1 / 2)

/-- Go `round`: `int(num + math.Copysign(0.5, num))`. -/
def round (num : ℚ) : Int :=
  truncToInt (float64 (num + copysignHalf num))

/-- Go `toFixed`: `output := math.Pow(10, precision)`, then
`float64(round(num*output)) / output`. The power is exact for the precision 2
that both callers pass. -/
def toFixed (num : ℚ) (precision : Nat) : ℚ :=
  let output : ℚ := 10 ^ precision
  float64 (float64 (round (float64 (num * output)) : ℚ) / output)

/-! ## The order-item join pipeline (`ItemsByOrder`) -/

/-- The operator `$unwind` with `preserveNullAndEmptyArrays: true` of the array
a `$lookup` produced: one output document per element, and one document
without the field when the array is empty. -/
def unwindPreserve {β : Type} : List β → List (Option β)
  | [] => [none]
  | b :: bs => (b :: bs).map some

/-- An order item with the documents joined to it so far (`food`, `order`,
`table` are the fields the `$lookup`/`$unwind` pairs add). -/
structure Joined where
  item : OrderItem
  food : Option Food
  order : Option Order
  table : Option Table
deriving DecidableEq, Repr

/-- Stage `matchStage`: `{"$match", {"order_id", orderID}}` on `order_items`. -/
def matchStage (s : Store) (orderID : String) : List OrderItem :=
  s.order_items.filter (fun it => it.order_id = orderID)

/-- Stage `lookupFoodStage` and `unwindFoodStage`: join `from: "food"` on
`food_id = food_id`. An item whose `food_id` is null matches no food, every
stored `food_id` being a string. -/
def lookupFoodStage (s : Store) (it : OrderItem) : List (OrderItem × Option Food) :=
  (unwindPreserve (s.food.filter (fun f => some f.food_id = it.food_id))).map
    (fun f => (it, f))

/-- Stage `lookupOrderStage` and `unwindOrderStage`: join `from: "order"` on
`order_id = order_id`. -/
def lookupOrderStage (s : Store) (r : OrderItem × Option Food) :
    List (OrderItem × Option Food × Option Order) :=
  (unwindPreserve (s.order.filter (fun o => o.order_id = r.1.order_id))).map
    (fun o => (r.1, r.2, o))

/-- Stage `lookupTableStage` and `unwindTableStage`: join `from: "table"` on
`order.table_id = table_id`. Without a joined order, or when its `table_id` is
null, the local value is null and matches no table. -/
def lookupTableStage (s : Store) (r : OrderItem × Option Food × Option Order) : List Joined :=
  (unwindPreserve
    (s.table.filter (fun t => some t.table_id = r.2.2.bind (fun o => o.table_id)))).map
    (fun t => { item := r.1, food := r.2.1, order := r.2.2, table := t })

/-- The document `projectStage` emits. A field whose path is missing is absent
(`none`); `amount` is present and null (`none`) when an operand of `$multiply`
is null or missing. -/
structure EnrichedItem where
  _id : ObjectID
  food_name : Option String
  food_image : Option String
  table_number : Option Int
  table_id : Option String
  order_id : Option String
  price : Option ℚ
  quantity : Option Int
  amount : Option ℚ
deriving DecidableEq, Repr

/-- The operator `$multiply: ["$food.price", "$quantity"]`: null as soon as one
operand is null or missing; else the price, a double, times the quantity, an
integer, which the server converts to a double, the product being rounded to
a double. -/
def multiply : Option ℚ → Option Int → Option ℚ
  | some p, some q => some (float64 (p * float64 (q : ℚ)))
  | _, _ => none

/-- Stage `projectStage`. -/
def projectStage (j : Joined) : EnrichedItem :=
  { _id := j.item._id
    food_name := j.food.bind (fun f => f.name)
    food_image := j.food.bind (fun f => f.food_image)
    table_number := j.table.bind (fun t => t.table_number)
    table_id := j.table.map (fun t => t.table_id)
    order_id := j.order.map (fun o => o.order_id)
    price := j.food.bind (fun f => f.price)
    quantity := j.item.quantity
    amount := multiply (j.food.bind (fun f => f.price)) j.item.quantity }

/-- The `_id` of a `$group` document: `order_id`, `table_id`, `table_number`. -/
structure GroupKey where
  order_id : Option String
  table_id : Option String
  table_number : Option Int
deriving DecidableEq, Repr

/-- A document of `groupStage`. -/
structure Group where
  _id : GroupKey
  payment_due : ℚ
  total_count : Int
  order_items : List EnrichedItem
deriving DecidableEq, Repr

/-- The `_id` expression of `groupStage`, evaluated on a projected document. -/
def groupKey (e : EnrichedItem) : GroupKey :=
  { order_id := e.order_id, table_id := e.table_id, table_number := e.table_number }

/-! ### The accumulator `$sum` on doubles

The MongoDB server adds the doubles of a `$sum` with the compensated summation
of its `DoubleDoubleSummation`: the running total is a pair of doubles, the
rounded sum and a small addend holding what the roundings lost, and the value
of the accumulator is the first of the two. The definitions below follow the
server's `_fast2Sum`, `_2Sum` and `addDouble`, each arithmetic operation being
rounded by `float64`. On one double the value is that double, and on two it
is their `float64` sum, as with the plain addition of doubles. -/

/-- The step `_fast2Sum(a, b)`: the rounded sum of two doubles and the rounding
error of that sum (exact when `|b| ≤ |a|`). -/
def fast2Sum (a b : ℚ) : ℚ × ℚ :=
  let s := float64 (a + b)
  let z := float64 (s - a)
  let t := float64 (b - z)
  (s, t)

/-- The step `_2Sum(a, b)`: the rounded sum of two doubles and the rounding error
of that sum. -/
def twoSum (a b : ℚ) : ℚ × ℚ :=
  let s := float64 (a + b)
  let aPrime := float64 (s - b)
  let bPrime := float64 (s - aPrime)
  let deltaA := float64 (a - aPrime)
  let deltaB := float64 (b - bPrime)
  let t := float64 (deltaA + deltaB)
  (s, t)

/-- The running total of a `$sum` over doubles: `sum` is the rounded total and
`addend` the compensation. -/
structure DoubleDoubleSummation where
  sum : ℚ
  addend : ℚ
deriving DecidableEq, Repr

/-- The step `addDouble(x)`: `x` is first added to the compensation, the result
to the rounded total, and the error of that addition goes to the
compensation. -/
def DoubleDoubleSummation.addDouble (d : DoubleDoubleSummation) (x : ℚ) :
    DoubleDoubleSummation :=
  let r1 := fast2Sum x d.addend
  let r2 := twoSum d.sum r1.1
  { sum := r2.1, addend := float64 (r1.2 + r2.2) }

/-- The value of `$sum` over a list of doubles, added in order from the empty
total; the sum of no value is 0. -/
def sumDoubles (xs : List ℚ) : ℚ :=
  (xs.foldl DoubleDoubleSummation.addDouble { sum := 0, addend := 0 }).sum

/-- The value of `$sum: "$amount"` over a list of projected documents, in order:
the sum of the amounts that are numbers, a null amount being skipped. -/
def sumAmount (es : List EnrichedItem) : ℚ :=
  sumDoubles (es.filterMap (fun e => e.amount))

/-- One step of the `$group` accumulators on a projected document: a document
with a new key opens a group, another one joins its group, where `$push`
appends `$$ROOT`, the `$sum` of the quantities adds an integer (a null one
being skipped) and the `$sum` of the amounts is the one of the group's
documents so far. -/
def accumulate (e : EnrichedItem) : List Group → List Group
  | [] =>
      [{ _id := groupKey e
         payment_due := sumAmount [e]
         total_count := e.quantity.getD 0
         order_items := [e] }]
  | g :: gs =>
      if g._id = groupKey e then
        { g with
          payment_due := sumAmount (g.order_items ++ [e])
          total_count := g.total_count + e.quantity.getD 0
          order_items := g.order_items ++ [e] } :: gs
      else
        g :: accumulate e gs

/-- Stage `groupStage`: the documents are consumed in pipeline order. -/
def groupStage (es : List EnrichedItem) : List Group :=
  es.foldl (fun gs e => accumulate e gs) []

/-- The document `finalProject` emits: the aggregate record of one order. -/
structure AggregateRecord where
  payment_due : ℚ
  total_count : Int
  table_number : Option Int
  order_items : List EnrichedItem
deriving DecidableEq, Repr

/-- Stage `finalProject`. -/
def finalProject (g : Group) : AggregateRecord :=
  { payment_due := g.payment_due
    total_count := g.total_count
    table_number := g._id.table_number
    order_items := g.order_items }

/-- The documents entering `projectStage`: match, then the three
`$lookup`/`$unwind` pairs. -/
def joinStages (s : Store) (orderID : String) : List Joined :=
  (((matchStage s orderID).flatMap (lookupFoodStage s)).flatMap (lookupOrderStage s)).flatMap
    (lookupTableStage s)

/-- Function `ItemsByOrder`: the whole pipeline on `order_items`. The store answers every
query, so the error result of `Aggregate` and `cursor.All` does not arise. -/
def ItemsByOrder (s : Store) (orderID : String) : Except String (List AggregateRecord) :=
  .ok (((groupStage ((joinStages s orderID).map projectStage))).map finalProject)

/-! ## Invoice view (`invoiceController.go`) -/

/-- Struct `InvoiceViewFormat`. The three `interface{}` fields hold what the first
aggregate record carries under `payment_due`, `table_number`, `order_items`. -/
structure InvoiceViewFormat where
  invoice_id : String
  payment_method : String
  order_id : String
  payment_status : Option String
  payment_due : ℚ
  table_number : Option Int
  payment_due_date : Time
  order_details : List EnrichedItem
deriving DecidableEq, Repr

/-- Handler `GetInvoiceById`: `FindOne` on `invoices`, then `ItemsByOrder` on the
invoice's order id; an error or an empty result is answered with status 500. -/
def GetInvoiceById (s : Store) (invoiceId : String) : Response InvoiceViewFormat :=
  match s.invoices.find? (fun inv => inv.invoice_id = invoiceId) with
  | none => .error StatusNotFound "invoice not found"
  | some invoice =>
      match ItemsByOrder s invoice.order_id with
      | .error _ => .error StatusInternalServerError "order details not found"
      | .ok [] => .error StatusInternalServerError "order details not found"
      | .ok (first :: _) =>
          let view : InvoiceViewFormat :=
            { invoice_id := invoice.invoice_id
              order_id := invoice.order_id
              payment_due_date := invoice.payment_due_date
              payment_status := invoice.payment_status
              payment_method := "N/A"
              payment_due := first.payment_due
              table_number := first.table_number
              order_details := first.order_items }
          match invoice.payment_method with
          | some m => .json StatusOK { view with payment_method := m }
          | none => .json StatusOK view

/-! ## Paginated food listing (`GetFoods`) -/

/-- A Go `int` result: the value reduced to 64-bit two's complement. -/
def wrapInt (n : Int) : Int :=
  (n + 2 ^ 63) % 2 ^ 64 - 2 ^ 63

/-- Whether a number is representable as a 32-bit integer. -/
def isInt32 (n : Int) : Bool :=
  decide (-(2 ^ 31) ≤ n ∧ n < 2 ^ 31)

/-- MongoDB's `$slice: [array, position, n]`. Both numbers must be representable
as 32-bit integers and `n` must be positive, else the aggregation fails. A
non-negative `position` starts at that index or at the end of the array when
it is larger; a negative one counts from the end. -/
def slice {β : Type} (data : List β) (position n : Int) : Except String (List β) :=
  if isInt32 position = false then
    .error "Second argument to $slice cannot be represented as a 32-bit integer"
  else if isInt32 n = false then
    .error "Third argument to $slice cannot be represented as a 32-bit integer"
  else if n ≤ 0 then
    .error "Third argument to $slice must be positive"
  else
    let start : Nat :=
      if position < 0 then ((data.length : Int) + position).toNat
      else min position.toNat data.length
    .ok ((data.drop start).take n.toNat)

/-- A document of the `$group` stage of `GetFoods`. -/
structure FoodGroup where
  total_count : Nat
  data : List Food
deriving DecidableEq, Repr

/-- The body `GetFoods` replies with. -/
structure FoodPage where
  total_count : Nat
  food_items : List Food
deriving DecidableEq, Repr

/-- The operator `$match {}` then `$group` with `_id: nil`: no document when the
collection is empty, else one document counting and collecting them all. -/
def groupAll : List Food → List FoodGroup
  | [] => []
  | d :: ds => [{ total_count := (d :: ds).length, data := d :: ds }]

/-- The `$project` stage of `GetFoods` on one group document. -/
def projectPage (startIndex recordPerPage : Int) (g : FoodGroup) : Except String FoodPage :=
  match slice g.data startIndex recordPerPage with
  | .error e => .error e
  | .ok items => .ok { total_count := g.total_count, food_items := items }

/-- The pipeline of `GetFoods` on the `food` collection. -/
def foodPipeline (s : Store) (startIndex recordPerPage : Int) : Except String (List FoodPage) :=
  (groupAll s.food).mapM (projectPage startIndex recordPerPage)

/-- Handler `GetFoods` from the two parsed query values on: the clamping of values
below 1, the start index, the pipeline and the reply. -/
def GetFoodsPage (s : Store) (recordPerPage page : Int) : Response FoodPage :=
  let recordPerPage := if recordPerPage < 1 then 10 else recordPerPage
  let page := if page < 1 then 1 else page
  let startIndex := wrapInt ((page - 1) * recordPerPage)
  match foodPipeline s startIndex recordPerPage with
  | .error e => .error StatusInternalServerError e
  | .ok [] => .json StatusOK { total_count := 0, food_items := [] }
  | .ok (first :: _) => .json StatusOK first

/-- The value of a string of decimal digits, `none` when the string is empty or
holds another character. -/
def parseDigits (cs : List Char) : Option Nat :=
  if cs = [] ∨ cs.any (fun c => !c.isDigit) then none
  else some (cs.foldl (fun n c => 10 * n + (c.toNat - 48)) 0)

/-- The value `strconv.Atoi` returns, its error dropped: 0 on a syntax error,
the nearest bound of `int` when the number is out of range. -/
def atoi (str : String) : Int :=
  match str.toList with
  | '-' :: ds =>
      match parseDigits ds with
      | none => 0
      | some n => if 2 ^ 63 < n then -(2 ^ 63) else -(n : Int)
  | '+' :: ds =>
      match parseDigits ds with
      | none => 0
      | some n => if 2 ^ 63 ≤ n then 2 ^ 63 - 1 else (n : Int)
  | ds =>
      match parseDigits ds with
      | none => 0
      | some n => if 2 ^ 63 ≤ n then 2 ^ 63 - 1 else (n : Int)

/-- Handler `GetFoods`: the query values `recordPerPage` and `page` (`none` when the
key is absent, so that `DefaultQuery` yields `"10"` and `"1"`) are parsed with
`strconv.Atoi`. -/
def GetFoods (s : Store) (recordPerPageQuery pageQuery : Option String) : Response FoodPage :=
  GetFoodsPage s (atoi (recordPerPageQuery.getD "10")) (atoi (pageQuery.getD "1"))

/-! ## Food handlers (`foodController.go`) -/

/-- Handler `CreateFood`: the validated food whose menu exists gets a fresh id and its
price rounded by `toFixed(·, 2)`, and is inserted into `food`. `validate`
stands for `validate.Struct`. -/
def CreateFood (validate : Food → Bool) (newID : ObjectID) (now : Time) (s : Store)
    (body : Option Food) : Store × Response ObjectID :=
  match body with
  | none => (s, .error StatusBadRequest "bind")
  | some food =>
      if validate food = false then (s, .error StatusBadRequest "validation")
      else
        match s.menus.find? (fun m => some m.menu_id = food.menu_id) with
        | none => (s, .error StatusBadRequest "menu not found")
        | some _ =>
            match food.price with
            | none => (s, .aborted)
            | some x =>
                let food := { food with _id := newID, food_id := newID, created_at := now,
                                        updated_at := now, price := some (toFixed x 2) }
                ({ s with food := s.food ++ [food] }, .json StatusCreated newID)

/-- An entry `bson.E` of the `$set` document of `UpdateFood`. -/
inductive FoodUpdate where
  | name (v : String)
  | price (v : ℚ)
  | food_image (v : String)
  | menu_id (v : String)
  | updated_at (v : Time)
deriving DecidableEq, Repr

/-- The effect of one `$set` entry on a food document. -/
def FoodUpdate.apply : FoodUpdate → Food → Food
  | .name v, f => { f with name := some v }
  | .price v, f => { f with price := some v }
  | .food_image v, f => { f with food_image := some v }
  | .menu_id v, f => { f with menu_id := some v }
  | .updated_at v, f => { f with updated_at := v }

/-- The call `UpdateOne` without upsert: the first document the filter selects is
replaced by its update; without such a document nothing changes. -/
def updateOne {β : Type} (filter : β → Bool) (update : β → β) : List β → List β
  | [] => []
  | b :: bs => if filter b then update b :: bs else b :: updateOne filter update bs

/-- The `*mongo.UpdateResult` of an `UpdateOne`. -/
structure UpdateResult where
  matched_count : Nat
deriving DecidableEq, Repr

/-- The entries `UpdateFood` appends for `name`, `price` and `food_image`, in
this order, each only when the request holds the field. -/
def foodUpdateHead (food : Food) : List FoodUpdate :=
  (match food.name with
    | some v => [FoodUpdate.name v]
    | none => []) ++
  (match food.price with
    | some x => [FoodUpdate.price (toFixed x 2)]
    | none => []) ++
  (match food.food_image with
    | some v => [FoodUpdate.food_image v]
    | none => [])

/-- The `UpdateOne` call of `UpdateFood` with the finished `$set` document. -/
def updateFoodDoc (s : Store) (foodId : String) (updateObj : List FoodUpdate) :
    Store × Response UpdateResult :=
  let docs := updateOne (fun f => f.food_id = foodId)
    (fun f => updateObj.foldl (fun f u => u.apply f) f) s.food
  ({ s with food := docs },
    .json StatusOK
      { matched_count := if s.food.any (fun f => f.food_id = foodId) then 1 else 0 })

/-- Handler `UpdateFood`: builds the `$set` document from the fields the request holds
(the price rounded by `toFixed(·, 2)`, the menu id only when that menu exists),
appends `updated_at` and updates the food with the given id. -/
def UpdateFood (now : Time) (s : Store) (foodId : String) (body : Option Food) :
    Store × Response UpdateResult :=
  match body with
  | none => (s, .error StatusBadRequest "bind")
  | some food =>
      match food.menu_id with
      | some menuId =>
          match s.menus.find? (fun m => m.menu_id = menuId) with
          | none => (s, .error StatusBadRequest "menu not found")
          | some _ =>
              updateFoodDoc s foodId
                (foodUpdateHead food ++ [FoodUpdate.menu_id menuId, FoodUpdate.updated_at now])
      | none =>
          updateFoodDoc s foodId (foodUpdateHead food ++ [FoodUpdate.updated_at now])

/-! ## Auxiliary definitions for the statements -/

/-- Food ids, order ids and table ids are unique within each collection that
holds them. -/
def UniqueIds (s : Store) : Prop :=
  (s.food.map (fun f => f.food_id)).Nodup ∧
  (s.orders.map (fun o => o.order_id)).Nodup ∧
  (s.tables.map (fun t => t.table_id)).Nodup ∧
  (s.order.map (fun o => o.order_id)).Nodup ∧
  (s.table.map (fun t => t.table_id)).Nodup

instance (s : Store) : Decidable (UniqueIds s) := by
  unfold UniqueIds
  infer_instance

/-- The total `$sum: "$quantity"` accumulates over a list of projected documents. -/
def sumQuantity (es : List EnrichedItem) : Int :=
  (es.map (fun e => e.quantity.getD 0)).sum

/-- The three joins applied to one matched item. -/
def expand (s : Store) (it : OrderItem) : List Joined :=
  ((lookupFoodStage s it).flatMap (lookupOrderStage s)).flatMap (lookupTableStage s)

/-- The single joined document of an item when every join finds at most one
partner: the first food, order and table with the matching id. -/
def joinOne (s : Store) (it : OrderItem) : Joined :=
  { item := it
    food := s.food.find? (fun f => some f.food_id = it.food_id)
    order := s.order.find? (fun o => o.order_id = it.order_id)
    table := s.table.find? (fun t => some t.table_id =
      (s.order.find? (fun o => o.order_id = it.order_id)).bind (fun o => o.table_id)) }

/-- The enriched record of an item under `joinOne`. -/
def enrich (s : Store) (it : OrderItem) : EnrichedItem :=
  projectStage (joinOne s it)

/-- All enriched records of the returned aggregate records, in order. -/
def outputItems (recs : List AggregateRecord) : List EnrichedItem :=
  recs.flatMap (fun r => r.order_items)

/-- A group holds the sums of its own item list. -/
def GroupSums (g : Group) : Prop :=
  g.payment_due = sumAmount g.order_items ∧ g.total_count = sumQuantity g.order_items

/-- An order item whose `food_id` is the id of no food document. -/
def MissingFood (s : Store) (it : OrderItem) : Prop :=
  ∀ f ∈ s.food, some f.food_id ≠ it.food_id

instance (s : Store) (it : OrderItem) : Decidable (MissingFood s it) := by
  unfold MissingFood
  infer_instance

/-- The store with the captured `unit_price` of every order item replaced. -/
def setUnitPrices (u : OrderItem → Option ℚ) (s : Store) : Store :=
  { s with order_items := s.order_items.map (fun it => { it with unit_price := u it }) }

/-- The value of an optional field after a partial update: the value the
request holds, and the stored value when the request holds none. -/
def keep {α : Type} (new old : Option α) : Option α :=
  match new with
  | some v => some v
  | none => old

/-- From the words of the specification, for comparison with `toFixed`: the
amount rounded to `precision` fractional digits, that is the multiple of
`10^-precision` nearest to it, a tie going to the one farther from zero. -/
def roundHalfAwayFromZero (x : ℚ) (precision : Nat) : ℚ :=
  if 0 ≤ x then (⌊x * 10 ^ precision + 1 / 2⌋ : ℚ) / 10 ^ precision
  else -((⌊-x * 10 ^ precision + 1 / 2⌋ : ℚ) / 10 ^ precision)

/-- The names, of a list of fields, of those the request holds. -/
def present (fields : List (String × Bool)) : List String :=
  (fields.filter (fun f => f.2)).map (fun f => f.1)

/-! ## Create handlers (`tableController.go`, `orderController.go`, `orderItemController.go`)

A handler takes the store and the decoded request and returns the store after
its writes together with its reply. `c.BindJSON` failing is the request body
`none`. Fresh object ids and the clock reading are arguments; `InsertOne` and
`InsertMany` append to the collection and do not fail. -/

/-- Handler `CreateTable`: the validated table gets a fresh id and is inserted into
`tables`. `validate` stands for `validate.Struct`, whose rules are tags of the
`models` package. -/
def CreateTable (validate : Table → Bool) (newID : ObjectID) (now : Time) (s : Store)
    (body : Option Table) : Store × Response ObjectID :=
  match body with
  | none => (s, .error StatusBadRequest "bind")
  | some table =>
      if validate table = false then (s, .error StatusBadRequest "validation")
      else
        let table := { table with _id := newID, table_id := newID, created_at := now,
                                  updated_at := now }
        ({ s with tables := s.tables ++ [table] }, .json StatusCreated newID)

/-- Handler `CreateOrder`: requires `table_id`, assigns a fresh id and inserts into
`orders`. -/
def CreateOrder (newID : ObjectID) (now : Time) (s : Store) (body : Option Order) :
    Store × Response ObjectID :=
  match body with
  | none => (s, .error StatusBadRequest "bind")
  | some order =>
      match order.table_id with
      | none => (s, .error StatusBadRequest "table_id is required")
      | some _ =>
          let order := { order with _id := newID, order_id := newID, order_date := now,
                                    created_at := now, updated_at := now }
          ({ s with orders := s.orders ++ [order] }, .json StatusCreated newID)

/-- Struct `OrderItemPack`. -/
structure OrderItemPack where
  table_id : Option String
  order_items : List OrderItem
deriving DecidableEq, Repr

/-- The body of the 201 reply of `CreateOrderItem`: the order id and the ids
`InsertMany` reports. -/
structure CreatedOrderItems where
  order_id : String
  order_items : List ObjectID
deriving DecidableEq, Repr

/-- The loop of `CreateOrderItem` over `pack.Order_items`: the item at position
`i` gets the fresh id `itemID i` and the id of the new order. -/
def stampItems (itemID : Nat → ObjectID) (orderID : String) (now : Time) :
    Nat → List OrderItem → List OrderItem
  | _, [] => []
  | i, item :: rest =>
      { item with _id := itemID i, order_item_id := itemID i, order_id := orderID,
                  created_at := now, updated_at := now } ::
        stampItems itemID orderID now (i + 1) rest

/-- Handler `CreateOrderItem`: inserts one order into `orders` (its `order_id` a second
fresh id, its `Order_Date` left at the zero value) and the stamped items into
`order_items`. -/
def CreateOrderItem (orderObjID orderID : ObjectID) (itemID : Nat → ObjectID) (now : Time)
    (s : Store) (body : Option OrderItemPack) : Store × Response CreatedOrderItems :=
  match body with
  | none => (s, .error StatusBadRequest "bind")
  | some pack =>
      if pack.order_items.length = 0 then
        (s, .error StatusBadRequest "order_items cannot be empty")
      else
        let order : Order :=
          { _id := orderObjID, order_id := orderID, table_id := pack.table_id,
            order_date := 0, created_at := now, updated_at := now }
        let docs := stampItems itemID order.order_id now 0 pack.order_items
        ({ s with orders := s.orders ++ [order], order_items := s.order_items ++ docs },
          .json StatusCreated
            { order_id := order.order_id, order_items := docs.map (fun d => d._id) })

/-! ## User listing (`GetUsers`) -/

/-- The call `Find` with `SetSkip` and `SetLimit`: a negative skip is refused by
the server; limit 0 means no limit, and a negative limit asks for that many
documents in a single batch, taken here to hold them all. -/
def findSkipLimit {β : Type} (docs : List β) (skip limit : Int) : Except String (List β) :=
  if skip < 0 then .error "skip value must be non-negative"
  else if limit = 0 then .ok (docs.drop skip.toNat)
  else .ok ((docs.drop skip.toNat).take limit.natAbs)

/-- Handler `GetUsers` from the two parsed query values on: no clamping, the
start index, the `Find` and the reply, which is the list of users alone. -/
def GetUsersPage (s : Store) (recordPerPage page : Int) : Response (List User) :=
  let startIndex := wrapInt (wrapInt (page - 1) * recordPerPage)
  match findSkipLimit s.user startIndex recordPerPage with
  | .error e => .error StatusInternalServerError e
  | .ok users => .json StatusOK users

/-- Handler `GetUsers`: the query values are read as in `GetFoods`. -/
def GetUsers (s : Store) (recordPerPageQuery pageQuery : Option String) :
    Response (List User) :=
  GetUsersPage s (atoi (recordPerPageQuery.getD "10")) (atoi (pageQuery.getD "1"))

/-! ## Invoice handlers (`invoiceController.go`) -/

/-- The clock reading one day later, `AddDate(0, 0, 1)`. -/
def addDay (t : Time) : Time :=
  t + 86400

/-- Handler `CreateInvoice`: the order named by the invoice must be in `orders`;
the status defaults to `"PENDING"`, the invoice gets a fresh id and a due date
one day ahead, is validated and inserted into `invoices`. -/
def CreateInvoice (validate : Invoice → Bool) (newID : ObjectID) (now : Time) (s : Store)
    (body : Option Invoice) : Store × Response ObjectID :=
  match body with
  | none => (s, .error StatusBadRequest "bind")
  | some invoice =>
      match s.orders.find? (fun o => o.order_id = invoice.order_id) with
      | none => (s, .error StatusBadRequest "order not found")
      | some _ =>
          let status := match invoice.payment_status with
            | none => some "PENDING"
            | some st => some st
          let invoice := { invoice with payment_status := status, _id := newID,
                                        invoice_id := newID, created_at := now,
                                        updated_at := now, payment_due_date := addDay now }
          if validate invoice = false then (s, .error StatusBadRequest "validation")
          else ({ s with invoices := s.invoices ++ [invoice] }, .json StatusCreated newID)

/-- An entry `bson.E` of the `$set` document of `UpdateInvoice`. -/
inductive InvoiceUpdate where
  | payment_method (v : String)
  | payment_status (v : String)
  | updated_at (v : Time)
deriving DecidableEq, Repr

/-- The field an entry sets. -/
def InvoiceUpdate.field : InvoiceUpdate → String
  | .payment_method _ => "payment_method"
  | .payment_status _ => "payment_status"
  | .updated_at _ => "updated_at"

/-- The effect of one `$set` entry on an invoice document. -/
def InvoiceUpdate.apply : InvoiceUpdate → Invoice → Invoice
  | .payment_method v, d => { d with payment_method := some v }
  | .payment_status v, d => { d with payment_status := some v }
  | .updated_at v, d => { d with updated_at := v }

/-- The `$set` document `UpdateInvoice` has built when it tests its length:
the entries of the fields the request holds, then `updated_at`. -/
def invoiceUpdateObj (now : Time) (invoice : Invoice) : List InvoiceUpdate :=
  (match invoice.payment_method with
    | some v => [InvoiceUpdate.payment_method v]
    | none => []) ++
  (match invoice.payment_status with
    | some v => [InvoiceUpdate.payment_status v]
    | none => []) ++
  [InvoiceUpdate.updated_at now]

/-- Handler `UpdateInvoice`: `updated_at` is appended before the test for an
empty `$set` document. -/
def UpdateInvoice (now : Time) (s : Store) (invoiceId : String) (body : Option Invoice) :
    Store × Response UpdateResult :=
  match body with
  | none => (s, .error StatusBadRequest "bind")
  | some invoice =>
      let updateObj := invoiceUpdateObj now invoice
      if updateObj.length = 0 then (s, .error StatusBadRequest "no fields to update")
      else
        let docs := updateOne (fun d => d.invoice_id = invoiceId)
          (fun d => updateObj.foldl (fun d u => u.apply d) d) s.invoices
        ({ s with invoices := docs },
          .json StatusOK
            { matched_count :=
                if s.invoices.any (fun d => d.invoice_id = invoiceId) then 1 else 0 })

/-! ## Table, order, order item and menu updates -/

/-- An entry `bson.E` of the `$set` document of `UpdateTable`. -/
inductive TableUpdate where
  | number_of_guests (v : Int)
  | table_number (v : Int)
  | updated_at (v : Time)
deriving DecidableEq, Repr

/-- The field an entry sets. -/
def TableUpdate.field : TableUpdate → String
  | .number_of_guests _ => "number_of_guests"
  | .table_number _ => "table_number"
  | .updated_at _ => "updated_at"

/-- The effect of one `$set` entry on a table document. -/
def TableUpdate.apply : TableUpdate → Table → Table
  | .number_of_guests v, d => { d with number_of_guests := some v }
  | .table_number v, d => { d with table_number := some v }
  | .updated_at v, d => { d with updated_at := v }

/-- The `$set` document `UpdateTable` has built when it tests its length. -/
def tableUpdateObj (now : Time) (table : Table) : List TableUpdate :=
  (match table.number_of_guests with
    | some v => [TableUpdate.number_of_guests v]
    | none => []) ++
  (match table.table_number with
    | some v => [TableUpdate.table_number v]
    | none => []) ++
  [TableUpdate.updated_at now]

/-- Handler `UpdateTable`: `updated_at` is appended before the test for an empty
`$set` document. -/
def UpdateTable (now : Time) (s : Store) (tableId : String) (body : Option Table) :
    Store × Response UpdateResult :=
  match body with
  | none => (s, .error StatusBadRequest "bind")
  | some table =>
      let updateObj := tableUpdateObj now table
      if updateObj.length = 0 then (s, .error StatusBadRequest "no fields to update")
      else
        let docs := updateOne (fun d => d.table_id = tableId)
          (fun d => updateObj.foldl (fun d u => u.apply d) d) s.tables
        ({ s with tables := docs },
          .json StatusOK
            { matched_count := if s.tables.any (fun d => d.table_id = tableId) then 1 else 0 })

/-- An entry `bson.E` of the `$set` document of `UpdateOrderItem`. -/
inductive OrderItemUpdate where
  | quantity (v : Int)
  | unit_price (v : ℚ)
  | food_id (v : String)
  | updated_at (v : Time)
deriving DecidableEq, Repr

/-- The field an entry sets. -/
def OrderItemUpdate.field : OrderItemUpdate → String
  | .quantity _ => "quantity"
  | .unit_price _ => "unit_price"
  | .food_id _ => "food_id"
  | .updated_at _ => "updated_at"

/-- The effect of one `$set` entry on an order item document. -/
def OrderItemUpdate.apply : OrderItemUpdate → OrderItem → OrderItem
  | .quantity v, d => { d with quantity := some v }
  | .unit_price v, d => { d with unit_price := some v }
  | .food_id v, d => { d with food_id := some v }
  | .updated_at v, d => { d with updated_at := v }

/-- The `$set` document `UpdateOrderItem` has built when it tests its length:
the entries of the fields the request holds. -/
def orderItemUpdateHead (input : OrderItem) : List OrderItemUpdate :=
  (match input.quantity with
    | some v => [OrderItemUpdate.quantity v]
    | none => []) ++
  (match input.unit_price with
    | some v => [OrderItemUpdate.unit_price v]
    | none => []) ++
  (match input.food_id with
    | some v => [OrderItemUpdate.food_id v]
    | none => [])

/-- Handler `UpdateOrderItem`: an empty `$set` document is refused, then
`updated_at` is appended. -/
def UpdateOrderItem (now : Time) (s : Store) (orderItemId : String)
    (body : Option OrderItem) : Store × Response UpdateResult :=
  match body with
  | none => (s, .error StatusBadRequest "bind")
  | some input =>
      let update := orderItemUpdateHead input
      if update.length = 0 then (s, .error StatusBadRequest "no fields to update")
      else
        let update := update ++ [OrderItemUpdate.updated_at now]
        let docs := updateOne (fun d => d.order_item_id = orderItemId)
          (fun d => update.foldl (fun d u => u.apply d) d) s.order_items
        ({ s with order_items := docs },
          .json StatusOK
            { matched_count :=
                if s.order_items.any (fun d => d.order_item_id = orderItemId) then 1 else 0 })

/-- An entry `bson.E` of the `$set` document of `UpdateOrder`. -/
inductive OrderUpdate where
  | table_id (v : String)
  | updated_at (v : Time)
deriving DecidableEq, Repr

/-- The effect of one `$set` entry on an order document. -/
def OrderUpdate.apply : OrderUpdate → Order → Order
  | .table_id v, d => { d with table_id := some v }
  | .updated_at v, d => { d with updated_at := v }

/-- Handler `UpdateOrder`: an empty `$set` document is refused, then
`updated_at` is appended. -/
def UpdateOrder (now : Time) (s : Store) (orderId : String) (body : Option Order) :
    Store × Response UpdateResult :=
  match body with
  | none => (s, .error StatusBadRequest "bind")
  | some input =>
      let updateObj : List OrderUpdate :=
        match input.table_id with
        | some v => [OrderUpdate.table_id v]
        | none => []
      if updateObj.length = 0 then (s, .error StatusBadRequest "no fields to update")
      else
        let updateObj := updateObj ++ [OrderUpdate.updated_at now]
        let docs := updateOne (fun d => d.order_id = orderId)
          (fun d => updateObj.foldl (fun d u => u.apply d) d) s.orders
        ({ s with orders := docs },
          .json StatusOK
            { matched_count := if s.orders.any (fun d => d.order_id = orderId) then 1 else 0 })

/-- An entry `bson.E` of the `$set` document of `UpdateMenu`. -/
inductive MenuUpdate where
  | name (v : String)
  | category (v : String)
  | start_date (v : Time)
  | end_date (v : Time)
  | updated_at (v : Time)
deriving DecidableEq, Repr

/-- The effect of one `$set` entry on a menu document. -/
def MenuUpdate.apply : MenuUpdate → Menu → Menu
  | .name v, d => { d with name := v }
  | .category v, d => { d with category := v }
  | .start_date v, d => { d with start_date := some v }
  | .end_date v, d => { d with end_date := some v }
  | .updated_at v, d => { d with updated_at := v }

/-- The `$set` document `UpdateMenu` has built when it tests its length. -/
def menuUpdateHead (input : Menu) : List MenuUpdate :=
  (if input.name ≠ "" then [MenuUpdate.name input.name] else []) ++
  (if input.category ≠ "" then [MenuUpdate.category input.category] else []) ++
  (match input.start_date with
    | some v => [MenuUpdate.start_date v]
    | none => []) ++
  (match input.end_date with
    | some v => [MenuUpdate.end_date v]
    | none => [])

/-- Handler `UpdateMenu`: an empty `$set` document is refused, then
`updated_at` is appended. -/
def UpdateMenu (now : Time) (s : Store) (menuId : String) (body : Option Menu) :
    Store × Response UpdateResult :=
  match body with
  | none => (s, .error StatusBadRequest "bind")
  | some input =>
      let updateObj := menuUpdateHead input
      if updateObj.length = 0 then (s, .error StatusBadRequest "no fields to update")
      else
        let updateObj := updateObj ++ [MenuUpdate.updated_at now]
        let docs := updateOne (fun d => d.menu_id = menuId)
          (fun d => updateObj.foldl (fun d u => u.apply d) d) s.menus
        ({ s with menus := docs },
          .json StatusOK
            { matched_count := if s.menus.any (fun d => d.menu_id = menuId) then 1 else 0 })

/-- The field an entry of the `$set` document of `UpdateFood` sets. -/
def FoodUpdate.field : FoodUpdate → String
  | .name _ => "name"
  | .price _ => "price"
  | .food_image _ => "food_image"
  | .menu_id _ => "menu_id"
  | .updated_at _ => "updated_at"

/-- The whole `$set` document of an `UpdateFood` that reaches `UpdateOne`. -/
def foodUpdateObj (now : Time) (food : Food) : List FoodUpdate :=
  foodUpdateHead food ++
  (match food.menu_id with
    | some v => [FoodUpdate.menu_id v]
    | none => []) ++
  [FoodUpdate.updated_at now]

/-- The whole `$set` document of an `UpdateOrderItem` that reaches `UpdateOne`. -/
def orderItemUpdateObj (now : Time) (input : OrderItem) : List OrderItemUpdate :=
  orderItemUpdateHead input ++ [OrderItemUpdate.updated_at now]

/-! ## Concrete stores -/

/-- A food priced 0.125. -/
def soup : Food :=
  { _id := "a1", name := some "soup", price := some (1 / 8), food_image := none,
    created_at := 0, updated_at := 0, food_id := "f1", menu_id := some "m1" }

/-- A second document carrying the food id of `soup`. -/
def soupCopy : Food :=
  { _id := "a2", name := some "soup", price := some (1 / 8), food_image := none,
    created_at := 0, updated_at := 0, food_id := "f1", menu_id := some "m1" }

def table5 : Table :=
  { _id := "b1", number_of_guests := some 4, table_number := some 5,
    created_at := 0, updated_at := 0, table_id := "t1" }

def order1 : Order :=
  { _id := "c1", order_date := 0, created_at := 0, updated_at := 0,
    order_id := "o1", table_id := some "t1" }

/-- One portion of `soup` on order `o1`. -/
def item1 : OrderItem :=
  { _id := "i1", quantity := some 1, unit_price := some (1 / 8), created_at := 0,
    updated_at := 0, food_id := some "f1", order_item_id := "i1", order_id := "o1" }

/-- Two portions of `soup` on order `o1`. -/
def item2 : OrderItem :=
  { _id := "i2", quantity := some 2, unit_price := some (1 / 8), created_at := 0,
    updated_at := 0, food_id := some "f1", order_item_id := "i2", order_id := "o1" }

def invoice1 : Invoice :=
  { _id := "d1", invoice_id := "v1", order_id := "o1", payment_method := none,
    payment_status := some "PENDING", payment_due_date := 1, created_at := 0, updated_at := 0 }

/-- An order of one `soup`, with its table, order and invoice documents in the
collections the handlers write. -/
def storeOneItem : Store :=
  { food := [soup], menus := [], orders := [order1], order_items := [item1],
    tables := [table5], invoices := [invoice1], order := [], table := [] }

/-- The food collection holds two documents with the same `food_id`. -/
def storeDuplicateFood : Store :=
  { food := [soup, soupCopy], menus := [], orders := [order1], order_items := [item2],
    tables := [table5], invoices := [invoice1], order := [], table := [] }

/-- The enriched record of `item1` on `storeOneItem`: the joins on `"order"` and
`"table"` find nothing. -/
def enrichedItem1 : EnrichedItem :=
  { _id := "i1", food_name := some "soup", food_image := none, table_number := none,
    table_id := none, order_id := none, price := some (1 / 8), quantity := some 1,
    amount := some (1 / 8) }

/-- The aggregate record of order `o1` on `storeOneItem`. -/
def recordOneItem : AggregateRecord :=
  { payment_due := 1 / 8, total_count := 1, table_number := none,
    order_items := [enrichedItem1] }

/-- The invoice view of `v1` on `storeOneItem`. -/
def viewOneItem : InvoiceViewFormat :=
  { invoice_id := "v1", payment_method := "N/A", order_id := "o1",
    payment_status := some "PENDING", payment_due := 1 / 8, table_number := none,
    payment_due_date := 1, order_details := [enrichedItem1] }

/-- The enriched record of `item2`; on `storeDuplicateFood` the pipeline emits
it once per matching food document. -/
def enrichedItem2 : EnrichedItem :=
  { _id := "i2", food_name := some "soup", food_image := none, table_number := none,
    table_id := none, order_id := none, price := some (1 / 8), quantity := some 2,
    amount := some (1 / 4) }

/-- The aggregate record of order `o1` on `storeDuplicateFood`. -/
def recordDuplicateFood : AggregateRecord :=
  { payment_due := 1 / 2, total_count := 4, table_number := none,
    order_items := [enrichedItem2, enrichedItem2] }

/-- The invoice `v1` names order `o1`, which has no order item. -/
def storeNoItems : Store :=
  { food := [soup], menus := [], orders := [order1], order_items := [],
    tables := [table5], invoices := [invoice1], order := [], table := [] }

/-- An item of order `o1` whose food id `f9` is the id of no food. -/
def item3 : OrderItem :=
  { _id := "i3", quantity := some 3, unit_price := some 2, created_at := 0,
    updated_at := 0, food_id := some "f9", order_item_id := "i3", order_id := "o1" }

/-- Order `o1` holds `item1`, whose food exists, and `item3`, whose food does
not. -/
def storeMissingFood : Store :=
  { food := [soup], menus := [], orders := [order1], order_items := [item1, item3],
    tables := [table5], invoices := [invoice1], order := [], table := [] }

/-- The enriched record of `item3` on `storeMissingFood`. -/
def enrichedItem3 : EnrichedItem :=
  { _id := "i3", food_name := none, food_image := none, table_number := none,
    table_id := none, order_id := none, price := none, quantity := some 3,
    amount := none }

/-- The aggregate record of order `o1` on `storeMissingFood`. -/
def recordMissingFood : AggregateRecord :=
  { payment_due := 1 / 8, total_count := 4, table_number := none,
    order_items := [enrichedItem1, enrichedItem3] }

/-- The food of `soup` after its price was changed to 0.25. -/
def soupRepriced : Food :=
  { soup with price := some (1 / 4) }

/-- The store `storeOneItem` after the price change: only the current price of
the food differs; the item keeps its captured `unit_price` 0.125. -/
def storeRepriced : Store :=
  { storeOneItem with food := [soupRepriced] }

/-- The aggregate record of order `o1` on `storeRepriced`. -/
def recordRepriced : AggregateRecord :=
  { payment_due := 1 / 4, total_count := 1, table_number := none,
    order_items := [{ enrichedItem1 with price := some (1 / 4), amount := some (1 / 4) }] }

/-- A store holding one food and nothing else. -/
def storeSeed : Store :=
  { food := [soup], menus := [], orders := [], order_items := [], tables := [],
    invoices := [], order := [], table := [] }

/-- The request body of `CreateTable`: table number 5 for 4 guests. -/
def tableRequest : Table :=
  { _id := "", number_of_guests := some 4, table_number := some 5, created_at := 0,
    updated_at := 0, table_id := "" }

/-- The request body of `CreateOrderItem`: one `soup` for table `t1`. -/
def packRequest : OrderItemPack :=
  { table_id := some "t1"
    order_items :=
      [{ _id := "", quantity := some 1, unit_price := some (1 / 8), created_at := 0,
         updated_at := 0, food_id := some "f1", order_item_id := "", order_id := "" }] }

/-- The store after `CreateTable` stored table `t1` and `CreateOrderItem` stored
order `o1` for that table with one item. -/
def storeAfterCreates : Store :=
  (CreateOrderItem "c1" "o1" (fun _ => "i1") 0
    (CreateTable (fun _ => true) "t1" 0 storeSeed (some tableRequest)).1
    (some packRequest)).1

/-- The food document number `i` of a listing. -/
def foodNumber (i : Nat) : Food :=
  { _id := toString i, name := none, price := some i, food_image := none,
    created_at := i, updated_at := i, food_id := toString i, menu_id := none }

/-- A store whose food collection holds the 25 documents numbered 0 to 24. -/
def storeMenu25 : Store :=
  { storeSeed with food := (List.range 25).map foodNumber }

/-- A menu. -/
def menu1 : Menu :=
  { _id := "e1", name := "lunch", category := "main", start_date := none,
    end_date := none, created_at := 0, updated_at := 0, menu_id := "m1" }

/-- A store holding one menu and nothing else. -/
def storeOneMenu : Store :=
  { food := [], menus := [menu1], orders := [], order_items := [], tables := [],
    invoices := [], order := [], table := [] }

/-- A `CreateFood` request with the price 40597907227499.125. -/
def foodRequestLarge : Food :=
  { _id := "", name := some "banquet", price := some (324783257819993 / 8),
    food_image := some "img", created_at := 0, updated_at := 0, food_id := "",
    menu_id := some "m1" }

/-- The user document number `i` of a listing. -/
def userNumber (i : Nat) : User :=
  { _id := toString i, first_name := none, last_name := none, password := none,
    email := none, phone := none, token := none, refresh_token := none,
    created_at := i, updated_at := i, user_id := toString i }

/-- A store with 12 foods and 12 users. -/
def storeTwelve : Store :=
  { storeSeed with
    food := (List.range 12).map foodNumber
    user := (List.range 12).map userNumber }

/-- The reply of `CreateOrderItem` to `packRequest` with the fresh ids `o1` and
`i1`. -/
def createdOrder1 : CreatedOrderItems :=
  { order_id := "o1", order_items := ["i1"] }

/-- A `CreateInvoice` request for the order `o9`. -/
def invoiceRequest : Invoice :=
  { _id := "", invoice_id := "", order_id := "o9", payment_method := none,
    payment_status := none, payment_due_date := 0, created_at := 0, updated_at := 0 }

/-- A `CreateFood` request for the menu `m9`. -/
def foodRequest : Food :=
  { _id := "", name := some "stew", price := some 2, food_image := some "img",
    created_at := 0, updated_at := 0, food_id := "", menu_id := some "m9" }

/-- An update request for an invoice that holds no field. -/
def emptyInvoice : Invoice :=
  { _id := "", invoice_id := "", order_id := "", payment_method := none,
    payment_status := none, payment_due_date := 0, created_at := 0, updated_at := 0 }

/-- An update request for a table that holds no field. -/
def emptyTable : Table :=
  { _id := "", number_of_guests := none, table_number := none, created_at := 0,
    updated_at := 0, table_id := "" }

/-- An update request for an order item that holds no field. -/
def emptyOrderItem : OrderItem :=
  { _id := "", quantity := none, unit_price := none, created_at := 0, updated_at := 0,
    food_id := none, order_item_id := "", order_id := "" }

/-- An update request for an order that holds no field. -/
def emptyOrder : Order :=
  { _id := "", order_date := 0, created_at := 0, updated_at := 0, order_id := "",
    table_id := none }

/-- An update request for a menu that holds no field. -/
def emptyMenu : Menu :=
  { _id := "", name := "", category := "", start_date := none, end_date := none,
    created_at := 0, updated_at := 0, menu_id := "" }

/-- The store `storeOneItem` with the menu `m1`. -/
def storeWithMenu : Store :=
  { storeOneItem with menus := [menu1] }

/-- A store whose food collection holds two documents with the food id `f1`,
and no order yet. -/
def storeSeedDuplicate : Store :=
  { storeSeed with food := [soup, soupCopy] }

/-- The request body of `CreateOrderItem`: two portions of `soup` for table
`t1`. -/
def packRequestTwo : OrderItemPack :=
  { table_id := some "t1"
    order_items :=
      [{ _id := "", quantity := some 2, unit_price := some (1 / 8), created_at := 0,
         updated_at := 0, food_id := some "f1", order_item_id := "", order_id := "" }] }

/-- A food priced 0.10: the price is the `float64` nearest to 0.1, the value
`toFixed(0.1, 2)` that `CreateFood` stores. -/
def bread : Food :=
  { _id := "a3", name := some "bread", price := some (3602879701896397 / 36028797018963968),
    food_image := none, created_at := 0, updated_at := 0, food_id := "f2",
    menu_id := some "m1" }

def order2 : Order :=
  { _id := "c2", order_date := 0, created_at := 0, updated_at := 0,
    order_id := "o2", table_id := some "t1" }

/-- Three portions of `bread` on order `o2`. -/
def item4 : OrderItem :=
  { _id := "i4", quantity := some 3, unit_price := some (3602879701896397 / 36028797018963968),
    created_at := 0, updated_at := 0, food_id := some "f2", order_item_id := "i4",
    order_id := "o2" }

def invoice2 : Invoice :=
  { _id := "d2", invoice_id := "v2", order_id := "o2", payment_method := none,
    payment_status := some "PENDING", payment_due_date := 1, created_at := 0, updated_at := 0 }

/-- An order of three `bread`, with its table, order and invoice documents. -/
def storeThreeBreads : Store :=
  { food := [bread], menus := [], orders := [order2], order_items := [item4],
    tables := [table5], invoices := [invoice2], order := [], table := [] }

/-- The enriched record of `item4` on `storeThreeBreads`: the amount is the
`float64` product 0.1 * 3 = 0.30000000000000004. -/
def enrichedItem4 : EnrichedItem :=
  { _id := "i4", food_name := some "bread", food_image := none, table_number := none,
    table_id := none, order_id := none,
    price := some (3602879701896397 / 36028797018963968), quantity := some 3,
    amount := some (1351079888211149 / 4503599627370496) }

/-- The aggregate record of order `o2` on `storeThreeBreads`. -/
def recordThreeBreads : AggregateRecord :=
  { payment_due := 1351079888211149 / 4503599627370496, total_count := 3,
    table_number := none, order_items := [enrichedItem4] }

/-- An `UpdateFood` request that holds the name and the menu id. -/
def foodPatch : Food :=
  { _id := "", name := some "broth", price := none, food_image := none, created_at := 0,
    updated_at := 0, food_id := "", menu_id := some "m1" }

/-- An `UpdateInvoice` request that holds the payment method. -/
def invoicePatch : Invoice :=
  { emptyInvoice with payment_method := some "CARD" }

/-- An `UpdateTable` request that holds the number of guests. -/
def tablePatch : Table :=
  { emptyTable with number_of_guests := some 2 }

/-- An `UpdateOrderItem` request that holds the quantity. -/
def orderItemPatch : OrderItem :=
  { emptyOrderItem with quantity := some 5 }


/-! ## Facts about binary64 rounding -/

theorem log_eq_of_bounds (q : ℚ) (L : Int) (h1 : (2 : ℚ) ^ L ≤ |q|)
    (h2 : |q| < (2 : ℚ) ^ (L + 1)) : Int.log 2 |q| = L := by
  have hpos : (0 : ℚ) < |q| := lt_of_lt_of_le (zpow_pos (by norm_num) L) h1
  have ha : L ≤ Int.log 2 |q| :=
    (Int.zpow_le_iff_le_log (by norm_num) hpos).mp (by exact_mod_cast h1)
  have hb : Int.log 2 |q| < L + 1 :=
    (Int.lt_zpow_iff_log_lt (by norm_num) hpos).mp (by exact_mod_cast h2)
  omega

/-- Evaluation of `float64` on a number whose binade is known. -/
theorem float64_eq (q : ℚ) (L m : Int) (h1 : (2 : ℚ) ^ L ≤ |q|)
    (h2 : |q| < (2 : ℚ) ^ (L + 1)) (hL : -1022 ≤ L)
    (hm : roundHalfEven (q / 2 ^ (L - 52)) = m) : float64 q = m * 2 ^ (L - 52) := by
  have hq : q ≠ 0 := by
    intro h
    rw [h, abs_zero] at h1
    exact absurd h1 (not_le.mpr (zpow_pos (by norm_num) L))
  have he : ulpExponent q = L - 52 := by
    unfold ulpExponent
    rw [log_eq_of_bounds q L h1 h2]
    omega
  unfold float64
  rw [if_neg hq, he, hm]


theorem abs_roundHalfEven_sub_le (x : ℚ) : |(roundHalfEven x : ℚ) - x| ≤ 1 / 2 := by
  have h1 : (⌊x⌋ : ℚ) ≤ x := Int.floor_le x
  have h2 : x < ⌊x⌋ + 1 := Int.lt_floor_add_one x
  unfold roundHalfEven
  split_ifs with ha hb hc
  · rw [abs_le]; constructor <;> linarith
  · push_cast; rw [abs_le]; constructor <;> linarith
  · rw [abs_le]; constructor <;> linarith
  · push_cast; rw [abs_le]; constructor <;> linarith

theorem roundHalfEven_intCast (n : Int) : roundHalfEven (n : ℚ) = n := by
  unfold roundHalfEven
  simp

theorem float64_zero : float64 0 = 0 := by
  simp [float64]

theorem float64_error (q : ℚ) : |float64 q - q| ≤ |q| / 2 ^ 53 + 1 / 2 ^ 60 := by
  by_cases hq : q = 0
  · subst hq
    rw [float64_zero]
    norm_num
  have hpos : (0 : ℚ) < |q| := abs_pos.mpr hq
  have h2 : (0 : ℚ) < 2 ^ ulpExponent q := zpow_pos (by norm_num) _
  have hr := abs_roundHalfEven_sub_le (q / 2 ^ ulpExponent q)
  have heq : float64 q - q =
      ((roundHalfEven (q / 2 ^ ulpExponent q) : ℚ) - q / 2 ^ ulpExponent q) *
        2 ^ ulpExponent q := by
    unfold float64
    rw [if_neg hq]
    field_simp
  have hstep : |float64 q - q| ≤ 1 / 2 * 2 ^ ulpExponent q := by
    rw [heq, abs_mul, abs_of_pos h2]
    exact mul_le_mul_of_nonneg_right hr h2.le
  have hlog : (2 : ℚ) ^ Int.log 2 |q| ≤ |q| := by
    have := Int.zpow_log_le_self (b := 2) (r := |q|) (by norm_num) hpos
    exact_mod_cast this
  have hmax : (2 : ℚ) ^ ulpExponent q ≤ |q| / 2 ^ 52 + 1 / 2 ^ 1074 := by
    unfold ulpExponent
    rcases le_total (Int.log 2 |q| - 52) (-1074) with h | h
    · rw [max_eq_right h]
      have : (2 : ℚ) ^ (-1074 : Int) = 1 / 2 ^ 1074 := by
        rw [zpow_neg, one_div]
        norm_cast
      rw [this]
      have : 0 ≤ |q| / 2 ^ 52 := by positivity
      linarith
    · rw [max_eq_left h, zpow_sub₀ (by norm_num : (2 : ℚ) ≠ 0)]
      have h52 : (2 : ℚ) ^ (52 : Int) = 2 ^ 52 := by norm_cast
      rw [h52]
      have : (2 : ℚ) ^ Int.log 2 |q| / 2 ^ 52 ≤ |q| / 2 ^ 52 :=
        div_le_div_of_nonneg_right hlog (by positivity)
      have : (0 : ℚ) ≤ 1 / 2 ^ 1074 := by positivity
      linarith
  have hsmall : (1 : ℚ) / 2 ^ 1074 ≤ 1 / 2 ^ 59 :=
    one_div_le_one_div_of_le (by positivity) (pow_le_pow_right₀ (by norm_num) (by norm_num))
  have e1 : |q| / 2 ^ 53 = 1 / 2 * (|q| / 2 ^ 52) := by ring
  have e2 : (1 : ℚ) / 2 ^ 60 = 1 / 2 * (1 / 2 ^ 59) := by ring
  rw [e1, e2]
  linarith

theorem float64_intCast (k : Int) (hk : |k| < 2 ^ 52) : float64 (k : ℚ) = k := by
  by_cases h0 : k = 0
  · subst h0
    simp [float64_zero]
  have hq : (k : ℚ) ≠ 0 := by exact_mod_cast h0
  have hpos : (0 : ℚ) < |(k : ℚ)| := abs_pos.mpr hq
  have hone : (1 : ℚ) ≤ |(k : ℚ)| := by
    have : (1 : Int) ≤ |k| := Int.one_le_abs h0
    exact_mod_cast this
  have hlt : |(k : ℚ)| < 2 ^ (52 : Int) := by
    have h : |(k : ℚ)| < (2 : ℚ) ^ (52 : Nat) := by exact_mod_cast hk
    rw [← zpow_natCast] at h
    exact_mod_cast h
  have hL0 : 0 ≤ Int.log 2 |(k : ℚ)| :=
    (Int.zpow_le_iff_le_log (by norm_num) hpos).mp (by simpa using hone)
  have hL1 : Int.log 2 |(k : ℚ)| < 52 :=
    (Int.lt_zpow_iff_log_lt (by norm_num) hpos).mp (by exact_mod_cast hlt)
  obtain ⟨n, hn⟩ : ∃ n : Nat, ulpExponent (k : ℚ) = -(n : Int) := by
    refine ⟨(52 - Int.log 2 |(k : ℚ)|).toNat, ?_⟩
    unfold ulpExponent
    omega
  have ht : (k : ℚ) / 2 ^ ulpExponent (k : ℚ) = ((k * 2 ^ n : Int) : ℚ) := by
    rw [hn, zpow_neg, zpow_natCast]
    push_cast
    field_simp
  unfold float64
  rw [if_neg hq, ht, roundHalfEven_intCast, hn, zpow_neg, zpow_natCast]
  push_cast
  field_simp

theorem truncToInt_of_nonneg (z : ℚ) (h0 : 0 ≤ z) (h1 : z < 2 ^ 63) :
    truncToInt z = ⌊z⌋ := by
  unfold truncToInt
  rw [if_pos ⟨by linarith, h1⟩, if_pos h0]

theorem truncToInt_of_neg (z : ℚ) (h0 : z < 0) (h1 : -(2 ^ 63) ≤ z) :
    truncToInt z = ⌈z⌉ := by
  unfold truncToInt
  rw [if_pos ⟨h1, by linarith⟩, if_neg (not_le.mpr h0)]

theorem abs_float64_le (q : ℚ) : |float64 q| ≤ |q| + |q| / 2 ^ 53 + 1 / 2 ^ 60 := by
  have h := float64_error q
  have h2 : |float64 q| ≤ |float64 q - q| + |q| := by
    have := abs_add (float64 q - q) q
    simpa using this
  linarith

/-- The integer `round` yields on a value within a quarter of a positive
integer below 10^15 is that integer. -/
theorem round_of_near_pos (k : Int) (y : ℚ) (hk1 : 1 ≤ k) (hkb : k ≤ 10 ^ 15)
    (hy : |y - k| < 1 / 4) : round y = k := by
  have hk1q : (1 : ℚ) ≤ k := by exact_mod_cast hk1
  have hkbq : (k : ℚ) ≤ 10 ^ 15 := by exact_mod_cast hkb
  rw [abs_lt] at hy
  have hypos : 0 ≤ y := by linarith
  have herr := float64_error (y + 1 / 2)
  have habs : |y + 1 / 2| = y + 1 / 2 := abs_of_nonneg (by linarith)
  rw [habs, abs_le] at herr
  have hbound : (y + 1 / 2) / 2 ^ 53 + 1 / 2 ^ 60 < 1 / 8 := by
    have : (y + 1 / 2) / 2 ^ 53 ≤ (10 ^ 15 + 1) / 2 ^ 53 :=
      div_le_div_of_nonneg_right (by linarith) (by positivity)
    have h3 : ((10 : ℚ) ^ 15 + 1) / 2 ^ 53 + 1 / 2 ^ 60 < 1 / 8 := by norm_num
    linarith
  unfold round copysignHalf
  rw [if_pos hypos, truncToInt_of_nonneg _ (by linarith) (by
    have : (10 : ℚ) ^ 15 + 2 < 2 ^ 63 := by norm_num
    linarith)]
  rw [Int.floor_eq_iff]
  constructor <;> linarith

/-- The negative counterpart of `round_of_near_pos`. -/
theorem round_of_near_neg (k : Int) (y : ℚ) (hk1 : k ≤ -1) (hkb : -(10 ^ 15) ≤ k)
    (hy : |y - k| < 1 / 4) : round y = k := by
  have hk1q : (k : ℚ) ≤ -1 := by exact_mod_cast hk1
  have hkbq : -(10 : ℚ) ^ 15 ≤ k := by exact_mod_cast hkb
  rw [abs_lt] at hy
  have hyneg : ¬ 0 ≤ y := by
    rw [not_le]
    linarith
  have herr := float64_error (y + -(1 / 2))
  have habs : |y + -(1 / 2)| = -(y + -(1 / 2)) := abs_of_neg (by linarith)
  rw [habs, abs_le] at herr
  have hbound : -(y + -(1 / 2)) / 2 ^ 53 + 1 / 2 ^ 60 < 1 / 8 := by
    have : -(y + -(1 / 2)) / 2 ^ 53 ≤ (10 ^ 15 + 1) / 2 ^ 53 :=
      div_le_div_of_nonneg_right (by linarith) (by positivity)
    have h3 : ((10 : ℚ) ^ 15 + 1) / 2 ^ 53 + 1 / 2 ^ 60 < 1 / 8 := by norm_num
    linarith
  unfold round copysignHalf
  rw [if_neg hyneg, truncToInt_of_neg _ (by linarith) (by
    have : (10 : ℚ) ^ 15 + 2 < 2 ^ 63 := by norm_num
    linarith)]
  rw [Int.ceil_eq_iff]
  constructor <;> linarith

theorem round_zero : round 0 = 0 := by
  have h : float64 ((0 : ℚ) + 1 / 2) = 1 / 2 := by
    rw [float64_eq (0 + 1 / 2) (-1) (2 ^ 52) (by norm_num [abs_of_pos])
      (by norm_num [abs_of_pos]) (by norm_num) (by norm_num [roundHalfEven])]
    norm_num
  unfold round copysignHalf
  rw [if_pos le_rfl, h, truncToInt_of_nonneg _ (by norm_num) (by norm_num)]
  norm_num

/-- The integer `round` yields on a value of magnitude at most 10^15 + 1/4 has
magnitude at most 10^15. -/
theorem abs_round_le (y : ℚ) (hy : |y| ≤ 10 ^ 15 + 1 / 4) : |round y| ≤ 10 ^ 15 := by
  have hc : |copysignHalf y| = 1 / 2 := by
    unfold copysignHalf
    split_ifs <;> norm_num [abs_of_pos]
  have hw : |y + copysignHalf y| ≤ 10 ^ 15 + 3 / 4 := by
    have := abs_add y (copysignHalf y)
    linarith
  have hz := abs_float64_le (y + copysignHalf y)
  have hdiv : |y + copysignHalf y| / 2 ^ 53 ≤ (10 ^ 15 + 3 / 4) / 2 ^ 53 :=
    div_le_div_of_nonneg_right hw (by positivity)
  have hnum : ((10 : ℚ) ^ 15 + 3 / 4) / 2 ^ 53 + 1 / 2 ^ 60 < 1 / 8 := by norm_num
  have hzb : |float64 (y + copysignHalf y)| < 10 ^ 15 + 1 := by linarith
  rw [abs_lt] at hzb
  have h63 : (10 : ℚ) ^ 15 + 1 < 2 ^ 63 := by norm_num
  unfold round
  rcases le_or_lt 0 (float64 (y + copysignHalf y)) with hpos | hneg
  · rw [truncToInt_of_nonneg _ hpos (by linarith), abs_le]
    constructor
    · have : (0 : Int) ≤ ⌊float64 (y + copysignHalf y)⌋ := Int.floor_nonneg.mpr hpos
      omega
    · have h1 : (⌊float64 (y + copysignHalf y)⌋ : ℚ) < 10 ^ 15 + 1 :=
        lt_of_le_of_lt (Int.floor_le _) hzb.2
      have h2 : ⌊float64 (y + copysignHalf y)⌋ < 10 ^ 15 + 1 := by exact_mod_cast h1
      omega
  · rw [truncToInt_of_neg _ hneg (by linarith), abs_le]
    constructor
    · have h1 : -((10 : ℚ) ^ 15 + 1) < (⌈float64 (y + copysignHalf y)⌉ : ℚ) :=
        lt_of_lt_of_le hzb.1 (Int.le_ceil _)
      have h2 : -(10 ^ 15 + 1) < ⌈float64 (y + copysignHalf y)⌉ := by exact_mod_cast h1
      omega
    · have : ⌈float64 (y + copysignHalf y)⌉ ≤ 0 := Int.ceil_le.mpr (by simpa using hneg.le)
      omega

theorem abs_round_product_le (x : ℚ) (hx : |x| ≤ 10 ^ 13) :
    |round (float64 (x * 100))| ≤ 10 ^ 15 := by
  apply abs_round_le
  have h := abs_float64_le (x * 100)
  have hx100 : |x * 100| ≤ 10 ^ 15 := by
    rw [abs_mul]
    norm_num
    linarith
  have hdiv : |x * 100| / 2 ^ 53 ≤ 10 ^ 15 / 2 ^ 53 :=
    div_le_div_of_nonneg_right hx100 (by positivity)
  have hnum : (10 : ℚ) ^ 15 / 2 ^ 53 + 1 / 2 ^ 60 < 1 / 4 := by norm_num
  linarith

theorem toFixed_two (x : ℚ) (hk : |round (float64 (x * 100))| ≤ 10 ^ 15) :
    toFixed x 2 = float64 ((round (float64 (x * 100)) : ℚ) / 100) := by
  have h52 : |round (float64 (x * 100))| < 2 ^ 52 := lt_of_le_of_lt hk (by norm_num)
  have h100 : (10 : ℚ) ^ 2 = 100 := by norm_num
  simp only [toFixed, h100]
  rw [float64_intCast _ h52]

/-- Rounding the stored value of a two-decimal amount `k / 100` again yields
the same integer `k`. -/
theorem round_float64_cents (k : Int) (hk : |k| ≤ 10 ^ 15) :
    round (float64 (float64 ((k : ℚ) / 100) * 100)) = k := by
  rw [abs_le] at hk
  by_cases h0 : k = 0
  · subst h0
    simp [float64_zero, round_zero]
  have hkq : |(k : ℚ)| ≤ 10 ^ 15 := by
    rw [abs_le]
    constructor
    · exact_mod_cast hk.1
    · exact_mod_cast hk.2
  have e1 := float64_error ((k : ℚ) / 100)
  have e2 := float64_error (float64 ((k : ℚ) / 100) * 100)
  have hk100 : |(k : ℚ) / 100| = |(k : ℚ)| / 100 := by
    rw [abs_div]
    norm_num
  rw [hk100] at e1
  have hp : |float64 ((k : ℚ) / 100) * 100 - k| ≤ |(k : ℚ)| / 2 ^ 53 + 100 / 2 ^ 60 := by
    have : float64 ((k : ℚ) / 100) * 100 - k = (float64 ((k : ℚ) / 100) - k / 100) * 100 := by
      ring
    rw [this, abs_mul]
    norm_num
    have := mul_le_mul_of_nonneg_right e1 (by norm_num : (0 : ℚ) ≤ 100)
    linarith
  have hp2 : |float64 ((k : ℚ) / 100) * 100| ≤
      |(k : ℚ)| + |(k : ℚ)| / 2 ^ 53 + 100 / 2 ^ 60 := by
    have := abs_add (float64 ((k : ℚ) / 100) * 100 - k) k
    simp only [sub_add_cancel] at this
    linarith
  have hy : |float64 (float64 ((k : ℚ) / 100) * 100) - k| < 1 / 4 := by
    have htri := abs_add (float64 (float64 ((k : ℚ) / 100) * 100) -
      float64 ((k : ℚ) / 100) * 100) (float64 ((k : ℚ) / 100) * 100 - k)
    simp only [sub_add_sub_cancel] at htri
    have hdiv : |float64 ((k : ℚ) / 100) * 100| / 2 ^ 53 ≤
        (|(k : ℚ)| + |(k : ℚ)| / 2 ^ 53 + 100 / 2 ^ 60) / 2 ^ 53 :=
      div_le_div_of_nonneg_right hp2 (by positivity)
    have hA : |(k : ℚ)| / 2 ^ 53 ≤ 10 ^ 15 / 2 ^ 53 :=
      div_le_div_of_nonneg_right hkq (by positivity)
    have hB : (|(k : ℚ)| + |(k : ℚ)| / 2 ^ 53 + 100 / 2 ^ 60) / 2 ^ 53 ≤
        (10 ^ 15 + 10 ^ 15 / 2 ^ 53 + 100 / 2 ^ 60) / 2 ^ 53 :=
      div_le_div_of_nonneg_right (by linarith) (by positivity)
    have hnum : (10 : ℚ) ^ 15 / 2 ^ 53 + 100 / 2 ^ 60 +
        ((10 ^ 15 + 10 ^ 15 / 2 ^ 53 + 100 / 2 ^ 60) / 2 ^ 53 + 1 / 2 ^ 60) < 1 / 4 := by
      norm_num
    linarith
  rcases lt_or_gt_of_ne h0 with hneg | hpos
  · exact round_of_near_neg k _ (by omega) (by omega) hy
  · exact round_of_near_pos k _ (by omega) (by omega) hy

/-- Within amounts of magnitude up to 10^13, `toFixed(·, 2)` returns its own
results unchanged. -/
theorem toFixed_idempotent (x : ℚ) (hx : |x| ≤ 10 ^ 13) :
    toFixed (toFixed x 2) 2 = toFixed x 2 := by
  have hk := abs_round_product_le x hx
  have h1 := toFixed_two x hk
  have hk2 := round_float64_cents _ hk
  rw [h1, toFixed_two _ (by rw [hk2]; exact hk), hk2]

/-- Evaluation of `toFixed(x, 2)` from the values of its steps. -/
theorem toFixed_eval (x y z p : ℚ) (k : Int) (hy : float64 (x * 100) = y)
    (hz : float64 (y + copysignHalf y) = z) (hk : truncToInt z = k) (hkb : |k| < 2 ^ 52)
    (hp : float64 ((k : ℚ) / 100) = p) : toFixed x 2 = p := by
  have h100 : (10 : ℚ) ^ 2 = 100 := by norm_num
  simp only [toFixed, h100, round, hy, hz, hk]
  rw [float64_intCast k hkb, hp]

theorem toFixed_eighth : toFixed (1 / 8 * 1) 2 = 1170935903116329 / 9007199254740992 := by
  apply toFixed_eval _ (25 / 2) 13 _ 13
  · rw [float64_eq _ 3 7036874417766400 (by norm_num [abs_of_pos])
      (by norm_num [abs_of_pos]) (by norm_num) (by norm_num [roundHalfEven])]
    norm_num
  · rw [float64_eq _ 3 7318349394477056 (by norm_num [abs_of_pos, copysignHalf])
      (by norm_num [abs_of_pos, copysignHalf]) (by norm_num)
      (by norm_num [roundHalfEven, copysignHalf])]
    norm_num
  · norm_num [truncToInt]
  · norm_num
  · rw [float64_eq _ (-3) 4683743612465316 (by norm_num [abs_of_pos])
      (by norm_num [abs_of_pos]) (by norm_num) (by norm_num [roundHalfEven])]
    norm_num

theorem float64_decimal_19995 :
    float64 (3999 / 200) = 5628092159329567 / 281474976710656 := by
  rw [float64_eq (3999 / 200) 4 5628092159329567 (by norm_num [abs_of_pos])
    (by norm_num [abs_of_pos]) (by norm_num) (by norm_num [roundHalfEven])]
  norm_num

theorem toFixed_decimal_19995 : toFixed (5628092159329567 / 281474976710656) 2 = 20 := by
  apply toFixed_eval _ (3999 / 2) 2000 20 2000
  · rw [float64_eq _ 10 8793893998952448 (by norm_num [abs_of_pos])
      (by norm_num [abs_of_pos]) (by norm_num) (by norm_num [roundHalfEven])]
    norm_num
  · rw [float64_eq _ 10 8796093022208000 (by norm_num [abs_of_pos, copysignHalf])
      (by norm_num [abs_of_pos, copysignHalf]) (by norm_num)
      (by norm_num [roundHalfEven, copysignHalf])]
    norm_num
  · norm_num [truncToInt]
  · norm_num
  · rw [float64_eq _ 4 5629499534213120 (by norm_num [abs_of_pos])
      (by norm_num [abs_of_pos]) (by norm_num) (by norm_num [roundHalfEven])]
    norm_num

theorem toFixed_large : toFixed (324783257819993 / 8) 2 = 5196532125119889 / 128 := by
  apply toFixed_eval _ (8119581445499825 / 2) 4059790722749913 _ 4059790722749913
  · rw [float64_eq _ 51 8119581445499825 (by norm_num [abs_of_pos])
      (by norm_num [abs_of_pos]) (by norm_num) (by norm_num [roundHalfEven])]
    norm_num
  · rw [float64_eq _ 51 8119581445499826 (by norm_num [abs_of_pos, copysignHalf])
      (by norm_num [abs_of_pos, copysignHalf]) (by norm_num)
      (by norm_num [roundHalfEven, copysignHalf])]
    norm_num
  · norm_num [truncToInt]
  · norm_num
  · rw [float64_eq _ 45 5196532125119889 (by norm_num [abs_of_pos])
      (by norm_num [abs_of_pos]) (by norm_num) (by norm_num [roundHalfEven])]
    norm_num

theorem toFixed_large_again : toFixed (5196532125119889 / 128) 2 = 2598266062559945 / 64 := by
  apply toFixed_eval _ (8119581445499827 / 2) 4059790722749914 _ 4059790722749914
  · rw [float64_eq _ 51 8119581445499827 (by norm_num [abs_of_pos])
      (by norm_num [abs_of_pos]) (by norm_num) (by norm_num [roundHalfEven])]
    norm_num
  · rw [float64_eq _ 51 8119581445499828 (by norm_num [abs_of_pos, copysignHalf])
      (by norm_num [abs_of_pos, copysignHalf]) (by norm_num)
      (by norm_num [roundHalfEven, copysignHalf])]
    norm_num
  · norm_num [truncToInt]
  · norm_num
  · rw [float64_eq _ 45 5196532125119890 (by norm_num [abs_of_pos])
      (by norm_num [abs_of_pos]) (by norm_num) (by norm_num [roundHalfEven])]
    norm_num


theorem roundHalfEven_bounds (x : ℚ) : ⌊x⌋ ≤ roundHalfEven x ∧ roundHalfEven x ≤ ⌈x⌉ := by
  have h1 : (⌊x⌋ : ℚ) ≤ x := Int.floor_le x
  have hc : ∀ (_ : (⌊x⌋ : ℚ) < x), ⌊x⌋ + 1 ≤ ⌈x⌉ := by
    intro h
    have : ⌊x⌋ < ⌈x⌉ := by
      rw [Int.lt_ceil]
      exact h
    omega
  have hfc : ⌊x⌋ ≤ ⌈x⌉ := Int.floor_le_ceil x
  unfold roundHalfEven
  split_ifs with ha hb hc'
  · exact ⟨le_rfl, hfc⟩
  · exact ⟨by omega, hc (by linarith)⟩
  · exact ⟨le_rfl, hfc⟩
  · exact ⟨by omega, hc (by linarith)⟩

/-- A number that is an integer multiple of its own last place is a `float64`. -/
theorem float64_of_int_mul (v : ℚ) (k : Int) (h : v = k * 2 ^ ulpExponent v) :
    float64 v = v := by
  by_cases h0 : v = 0
  · rw [h0, float64_zero]
  have h2 : (0 : ℚ) < 2 ^ ulpExponent v := zpow_pos (by norm_num) _
  have hdiv : v / 2 ^ ulpExponent v = (k : ℚ) := by
    rw [div_eq_iff h2.ne']
    exact h
  unfold float64
  rw [if_neg h0, hdiv, roundHalfEven_intCast]
  exact h.symm

/-- An integer of magnitude below 2^53 times a power of two from 2^-1074 on is a
`float64`. -/
theorem float64_int_mul_zpow (m e : Int) (he : -1074 ≤ e) (hm : |m| < 2 ^ 53) :
    float64 ((m : ℚ) * 2 ^ e) = m * 2 ^ e := by
  by_cases h0 : m = 0
  · subst h0
    simp [float64_zero]
  have h2e : (0 : ℚ) < 2 ^ e := zpow_pos (by norm_num) e
  have hmq0 : (m : ℚ) ≠ 0 := by exact_mod_cast h0
  have hv : (m : ℚ) * 2 ^ e ≠ 0 := mul_ne_zero hmq0 h2e.ne'
  have hpos : (0 : ℚ) < |(m : ℚ) * 2 ^ e| := abs_pos.mpr hv
  have hmq : |(m : ℚ)| < 2 ^ (53 : Int) := by
    have h : |(m : ℚ)| < (2 : ℚ) ^ (53 : Nat) := by exact_mod_cast hm
    rw [← zpow_natCast] at h
    exact_mod_cast h
  have hlt : |(m : ℚ) * 2 ^ e| < (2 : ℚ) ^ (e + 53) := by
    rw [abs_mul, abs_of_pos h2e, zpow_add₀ (by norm_num : (2 : ℚ) ≠ 0), mul_comm]
    exact mul_lt_mul_of_pos_left hmq h2e
  have hlog : Int.log 2 |(m : ℚ) * 2 ^ e| < e + 53 :=
    (Int.lt_zpow_iff_log_lt (by norm_num) hpos).mp (by exact_mod_cast hlt)
  obtain ⟨u, hu⟩ : ∃ u, ulpExponent ((m : ℚ) * 2 ^ e) = u := ⟨_, rfl⟩
  have hule : u ≤ e := by
    rw [← hu]
    unfold ulpExponent
    omega
  obtain ⟨n, hn⟩ : ∃ n : Nat, e = u + n := ⟨(e - u).toNat, by omega⟩
  apply float64_of_int_mul _ (m * 2 ^ n)
  rw [hu, hn, zpow_add₀ (by norm_num : (2 : ℚ) ≠ 0), zpow_natCast]
  push_cast
  ring

theorem float64_float64 (q : ℚ) : float64 (float64 q) = float64 q := by
  by_cases hq : q = 0
  · rw [hq, float64_zero, float64_zero]
  have hpos : (0 : ℚ) < |q| := abs_pos.mpr hq
  obtain ⟨e, he⟩ : ∃ e, ulpExponent q = e := ⟨_, rfl⟩
  have he1 : -1074 ≤ e := by
    rw [← he]
    unfold ulpExponent
    omega
  have he2 : Int.log 2 |q| + 1 ≤ e + 53 := by
    rw [← he]
    unfold ulpExponent
    omega
  have h2e : (0 : ℚ) < 2 ^ e := zpow_pos (by norm_num) e
  have hqlt : |q| < (2 : ℚ) ^ (e + 53) := by
    have h1 : |q| < (2 : ℚ) ^ (Int.log 2 |q| + 1) := by
      have := Int.lt_zpow_succ_log_self (b := 2) (by norm_num) |q|
      exact_mod_cast this
    exact lt_of_lt_of_le h1 (zpow_le_zpow_right₀ (by norm_num) he2)
  have hx : |q / 2 ^ e| < 2 ^ 53 := by
    rw [abs_div, abs_of_pos h2e, div_lt_iff₀ h2e]
    have : (2 : ℚ) ^ (e + 53) = 2 ^ 53 * 2 ^ e := by
      rw [zpow_add₀ (by norm_num : (2 : ℚ) ≠ 0), mul_comm]
      norm_cast
    rw [← this]
    exact hqlt
  obtain ⟨m, hm⟩ : ∃ m, roundHalfEven (q / 2 ^ e) = m := ⟨_, rfl⟩
  have hmb : |m| ≤ 2 ^ 53 := by
    have hb := roundHalfEven_bounds (q / 2 ^ e)
    rw [hm] at hb
    rw [abs_lt] at hx
    have h1 : -(2 ^ 53 : Int) ≤ ⌊q / 2 ^ e⌋ := by
      rw [Int.le_floor]
      push_cast
      linarith
    have h2 : ⌈q / 2 ^ e⌉ ≤ (2 ^ 53 : Int) := by
      rw [Int.ceil_le]
      push_cast
      linarith
    rw [abs_le]
    constructor <;> omega
  have hval : float64 q = (m : ℚ) * 2 ^ e := by
    unfold float64
    rw [if_neg hq, he, hm]
  rw [hval]
  rcases lt_or_eq_of_le hmb with hlt | heq
  · exact float64_int_mul_zpow m e he1 hlt
  · obtain ⟨k, hk, hkb⟩ : ∃ k : Int, m = 2 * k ∧ |k| < 2 ^ 53 := by
      refine ⟨m / 2, ?_, ?_⟩
      · rcases abs_eq (by norm_num : (0 : Int) ≤ 2 ^ 53) |>.mp heq with h | h <;> omega
      · rcases abs_eq (by norm_num : (0 : Int) ≤ 2 ^ 53) |>.mp heq with h | h <;>
          rw [abs_lt] <;> omega
    have hre : (m : ℚ) * 2 ^ e = (k : ℚ) * 2 ^ (e + 1) := by
      rw [hk, zpow_add₀ (by norm_num : (2 : ℚ) ≠ 0)]
      push_cast
      ring
    rw [hre]
    exact float64_int_mul_zpow k (e + 1) (by omega) hkb

theorem addDouble_empty (a : ℚ) (ha : float64 a = a) :
    DoubleDoubleSummation.addDouble { sum := 0, addend := 0 } a = { sum := a, addend := 0 } := by
  simp [DoubleDoubleSummation.addDouble, fast2Sum, twoSum, ha, float64_zero]

theorem sumDoubles_nil : sumDoubles [] = 0 := rfl

theorem sumDoubles_singleton (a : ℚ) (ha : float64 a = a) : sumDoubles [a] = a := by
  simp [sumDoubles, addDouble_empty a ha]

theorem sumDoubles_pair (a b : ℚ) (ha : float64 a = a) (hb : float64 b = b) :
    sumDoubles [a, b] = float64 (a + b) := by
  simp [sumDoubles, addDouble_empty a ha]
  simp [DoubleDoubleSummation.addDouble, fast2Sum, twoSum, hb, float64_zero]

theorem float64_one : float64 1 = 1 := by
  have := float64_intCast 1 (by norm_num)
  simpa using this

theorem float64_two : float64 2 = 2 := by
  have := float64_intCast 2 (by norm_num)
  simpa using this

theorem float64_eighth : float64 (1 / 8) = 1 / 8 := by
  have := float64_int_mul_zpow 1 (-3) (by norm_num) (by norm_num)
  norm_num at this
  exact this

theorem float64_quarter : float64 (1 / 4) = 1 / 4 := by
  have := float64_int_mul_zpow 1 (-2) (by norm_num) (by norm_num)
  norm_num at this
  exact this

theorem float64_half : float64 (1 / 2) = 1 / 2 := by
  have := float64_int_mul_zpow 1 (-1) (by norm_num) (by norm_num)
  norm_num at this
  exact this

theorem float64_inv_eight : float64 8⁻¹ = 8⁻¹ := by
  simpa using float64_eighth

theorem float64_inv_four : float64 4⁻¹ = 4⁻¹ := by
  simpa using float64_quarter

/-- Evaluation of `toFixed(x, 2)` from the values of its steps, the integer
being any value of `int`. -/
theorem toFixed_eval_steps (x y z w p : ℚ) (k : Int) (hy : float64 (x * 100) = y)
    (hz : float64 (y + copysignHalf y) = z) (hk : truncToInt z = k)
    (hw : float64 (k : ℚ) = w) (hp : float64 (w / 100) = p) : toFixed x 2 = p := by
  have h100 : (10 : ℚ) ^ 2 = 100 := by norm_num
  simp only [toFixed, h100, round, hy, hz, hk, hw, hp]

theorem float64_decimal_0015 :
    float64 (3 / 200) = 1080863910568919 / 72057594037927936 := by
  rw [float64_eq (3 / 200) (-7) 8646911284551352 (by norm_num [abs_of_pos])
    (by norm_num [abs_of_pos]) (by norm_num) (by norm_num [roundHalfEven])]
  norm_num

theorem float64_decimal_002 :
    float64 (2 / 100) = 5764607523034235 / 288230376151711744 := by
  rw [float64_eq (2 / 100) (-6) 5764607523034235 (by norm_num [abs_of_pos])
    (by norm_num [abs_of_pos]) (by norm_num) (by norm_num [roundHalfEven])]
  norm_num

theorem float64_decimal_001 :
    float64 (1 / 100) = 5764607523034235 / 576460752303423488 := by
  rw [float64_eq (1 / 100) (-7) 5764607523034235 (by norm_num [abs_of_pos])
    (by norm_num [abs_of_pos]) (by norm_num) (by norm_num [roundHalfEven])]
  norm_num

theorem toFixed_decimal_0015 :
    toFixed (1080863910568919 / 72057594037927936) 2 =
      5764607523034235 / 288230376151711744 := by
  apply toFixed_eval _ (3 / 2) 2 _ 2
  · rw [float64_eq _ 0 6755399441055744 (by norm_num [abs_of_pos])
      (by norm_num [abs_of_pos]) (by norm_num) (by norm_num [roundHalfEven])]
    norm_num
  · rw [float64_eq _ 1 4503599627370496 (by norm_num [abs_of_pos, copysignHalf])
      (by norm_num [abs_of_pos, copysignHalf]) (by norm_num)
      (by norm_num [roundHalfEven, copysignHalf])]
    norm_num
  · norm_num [truncToInt]
  · norm_num
  · have := float64_decimal_002
    norm_num at this ⊢
    exact this

theorem toFixed_overflow : toFixed (10 ^ 17) 2 = -92233720368547760 := by
  apply toFixed_eval_steps _ (10 ^ 19) (10 ^ 19) (-(2 ^ 63)) _ (-(2 ^ 63))
  · rw [float64_eq _ 63 4882812500000000 (by norm_num [abs_of_pos])
      (by norm_num [abs_of_pos]) (by norm_num) (by norm_num [roundHalfEven])]
    norm_num
  · rw [float64_eq _ 63 4882812500000000 (by norm_num [abs_of_pos, copysignHalf])
      (by norm_num [abs_of_pos, copysignHalf]) (by norm_num)
      (by norm_num [roundHalfEven, copysignHalf])]
    norm_num
  · norm_num [truncToInt]
  · have := float64_int_mul_zpow (-1) 63 (by norm_num) (by norm_num)
    norm_num at this ⊢
    exact this
  · rw [float64_eq _ 56 (-5764607523034235) (by norm_num [abs_of_neg])
      (by norm_num [abs_of_neg]) (by norm_num) (by norm_num [roundHalfEven])]
    norm_num

/-! ## Facts about the stages -/

theorem unwindPreserve_ne_nil {β : Type} (l : List β) : unwindPreserve l ≠ [] := by
  cases l <;> simp [unwindPreserve]

theorem unwindPreserve_of_length_le_one {β : Type} (l : List β) (h : l.length ≤ 1) :
    unwindPreserve l = [l.head?] := by
  match l, h with
  | [], _ => rfl
  | [b], _ => rfl
  | _ :: _ :: _, h => simp at h

theorem length_filter_le_one {β κ : Type} (key : β → κ) (k : κ) (p : β → Bool)
    (hp : ∀ x, p x = true → key x = k) :
    ∀ l : List β, (l.map key).Nodup → (l.filter p).length ≤ 1
  | [], _ => by simp
  | a :: l, h => by
      rw [List.map_cons, List.nodup_cons] at h
      by_cases hpa : p a = true
      · have hnil : l.filter p = [] := by
          rw [List.filter_eq_nil_iff]
          intro x hx hpx
          apply h.1
          rw [hp a hpa, ← hp x hpx]
          exact List.mem_map_of_mem key hx
        simp [List.filter_cons, hpa, hnil]
      · simpa [List.filter_cons, hpa] using length_filter_le_one key k p hp l h.2

theorem unwindPreserve_filter {β κ : Type} (key : β → κ) (k : κ) (p : β → Bool)
    (hp : ∀ x, p x = true → key x = k) (l : List β) (h : (l.map key).Nodup) :
    unwindPreserve (l.filter p) = [l.find? p] := by
  rw [unwindPreserve_of_length_le_one _ (length_filter_le_one key k p hp l h), List.filter_head?]

theorem foldl_accumulate_same (k : GroupKey) :
    ∀ (es : List EnrichedItem) (g : Group), g._id = k → (∀ e ∈ es, groupKey e = k) →
      g.payment_due = sumAmount g.order_items →
      es.foldl (fun gs e => accumulate e gs) [g] =
        [{ _id := g._id
           payment_due := sumAmount (g.order_items ++ es)
           total_count := g.total_count + sumQuantity es
           order_items := g.order_items ++ es }]
  | [], g, _, _, hp => by simp [sumQuantity, ← hp]
  | e :: es, g, hg, hes, _ => by
      have he : groupKey e = k := hes e (List.mem_cons_self _ _)
      have hrest : ∀ x ∈ es, groupKey x = k := fun x hx => hes x (List.mem_cons_of_mem _ hx)
      have hstep : accumulate e [g] =
          [{ _id := g._id
             payment_due := sumAmount (g.order_items ++ [e])
             total_count := g.total_count + e.quantity.getD 0
             order_items := g.order_items ++ [e] }] := by
        simp [accumulate, hg, he]
      rw [List.foldl_cons, hstep]
      have ih := foldl_accumulate_same k es
        { _id := g._id
          payment_due := sumAmount (g.order_items ++ [e])
          total_count := g.total_count + e.quantity.getD 0
          order_items := g.order_items ++ [e] } hg hrest rfl
      rw [ih]
      simp [sumQuantity, add_assoc]

theorem groupStage_same_key (k : GroupKey) (e : EnrichedItem) (es : List EnrichedItem)
    (h : ∀ x ∈ e :: es, groupKey x = k) :
    groupStage (e :: es) =
      [{ _id := k
         payment_due := sumAmount (e :: es)
         total_count := sumQuantity (e :: es)
         order_items := e :: es }] := by
  have he : groupKey e = k := h e (List.mem_cons_self _ _)
  have hrest : ∀ x ∈ es, groupKey x = k := fun x hx => h x (List.mem_cons_of_mem _ hx)
  unfold groupStage
  rw [List.foldl_cons]
  have h0 : accumulate e [] =
      [{ _id := groupKey e, payment_due := sumAmount [e], total_count := e.quantity.getD 0,
         order_items := [e] }] := rfl
  rw [h0]
  have ih := foldl_accumulate_same k es
    { _id := groupKey e, payment_due := sumAmount [e], total_count := e.quantity.getD 0,
      order_items := [e] } he hrest rfl
  rw [ih]
  simp [sumQuantity, he]

theorem mem_accumulate_items (x e : EnrichedItem) :
    ∀ gs : List Group, (∃ g ∈ accumulate e gs, x ∈ g.order_items) ↔
      (x = e ∨ ∃ g ∈ gs, x ∈ g.order_items)
  | [] => by simp [accumulate]
  | g :: gs => by
      by_cases hk : g._id = groupKey e
      · simp only [accumulate, hk, if_true, List.mem_cons, exists_eq_or_imp, List.mem_append,
          List.mem_singleton]
        tauto
      · simp only [accumulate, hk, if_false, List.mem_cons, exists_eq_or_imp,
          mem_accumulate_items x e gs]
        tauto

theorem mem_foldl_accumulate_items (x : EnrichedItem) :
    ∀ (es : List EnrichedItem) (gs : List Group),
      (∃ g ∈ es.foldl (fun gs e => accumulate e gs) gs, x ∈ g.order_items) ↔
        (x ∈ es ∨ ∃ g ∈ gs, x ∈ g.order_items)
  | [], gs => by simp
  | e :: es, gs => by
      rw [List.foldl_cons, mem_foldl_accumulate_items x es, mem_accumulate_items, List.mem_cons]
      tauto

theorem mem_groupStage_items (x : EnrichedItem) (es : List EnrichedItem) :
    (∃ g ∈ groupStage es, x ∈ g.order_items) ↔ x ∈ es := by
  unfold groupStage
  rw [mem_foldl_accumulate_items]
  simp
theorem joinStages_eq_expand (s : Store) (orderID : String) :
    joinStages s orderID = (matchStage s orderID).flatMap (expand s) := by
  unfold joinStages expand
  rw [List.flatMap_assoc, List.flatMap_assoc]
  congr 1
  funext it
  rw [List.flatMap_assoc]

theorem expand_ne_nil (s : Store) (it : OrderItem) : expand s it ≠ [] := by
  unfold expand lookupFoodStage lookupOrderStage lookupTableStage
  cases hf : unwindPreserve (s.food.filter (fun f => some f.food_id = it.food_id)) with
  | nil => exact absurd hf (unwindPreserve_ne_nil _)
  | cons f fs =>
    cases ho : unwindPreserve (s.order.filter (fun o => o.order_id = it.order_id)) with
    | nil => exact absurd ho (unwindPreserve_ne_nil _)
    | cons o os =>
      cases ht : unwindPreserve
          (s.table.filter (fun t => some t.table_id = o.bind (fun o => o.table_id))) with
      | nil => exact absurd ht (unwindPreserve_ne_nil _)
      | cons t ts => simp [ho, ht]

theorem mem_expand (s : Store) (it : OrderItem) (j : Joined) (h : j ∈ expand s it) :
    j.item = it ∧
    (∀ f, j.food = some f → f ∈ s.food ∧ some f.food_id = it.food_id) ∧
    (j.food = none → ∀ f ∈ s.food, some f.food_id ≠ it.food_id) := by
  unfold expand lookupFoodStage lookupOrderStage lookupTableStage at h
  simp only [List.mem_flatMap, List.mem_map] at h
  obtain ⟨r2, ⟨r1, ⟨f, hf, rfl⟩, o, -, rfl⟩, t, -, rfl⟩ := h
  refine ⟨rfl, ?_, ?_⟩
  · intro f0 hf0
    simp only at hf0
    subst hf0
    cases hl : s.food.filter (fun f => some f.food_id = it.food_id) with
    | nil => simp [hl, unwindPreserve] at hf
    | cons a l =>
      rw [hl] at hf
      simp only [unwindPreserve, List.mem_map, Option.some.injEq, exists_eq_right] at hf
      rw [← hl, List.mem_filter] at hf
      simpa using hf
  · intro hnone f0 hf0 heq
    simp only at hnone
    subst hnone
    cases hl : s.food.filter (fun f => some f.food_id = it.food_id) with
    | nil =>
      have : f0 ∈ s.food.filter (fun f => some f.food_id = it.food_id) := by
        rw [List.mem_filter]; exact ⟨hf0, by simpa using heq⟩
      rw [hl] at this
      simp at this
    | cons a l =>
      rw [hl] at hf
      simp [unwindPreserve] at hf

theorem expand_of_unique (s : Store) (hu : UniqueIds s) (it : OrderItem) :
    expand s it = [joinOne s it] := by
  obtain ⟨hf, -, -, ho, ht⟩ := hu
  unfold expand lookupFoodStage lookupOrderStage lookupTableStage joinOne
  rw [unwindPreserve_filter (fun f => some f.food_id) it.food_id _ (by simp) s.food
      (by simpa [List.map_map] using hf.map (f := some) (Option.some_injective _))]
  simp only [List.map_cons, List.map_nil, List.flatMap_cons, List.flatMap_nil, List.append_nil]
  rw [unwindPreserve_filter (fun o => o.order_id) it.order_id _ (by simp) s.order ho]
  simp only [List.map_cons, List.map_nil, List.flatMap_cons, List.flatMap_nil, List.append_nil]
  rw [unwindPreserve_filter (fun t => some t.table_id)
      ((s.order.find? (fun o => o.order_id = it.order_id)).bind (fun o => o.table_id)) _
      (by simp) s.table
      (by simpa [List.map_map] using ht.map (f := some) (Option.some_injective _))]
  simp

theorem joinStages_of_unique (s : Store) (hu : UniqueIds s) (orderID : String) :
    joinStages s orderID = (matchStage s orderID).map (joinOne s) := by
  rw [joinStages_eq_expand]
  have h : expand s = fun it => [joinOne s it] := funext (expand_of_unique s hu)
  rw [h, List.map_eq_flatMap]

theorem order_id_of_mem_matchStage (s : Store) (orderID : String) (it : OrderItem)
    (h : it ∈ matchStage s orderID) : it.order_id = orderID := by
  unfold matchStage at h
  rw [List.mem_filter] at h
  simpa using h.2

theorem groupKey_enrich (s : Store) (it it' : OrderItem) (h : it.order_id = it'.order_id) :
    groupKey (enrich s it) = groupKey (enrich s it') := by
  simp [groupKey, enrich, projectStage, joinOne, h]

theorem ItemsByOrder_of_no_items (s : Store) (orderID : String)
    (hm : matchStage s orderID = []) : ItemsByOrder s orderID = .ok [] := by
  simp [ItemsByOrder, joinStages_eq_expand, hm, groupStage]

theorem ItemsByOrder_of_unique (s : Store) (hu : UniqueIds s) (orderID : String)
    (it : OrderItem) (its : List OrderItem) (hm : matchStage s orderID = it :: its) :
    ItemsByOrder s orderID = .ok
      [{ payment_due := sumAmount ((it :: its).map (enrich s))
         total_count := sumQuantity ((it :: its).map (enrich s))
         table_number := (enrich s it).table_number
         order_items := (it :: its).map (enrich s) }] := by
  have hkey : ∀ x ∈ enrich s it :: its.map (enrich s), groupKey x = groupKey (enrich s it) := by
    intro x hx
    rw [← List.map_cons, List.mem_map] at hx
    obtain ⟨it', hit', rfl⟩ := hx
    apply groupKey_enrich
    rw [← hm] at hit'
    rw [order_id_of_mem_matchStage s orderID it' hit',
      order_id_of_mem_matchStage s orderID it (by rw [hm]; exact List.mem_cons_self _ _)]
  unfold ItemsByOrder
  rw [joinStages_of_unique s hu, hm, List.map_map]
  have hfun : (projectStage ∘ joinOne s) = enrich s := rfl
  rw [hfun, List.map_cons, groupStage_same_key _ _ _ hkey]
  simp [finalProject, groupKey]

theorem find?_of_nodup {β κ : Type} [DecidableEq κ] (key : β → κ) (k : κ) :
    ∀ (l : List β), (l.map key).Nodup → ∀ b ∈ l, key b = k →
      l.find? (fun x => key x = k) = some b
  | [], _, b, hb, _ => by simp at hb
  | a :: l, h, b, hb, hk => by
      rw [List.map_cons, List.nodup_cons] at h
      rw [List.mem_cons] at hb
      by_cases ha : key a = k
      · rcases hb with rfl | hb
        · simp [List.find?_cons, ha]
        · exact absurd (by rw [ha, ← hk]; exact List.mem_map_of_mem key hb) h.1
      · rcases hb with rfl | hb
        · exact absurd hk ha
        · simp only [List.find?_cons, ha, decide_False]
          exact find?_of_nodup key k l h.2 b hb hk

theorem enrich_id (s : Store) (it : OrderItem) : (enrich s it)._id = it._id := rfl

theorem enrich_quantity (s : Store) (it : OrderItem) : (enrich s it).quantity = it.quantity := rfl

theorem enrich_amount_of_food (s : Store) (hu : UniqueIds s) (it : OrderItem) (f : Food)
    (hf : f ∈ s.food) (hid : some f.food_id = it.food_id) :
    (enrich s it).amount = multiply f.price it.quantity := by
  have h := find?_of_nodup (fun f : Food => some f.food_id) it.food_id s.food
    (by simpa [List.map_map] using hu.1.map (f := some) (Option.some_injective _)) f hf hid
  simp [enrich, projectStage, joinOne, h]

theorem GetInvoiceById_of_record (s : Store) (invoiceId : String) (inv : Invoice)
    (r : AggregateRecord) (rest : List AggregateRecord)
    (hinv : s.invoices.find? (fun i => i.invoice_id = invoiceId) = some inv)
    (hrec : ItemsByOrder s inv.order_id = .ok (r :: rest)) :
    GetInvoiceById s invoiceId = .json StatusOK
      { invoice_id := inv.invoice_id
        order_id := inv.order_id
        payment_due_date := inv.payment_due_date
        payment_status := inv.payment_status
        payment_method := inv.payment_method.getD "N/A"
        payment_due := r.payment_due
        table_number := r.table_number
        order_details := r.order_items } := by
  unfold GetInvoiceById
  rw [hinv]
  simp only [hrec]
  cases inv.payment_method <;> rfl

theorem ItemsByOrder_storeOneItem : ItemsByOrder storeOneItem "o1" = .ok [recordOneItem] := by
  simp [ItemsByOrder, joinStages, matchStage, lookupFoodStage, lookupOrderStage,
    lookupTableStage, unwindPreserve, projectStage, groupStage, accumulate, finalProject,
    multiply, groupKey, storeOneItem, item1, soup, recordOneItem, enrichedItem1, sumAmount,
    float64_one, float64_inv_eight, sumDoubles_singleton]


theorem accumulate_sums (e : EnrichedItem) :
    ∀ gs : List Group, (∀ g ∈ gs, GroupSums g) → ∀ g ∈ accumulate e gs, GroupSums g
  | [], _, g, hg => by
      simp only [accumulate, List.mem_singleton] at hg
      subst hg
      simp [GroupSums, sumQuantity]
  | g0 :: gs, h, g, hg => by
      by_cases hk : g0._id = groupKey e
      · simp only [accumulate, hk, if_true, List.mem_cons] at hg
        rcases hg with rfl | hg
        · have h0 := h g0 (List.mem_cons_self _ _)
          simp [GroupSums, sumQuantity] at h0 ⊢
          rw [h0.2]
        · exact h g (List.mem_cons_of_mem _ hg)
      · simp only [accumulate, hk, if_false, List.mem_cons] at hg
        rcases hg with rfl | hg
        · exact h g (List.mem_cons_self _ _)
        · exact accumulate_sums e gs (fun x hx => h x (List.mem_cons_of_mem _ hx)) g hg

theorem foldl_accumulate_sums :
    ∀ (es : List EnrichedItem) (gs : List Group), (∀ g ∈ gs, GroupSums g) →
      ∀ g ∈ es.foldl (fun gs e => accumulate e gs) gs, GroupSums g
  | [], _, h => h
  | e :: es, gs, h => by
      rw [List.foldl_cons]
      exact foldl_accumulate_sums es _ (accumulate_sums e gs h)

theorem groupStage_sums (es : List EnrichedItem) : ∀ g ∈ groupStage es, GroupSums g :=
  foldl_accumulate_sums es [] (by simp)

theorem mem_outputItems (s : Store) (orderID : String) (e : EnrichedItem) :
    e ∈ outputItems ((groupStage ((joinStages s orderID).map projectStage)).map finalProject) ↔
      ∃ it ∈ matchStage s orderID, ∃ j ∈ expand s it, e = projectStage j := by
  unfold outputItems
  rw [List.mem_flatMap]
  constructor
  · rintro ⟨r, hr, he⟩
    rw [List.mem_map] at hr
    obtain ⟨g, hg, rfl⟩ := hr
    have := (mem_groupStage_items e _).mp ⟨g, hg, he⟩
    rw [List.mem_map] at this
    obtain ⟨j, hj, rfl⟩ := this
    rw [joinStages_eq_expand, List.mem_flatMap] at hj
    obtain ⟨it, hit, hj⟩ := hj
    exact ⟨it, hit, j, hj, rfl⟩
  · rintro ⟨it, hit, j, hj, rfl⟩
    have hmem : projectStage j ∈ (joinStages s orderID).map projectStage := by
      rw [List.mem_map]
      refine ⟨j, ?_, rfl⟩
      rw [joinStages_eq_expand, List.mem_flatMap]
      exact ⟨it, hit, hj⟩
    obtain ⟨g, hg, he⟩ := (mem_groupStage_items _ _).mpr hmem
    exact ⟨finalProject g, List.mem_map_of_mem _ hg, he⟩

theorem matchStage_setUnitPrices (u : OrderItem → Option ℚ) (s : Store) (orderID : String) :
    matchStage (setUnitPrices u s) orderID =
      (matchStage s orderID).map (fun it => { it with unit_price := u it }) := by
  unfold matchStage setUnitPrices
  rw [List.filter_map]
  rfl

theorem expand_eq (s : Store) (it : OrderItem) :
    expand s it =
      (unwindPreserve (s.food.filter (fun f => some f.food_id = it.food_id))).flatMap
        (fun f =>
          (unwindPreserve (s.order.filter (fun o => o.order_id = it.order_id))).flatMap
            (fun o =>
              (unwindPreserve (s.table.filter
                (fun t => some t.table_id = o.bind (fun o => o.table_id)))).map
                (fun t => { item := it, food := f, order := o, table := t }))) := by
  unfold expand lookupFoodStage lookupOrderStage lookupTableStage
  simp only [List.flatMap_map, List.flatMap_assoc]

theorem expand_setUnitPrices (u : OrderItem → Option ℚ) (s : Store) (it : OrderItem)
    (v : Option ℚ) :
    (expand (setUnitPrices u s) { it with unit_price := v }).map projectStage =
      (expand s it).map projectStage := by
  rw [expand_eq, expand_eq]
  simp only [List.map_flatMap, List.map_map]
  rfl

theorem joinStages_setUnitPrices (u : OrderItem → Option ℚ) (s : Store) (orderID : String) :
    (joinStages (setUnitPrices u s) orderID).map projectStage =
      (joinStages s orderID).map projectStage := by
  rw [joinStages_eq_expand, joinStages_eq_expand, matchStage_setUnitPrices,
    List.map_flatMap, List.map_flatMap, List.flatMap_map]
  congr 1
  funext it
  exact expand_setUnitPrices u s it (u it)

theorem wrapInt_of_range (n : Int) (h0 : 0 ≤ n) (h1 : n < 2 ^ 63) : wrapInt n = n := by
  unfold wrapInt
  rw [Int.emod_eq_of_lt (by omega) (by omega)]
  omega

theorem drop_min_length {β : Type} (l : List β) (a : Nat) :
    l.drop (min a l.length) = l.drop a := by
  by_cases h : a ≤ l.length
  · rw [Nat.min_eq_left h]
  · have h2 : l.length ≤ a := by omega
    rw [Nat.min_eq_right h2, List.drop_length, List.drop_eq_nil_of_le h2]

theorem slice_of_int32 {β : Type} (data : List β) (position n : Int) (hp0 : 0 ≤ position)
    (hp : position < 2 ^ 31) (hn0 : 1 ≤ n) (hn : n < 2 ^ 31) :
    slice data position n = .ok ((data.drop position.toNat).take n.toNat) := by
  have h1 : isInt32 position = true := by
    unfold isInt32
    rw [decide_eq_true_iff]
    constructor <;> omega
  have h2 : isInt32 n = true := by
    unfold isInt32
    rw [decide_eq_true_iff]
    constructor <;> omega
  have h3 : ¬ n ≤ 0 := by omega
  have h4 : ¬ position < 0 := by omega
  simp only [slice, h1, h2, h3, h4, if_false, Bool.true_eq_false, drop_min_length]


theorem filterMap_eq_map_of_some {α β : Type} (f : α → Option β) (g : α → β) :
    ∀ l : List α, (∀ x ∈ l, f x = some (g x)) → l.filterMap f = l.map g
  | [], _ => rfl
  | a :: l, h => by
      rw [List.filterMap_cons_some (h a (List.mem_cons_self _ _)), List.map_cons,
        filterMap_eq_map_of_some f g l (fun x hx => h x (List.mem_cons_of_mem _ hx))]

theorem float64_tenth : float64 (1 / 10) = 3602879701896397 / 36028797018963968 := by
  rw [float64_eq (1 / 10) (-4) 7205759403792794 (by norm_num [abs_of_pos])
    (by norm_num [abs_of_pos]) (by norm_num) (by norm_num [roundHalfEven])]
  norm_num

theorem float64_three : float64 3 = 3 := by
  have := float64_intCast 3 (by norm_num)
  simpa using this

theorem float64_three_tenths :
    float64 (10808639105689191 / 36028797018963968) =
      1351079888211149 / 4503599627370496 := by
  rw [float64_eq _ (-2) 5404319552844596 (by norm_num [abs_of_pos])
    (by norm_num [abs_of_pos]) (by norm_num) (by norm_num [roundHalfEven])]
  norm_num

theorem float64_sum_three_tenths :
    float64 (1351079888211149 / 4503599627370496) = 1351079888211149 / 4503599627370496 := by
  rw [← float64_three_tenths, float64_float64]

theorem toFixed_tenth :
    toFixed (3602879701896397 / 36028797018963968) 2 =
      3602879701896397 / 36028797018963968 := by
  apply toFixed_eval _ 10 (21 / 2) _ 10
  · rw [float64_eq _ 3 5629499534213120 (by norm_num [abs_of_pos])
      (by norm_num [abs_of_pos]) (by norm_num) (by norm_num [roundHalfEven])]
    norm_num
  · rw [float64_eq _ 3 5910974510923776 (by norm_num [abs_of_pos, copysignHalf])
      (by norm_num [abs_of_pos, copysignHalf]) (by norm_num)
      (by norm_num [roundHalfEven, copysignHalf])]
    norm_num
  · norm_num [truncToInt]
  · norm_num
  · have := float64_tenth
    norm_num at this ⊢
    exact this

theorem toFixed_three_tenths :
    toFixed (1351079888211149 / 4503599627370496) 2 =
      5404319552844595 / 18014398509481984 := by
  apply toFixed_eval _ (8444249301319681 / 281474976710656)
    (8584986789675009 / 281474976710656) _ 30
  · rw [float64_eq _ 4 8444249301319681 (by norm_num [abs_of_pos])
      (by norm_num [abs_of_pos]) (by norm_num) (by norm_num [roundHalfEven])]
    norm_num
  · rw [float64_eq _ 4 8584986789675009 (by norm_num [abs_of_pos, copysignHalf])
      (by norm_num [abs_of_pos, copysignHalf]) (by norm_num)
      (by norm_num [roundHalfEven, copysignHalf])]
    norm_num
  · norm_num [truncToInt]
  · norm_num
  · rw [float64_eq _ (-2) 5404319552844595 (by norm_num [abs_of_pos])
      (by norm_num [abs_of_pos]) (by norm_num) (by norm_num [roundHalfEven])]
    norm_num

theorem ItemsByOrder_storeThreeBreads :
    ItemsByOrder storeThreeBreads "o2" = .ok [recordThreeBreads] := by
  simp [ItemsByOrder, joinStages, matchStage, lookupFoodStage, lookupOrderStage,
    lookupTableStage, unwindPreserve, projectStage, groupStage, accumulate, finalProject,
    multiply, groupKey, storeThreeBreads, item4, bread, recordThreeBreads, enrichedItem4,
    sumAmount, float64_three]
  norm_num [float64_three_tenths, float64_sum_three_tenths, sumDoubles_singleton]

theorem float64_multiply (p : ℚ) (q : Int) :
    float64 (float64 (p * float64 (q : ℚ))) = float64 (p * float64 (q : ℚ)) :=
  float64_float64 _

theorem sumAmount_map_enrich (s : Store) (hu : UniqueIds s) (p : OrderItem → ℚ)
    (q : OrderItem → Int) (l : List OrderItem)
    (hq : ∀ it ∈ l, it.quantity = some (q it))
    (hp : ∀ it ∈ l, ∃ f ∈ s.food, some f.food_id = it.food_id ∧ f.price = some (p it)) :
    sumAmount (l.map (enrich s)) =
      sumDoubles (l.map (fun it => float64 (p it * float64 (q it : ℚ)))) := by
  unfold sumAmount
  rw [List.filterMap_map]
  congr 1
  apply filterMap_eq_map_of_some
  intro x hx
  obtain ⟨f, hf, hid, hprice⟩ := hp x hx
  simp [enrich_amount_of_food s hu x f hf hid, hprice, hq x hx, multiply]

theorem updateOne_forall₂ {β : Type} (R : β → β → Prop) (filter : β → Bool)
    (update : β → β) (hrefl : ∀ b, R b b) (hupd : ∀ b, R b (update b)) :
    ∀ l : List β, List.Forall₂ R l (updateOne filter update l)
  | [] => List.Forall₂.nil
  | b :: bs => by
      unfold updateOne
      split_ifs
      · exact List.Forall₂.cons (hupd b) (List.forall₂_same.mpr (fun x _ => hrefl x))
      · exact List.Forall₂.cons (hrefl b) (updateOne_forall₂ R filter update hrefl hupd bs)

theorem foldl_apply_price (us : List FoodUpdate) (P : Option ℚ → Prop)
    (hP : ∀ u ∈ us, ∀ v, u = FoodUpdate.price v → P (some v)) :
    ∀ f : Food, P f.price → P (us.foldl (fun f u => u.apply f) f).price := by
  induction us with
  | nil => intro f hf; exact hf
  | cons u us ih =>
    intro f hf
    rw [List.foldl_cons]
    apply ih (fun u' hu' => hP u' (List.mem_cons_of_mem _ hu'))
    cases u with
    | price v => exact hP _ (List.mem_cons_self _ _) v rfl
    | name v => exact hf
    | food_image v => exact hf
    | menu_id v => exact hf
    | updated_at v => exact hf

theorem price_entry_of_update (food : Food) (tail : List FoodUpdate)
    (htail : ∀ u ∈ tail, ∀ v, u ≠ FoodUpdate.price v) :
    ∀ u ∈ foodUpdateHead food ++ tail, ∀ v, u = FoodUpdate.price v →
      ∃ x, food.price = some x ∧ v = toFixed x 2 := by
  intro u hu v hv
  subst hv
  rw [List.mem_append] at hu
  rcases hu with hu | hu
  · unfold foodUpdateHead at hu
    cases hn : food.name <;> cases hp : food.price <;> cases hi : food.food_image <;>
      simp [hn, hp, hi] at hu
    all_goals exact ⟨_, rfl, hu⟩
  · exact absurd rfl (htail _ hu v)

theorem updateFoodDoc_prices (s : Store) (foodId : String) (food : Food)
    (tail : List FoodUpdate) (htail : ∀ u ∈ tail, ∀ v, u ≠ FoodUpdate.price v) :
    List.Forall₂
      (fun old new => new.price = old.price ∨
        ∃ x, food.price = some x ∧ new.price = some (toFixed x 2))
      s.food (updateFoodDoc s foodId (foodUpdateHead food ++ tail)).1.food := by
  unfold updateFoodDoc
  apply updateOne_forall₂
  · intro b
    exact Or.inl rfl
  · intro b
    apply foldl_apply_price (foodUpdateHead food ++ tail)
      (fun pr => pr = b.price ∨ ∃ x, food.price = some x ∧ pr = some (toFixed x 2))
    · intro u hu v hv
      obtain ⟨x, hx, rfl⟩ := price_entry_of_update food tail htail u hu v hv
      exact Or.inr ⟨x, hx, rfl⟩
    · exact Or.inl rfl


theorem GetFoodsPage_clamp_size (s : Store) (recordPerPage page : Int) (h : recordPerPage < 1) :
    GetFoodsPage s recordPerPage page = GetFoodsPage s 10 page := by
  simp [GetFoodsPage, h]

theorem GetFoodsPage_clamp_page (s : Store) (recordPerPage page : Int) (h : page < 1) :
    GetFoodsPage s recordPerPage page = GetFoodsPage s recordPerPage 1 := by
  simp [GetFoodsPage, h]

theorem GetFoodsPage_status (s : Store) (recordPerPage page : Int) :
    (GetFoodsPage s recordPerPage page).status = StatusOK ∨
    (GetFoodsPage s recordPerPage page).status = StatusInternalServerError := by
  unfold GetFoodsPage
  simp only
  split
  · exact Or.inr rfl
  · exact Or.inl rfl
  · exact Or.inl rfl

theorem parseDigits_of_non_digit (cs : List Char) (c : Char) (hc : c ∈ cs)
    (hd : c.isDigit = false) : parseDigits cs = none := by
  unfold parseDigits
  rw [if_pos]
  right
  rw [List.any_eq_true]
  exact ⟨c, hc, by simp [hd]⟩

theorem atoi_of_non_digit (str : String) (c : Char) (hc : c ∈ str.toList)
    (hd : c.isDigit = false) (hm : c ≠ '-') (hp : c ≠ '+') : atoi str = 0 := by
  unfold atoi
  split
  · rename_i ds heq
    rw [heq, List.mem_cons] at hc
    rcases hc with h | h
    · exact absurd h hm
    · rw [parseDigits_of_non_digit ds c h hd]
  · rename_i ds heq
    rw [heq, List.mem_cons] at hc
    rcases hc with h | h
    · exact absurd h hp
    · rw [parseDigits_of_non_digit ds c h hd]
  · rw [parseDigits_of_non_digit _ c hc hd]


theorem GetFoodsPage_of_range (s : Store) (pageSize pageNumber : Int)
    (hn : s.food ≠ []) (hs : 1 ≤ pageSize) (hp : 1 ≤ pageNumber)
    (hs32 : pageSize < 2 ^ 31) (hstart : (pageNumber - 1) * pageSize < 2 ^ 31) :
    GetFoodsPage s pageSize pageNumber =
      .json StatusOK
        { total_count := s.food.length
          food_items :=
            (s.food.drop ((pageNumber - 1) * pageSize).toNat).take pageSize.toNat } := by
  have h1 : ¬ pageSize < 1 := by omega
  have h2 : ¬ pageNumber < 1 := by omega
  have h0 : 0 ≤ (pageNumber - 1) * pageSize := Int.mul_nonneg (by omega) (by omega)
  obtain ⟨d, ds, hd⟩ := List.exists_cons_of_ne_nil hn
  simp only [GetFoodsPage, h1, h2, if_false, wrapInt_of_range _ h0 (by omega), foodPipeline,
    hd, groupAll, List.mapM_cons, List.mapM_nil, projectPage,
    slice_of_int32 _ _ _ h0 hstart hs hs32]
  rfl

theorem GetUsersPage_of_range (s : Store) (pageSize pageNumber : Int)
    (hs : 1 ≤ pageSize) (hp : 1 ≤ pageNumber) (hstart : (pageNumber - 1) * pageSize < 2 ^ 63) :
    GetUsersPage s pageSize pageNumber =
      .json StatusOK ((s.user.drop ((pageNumber - 1) * pageSize).toNat).take pageSize.toNat) := by
  have h0 : 0 ≤ (pageNumber - 1) * pageSize := Int.mul_nonneg (by omega) (by omega)
  have hp1 : pageNumber - 1 < 2 ^ 63 := by
    by_contra hcon
    have hle : (2 : Int) ^ 63 ≤ pageNumber - 1 := by omega
    have : (2 : Int) ^ 63 * 1 ≤ (pageNumber - 1) * pageSize :=
      Int.mul_le_mul hle hs (by norm_num) (by omega)
    omega
  have hne : ¬ (pageNumber - 1) * pageSize < 0 := by omega
  have hz : pageSize ≠ 0 := by omega
  have hnat : pageSize.natAbs = pageSize.toNat := by omega
  simp only [GetUsersPage, wrapInt_of_range _ (by omega : 0 ≤ pageNumber - 1) hp1,
    wrapInt_of_range _ h0 hstart, findSkipLimit, hne, hz, if_false, hnat]

theorem foodUpdateObj_fields (now : Time) (food : Food) :
    (foodUpdateObj now food).map FoodUpdate.field =
      present [("name", food.name.isSome), ("price", food.price.isSome),
        ("food_image", food.food_image.isSome), ("menu_id", food.menu_id.isSome)] ++
        ["updated_at"] := by
  cases h1 : food.name <;> cases h2 : food.price <;> cases h3 : food.food_image <;>
    cases h4 : food.menu_id <;>
    simp [foodUpdateObj, foodUpdateHead, present, FoodUpdate.field, h1, h2, h3, h4]

theorem foodUpdateObj_apply (now : Time) (food d : Food) :
    (foodUpdateObj now food).foldl (fun d u => u.apply d) d =
      { d with
        name := keep food.name d.name
        price := keep (food.price.map (fun x => toFixed x 2)) d.price
        food_image := keep food.food_image d.food_image
        menu_id := keep food.menu_id d.menu_id
        updated_at := now } := by
  cases h1 : food.name <;> cases h2 : food.price <;> cases h3 : food.food_image <;>
    cases h4 : food.menu_id <;>
    simp [foodUpdateObj, foodUpdateHead, keep, FoodUpdate.apply, h1, h2, h3, h4]

theorem invoiceUpdateObj_fields (now : Time) (invoice : Invoice) :
    (invoiceUpdateObj now invoice).map InvoiceUpdate.field =
      present [("payment_method", invoice.payment_method.isSome),
        ("payment_status", invoice.payment_status.isSome)] ++ ["updated_at"] := by
  cases h1 : invoice.payment_method <;> cases h2 : invoice.payment_status <;>
    simp [invoiceUpdateObj, present, InvoiceUpdate.field, h1, h2]

theorem invoiceUpdateObj_apply (now : Time) (invoice d : Invoice) :
    (invoiceUpdateObj now invoice).foldl (fun d u => u.apply d) d =
      { d with
        payment_method := keep invoice.payment_method d.payment_method
        payment_status := keep invoice.payment_status d.payment_status
        updated_at := now } := by
  cases h1 : invoice.payment_method <;> cases h2 : invoice.payment_status <;>
    simp [invoiceUpdateObj, keep, InvoiceUpdate.apply, h1, h2]

theorem invoiceUpdateObj_length (now : Time) (invoice : Invoice) :
    (invoiceUpdateObj now invoice).length ≠ 0 := by
  simp [invoiceUpdateObj]

theorem UpdateInvoice_some (now : Time) (s : Store) (invoiceId : String) (invoice : Invoice) :
    UpdateInvoice now s invoiceId (some invoice) =
      ({ s with invoices := (updateOne (fun d => d.invoice_id = invoiceId)
          (fun d => (invoiceUpdateObj now invoice).foldl (fun d u => u.apply d) d)
          s.invoices) },
        .json StatusOK
          { matched_count :=
              if s.invoices.any (fun d => d.invoice_id = invoiceId) then 1 else 0 }) := by
  simp only [UpdateInvoice, invoiceUpdateObj_length, if_false]

theorem tableUpdateObj_fields (now : Time) (table : Table) :
    (tableUpdateObj now table).map TableUpdate.field =
      present [("number_of_guests", table.number_of_guests.isSome),
        ("table_number", table.table_number.isSome)] ++ ["updated_at"] := by
  cases h1 : table.number_of_guests <;> cases h2 : table.table_number <;>
    simp [tableUpdateObj, present, TableUpdate.field, h1, h2]

theorem tableUpdateObj_apply (now : Time) (table d : Table) :
    (tableUpdateObj now table).foldl (fun d u => u.apply d) d =
      { d with
        number_of_guests := keep table.number_of_guests d.number_of_guests
        table_number := keep table.table_number d.table_number
        updated_at := now } := by
  cases h1 : table.number_of_guests <;> cases h2 : table.table_number <;>
    simp [tableUpdateObj, keep, TableUpdate.apply, h1, h2]

theorem tableUpdateObj_length (now : Time) (table : Table) :
    (tableUpdateObj now table).length ≠ 0 := by
  simp [tableUpdateObj]

theorem UpdateTable_some (now : Time) (s : Store) (tableId : String) (table : Table) :
    UpdateTable now s tableId (some table) =
      ({ s with tables := (updateOne (fun d => d.table_id = tableId)
          (fun d => (tableUpdateObj now table).foldl (fun d u => u.apply d) d) s.tables) },
        .json StatusOK
          { matched_count := if s.tables.any (fun d => d.table_id = tableId) then 1 else 0 }) := by
  simp only [UpdateTable, tableUpdateObj_length, if_false]

theorem orderItemUpdateObj_fields (now : Time) (input : OrderItem) :
    (orderItemUpdateObj now input).map OrderItemUpdate.field =
      present [("quantity", input.quantity.isSome), ("unit_price", input.unit_price.isSome),
        ("food_id", input.food_id.isSome)] ++ ["updated_at"] := by
  cases h1 : input.quantity <;> cases h2 : input.unit_price <;> cases h3 : input.food_id <;>
    simp [orderItemUpdateObj, orderItemUpdateHead, present, OrderItemUpdate.field, h1, h2, h3]

theorem orderItemUpdateObj_apply (now : Time) (input d : OrderItem) :
    (orderItemUpdateObj now input).foldl (fun d u => u.apply d) d =
      { d with
        quantity := keep input.quantity d.quantity
        unit_price := keep input.unit_price d.unit_price
        food_id := keep input.food_id d.food_id
        updated_at := now } := by
  cases h1 : input.quantity <;> cases h2 : input.unit_price <;> cases h3 : input.food_id <;>
    simp [orderItemUpdateObj, orderItemUpdateHead, keep, OrderItemUpdate.apply, h1, h2, h3]

theorem UpdateOrderItem_empty (now : Time) (s : Store) (orderItemId : String)
    (input : OrderItem) (h1 : input.quantity = none) (h2 : input.unit_price = none)
    (h3 : input.food_id = none) :
    UpdateOrderItem now s orderItemId (some input) =
      (s, .error StatusBadRequest "no fields to update") := by
  simp [UpdateOrderItem, orderItemUpdateHead, h1, h2, h3]

theorem stampItems_length (itemID : Nat → ObjectID) (orderID : String) (now : Time) :
    ∀ (i : Nat) (l : List OrderItem), (stampItems itemID orderID now i l).length = l.length
  | _, [] => rfl
  | i, _ :: rest => by
      simp [stampItems, stampItems_length itemID orderID now (i + 1) rest]

theorem stampItems_fields (itemID : Nat → ObjectID) (orderID : String) (now : Time) :
    ∀ (i : Nat) (l : List OrderItem),
      (stampItems itemID orderID now i l).map
          (fun d => (d.order_id, d.food_id, d.quantity, d.unit_price)) =
        l.map (fun it => (orderID, it.food_id, it.quantity, it.unit_price))
  | _, [] => rfl
  | i, _ :: rest => by
      simp [stampItems, stampItems_fields itemID orderID now (i + 1) rest]

theorem stampItems_filter (itemID : Nat → ObjectID) (orderID : String) (now : Time) :
    ∀ (i : Nat) (l : List OrderItem),
      (stampItems itemID orderID now i l).filter (fun it => it.order_id = orderID) =
        stampItems itemID orderID now i l
  | _, [] => rfl
  | i, _ :: rest => by
      simp [stampItems, stampItems_filter itemID orderID now (i + 1) rest]

theorem stampItems_quantities (itemID : Nat → ObjectID) (orderID : String) (now : Time) :
    ∀ (i : Nat) (l : List OrderItem),
      (stampItems itemID orderID now i l).map (fun it => it.quantity.getD 0) =
        l.map (fun it => it.quantity.getD 0)
  | _, [] => rfl
  | i, _ :: rest => by
      simp [stampItems, stampItems_quantities itemID orderID now (i + 1) rest]

theorem CreateOrderItem_some (orderObjID orderID : ObjectID) (itemID : Nat → ObjectID)
    (now : Time) (s : Store) (pack : OrderItemPack) (hk : pack.order_items ≠ []) :
    CreateOrderItem orderObjID orderID itemID now s (some pack) =
      ({ s with
          orders := s.orders ++
            [{ _id := orderObjID, order_id := orderID, table_id := pack.table_id,
               order_date := 0, created_at := now, updated_at := now }]
          order_items := s.order_items ++ stampItems itemID orderID now 0 pack.order_items },
        .json StatusCreated
          { order_id := orderID
            order_items :=
              (stampItems itemID orderID now 0 pack.order_items).map (fun d => d._id) }) := by
  have h0 : ¬ pack.order_items.length = 0 := by
    rw [List.length_eq_zero]
    exact hk
  simp only [CreateOrderItem, h0, if_false]

theorem sumQuantity_map_enrich (s : Store) (l : List OrderItem) :
    sumQuantity (l.map (enrich s)) = (l.map (fun it => it.quantity.getD 0)).sum := by
  simp only [sumQuantity, List.map_map]
  rfl

theorem updateOne_split {β : Type} (filter : β → Bool) (update : β → β) (d : β)
    (post : List β) (hd : filter d = true) :
    ∀ pre : List β, (∀ x ∈ pre, filter x = false) →
      updateOne filter update (pre ++ d :: post) = pre ++ update d :: post
  | [], _ => by simp [updateOne, hd]
  | a :: pre, h => by
      have ha : filter a = false := h a (List.mem_cons_self _ _)
      have ih := updateOne_split filter update d post hd pre
        (fun x hx => h x (List.mem_cons_of_mem _ hx))
      rw [List.cons_append, List.cons_append]
      unfold updateOne
      rw [ha, ih]
      rfl

theorem any_split {β : Type} (filter : β → Bool) (pre : List β) (d : β) (post : List β)
    (hd : filter d = true) : (pre ++ d :: post).any filter = true := by
  simp [hd]

theorem UpdateFood_of_menu (now : Time) (s : Store) (foodId : String) (food : Food)
    (hmenu : ∀ m, food.menu_id = some m → ∃ menu ∈ s.menus, menu.menu_id = m) :
    UpdateFood now s foodId (some food) = updateFoodDoc s foodId (foodUpdateObj now food) := by
  unfold UpdateFood
  cases h4 : food.menu_id with
  | none => simp only [foodUpdateObj, h4, List.append_nil, List.append_assoc]
  | some menuId =>
    simp only
    obtain ⟨menu, hmem, hid⟩ := hmenu menuId h4
    cases hm : s.menus.find? (fun m => m.menu_id = menuId) with
    | none =>
      rw [List.find?_eq_none] at hm
      exact absurd (by simpa using hid) (hm menu hmem)
    | some m =>
      simp only [hm, foodUpdateObj, h4, List.append_assoc, List.singleton_append]

theorem UpdateOrderItem_of_field (now : Time) (s : Store) (orderItemId : String)
    (input : OrderItem)
    (h : input.quantity ≠ none ∨ input.unit_price ≠ none ∨ input.food_id ≠ none) :
    UpdateOrderItem now s orderItemId (some input) =
      ({ s with order_items := (updateOne (fun d => d.order_item_id = orderItemId)
          (fun d => (orderItemUpdateObj now input).foldl (fun d u => u.apply d) d)
          s.order_items) },
        .json StatusOK
          { matched_count :=
              if s.order_items.any (fun d => d.order_item_id = orderItemId) then 1 else 0 }) := by
  have h0 : (orderItemUpdateHead input).length ≠ 0 := by
    unfold orderItemUpdateHead
    cases h1 : input.quantity <;> cases h2 : input.unit_price <;> cases h3 : input.food_id <;>
      simp [h1, h2, h3] at h ⊢
  simp only [UpdateOrderItem, h0, if_false, orderItemUpdateObj]


/-! ## The claims -/

/-- C1 (as stated, refuted): on `storeOneItem`, whose ids are unique and whose
order `o1` has one item of quantity 1 and food price 0.125, `ItemsByOrder`
yields and `GetInvoiceById` shows `payment_due = 0.125`, while
`toFixed(0.125 * 1, 2)` is the `float64` 0.13. On `storeThreeBreads`, whose
food has the price 0.10 that `toFixed(·, 2)` leaves as it is and whose order
`o2` has one item of quantity 3, `payment_due` is the `float64` product
0.30000000000000004, while `toFixed` of that value is the `float64` 0.3. -/
theorem payment_due_not_rounded :
    UniqueIds storeOneItem ∧
    ItemsByOrder storeOneItem "o1" = .ok [recordOneItem] ∧
    GetInvoiceById storeOneItem "v1" = .json StatusOK viewOneItem ∧
    recordOneItem.payment_due = 1 / 8 ∧ viewOneItem.payment_due = 1 / 8 ∧
    toFixed (1 / 8 * 1) 2 = float64 (13 / 100) ∧ toFixed (1 / 8 * 1) 2 ≠ 1 / 8 ∧
    UniqueIds storeThreeBreads ∧
    storeThreeBreads.food.map (fun f => f.price) = [some (float64 (1 / 10))] ∧
    toFixed (float64 (1 / 10)) 2 = float64 (1 / 10) ∧
    storeThreeBreads.order_items.map (fun it => (it.order_id, it.quantity)) =
      [("o2", some 3)] ∧
    ItemsByOrder storeThreeBreads "o2" = .ok [recordThreeBreads] ∧
    recordThreeBreads.payment_due = 1351079888211149 / 4503599627370496 ∧
    toFixed recordThreeBreads.payment_due 2 = 5404319552844595 / 18014398509481984 ∧
    toFixed recordThreeBreads.payment_due 2 ≠ recordThreeBreads.payment_due := by
  refine ⟨by decide, ItemsByOrder_storeOneItem, ?_, rfl, rfl, ?_, ?_, by decide, ?_, ?_, rfl,
    ItemsByOrder_storeThreeBreads, rfl, toFixed_three_tenths, ?_⟩
  · rw [GetInvoiceById_of_record storeOneItem "v1" invoice1 recordOneItem []
      (by simp [storeOneItem, invoice1]) ItemsByOrder_storeOneItem]
    rfl
  · rw [toFixed_eighth, float64_eq (13 / 100) (-3) 4683743612465316
      (by norm_num [abs_of_pos]) (by norm_num [abs_of_pos]) (by norm_num)
      (by norm_num [roundHalfEven])]
    norm_num
  · rw [toFixed_eighth]
    norm_num
  · rw [float64_tenth]
    rfl
  · rw [float64_tenth, toFixed_tenth]
  · have h : recordThreeBreads.payment_due = 1351079888211149 / 4503599627370496 := rfl
    rw [h, toFixed_three_tenths]
    norm_num

/-- C1 (amended): in a store whose food, order and table ids are unique, for an
order with at least one item, each item having a quantity `q` and a food of
price `p`, `ItemsByOrder` returns one record whose `payment_due` is the `$sum`
of the line amounts, each the `float64` product of `p` and `q`; neither the
products nor the sum are rounded to 2 decimal places. For an order of one item
it is that product and for an order of two items the `float64` sum of the two
products. `GetInvoiceById` shows the value of the record unchanged for an
invoice of the order. -/
theorem payment_due_eq_sum (s : Store) (orderID : String) (p : OrderItem → ℚ)
    (q : OrderItem → Int) (hu : UniqueIds s)
    (hne : s.order_items.filter (fun it => it.order_id = orderID) ≠ [])
    (hq : ∀ it ∈ s.order_items, it.order_id = orderID → it.quantity = some (q it))
    (hp : ∀ it ∈ s.order_items, it.order_id = orderID →
      ∃ f ∈ s.food, some f.food_id = it.food_id ∧ f.price = some (p it)) :
    ∃ r, ItemsByOrder s orderID = .ok [r] ∧
      r.payment_due =
        sumDoubles ((s.order_items.filter (fun it => it.order_id = orderID)).map
          (fun it => float64 (p it * float64 (q it : ℚ)))) ∧
      (∀ it, s.order_items.filter (fun it => it.order_id = orderID) = [it] →
        r.payment_due = float64 (p it * float64 (q it : ℚ))) ∧
      (∀ it1 it2, s.order_items.filter (fun it => it.order_id = orderID) = [it1, it2] →
        r.payment_due =
          float64 (float64 (p it1 * float64 (q it1 : ℚ)) +
            float64 (p it2 * float64 (q it2 : ℚ)))) ∧
      ∀ invoiceId inv, s.invoices.find? (fun i => i.invoice_id = invoiceId) = some inv →
        inv.order_id = orderID →
        ∃ v, GetInvoiceById s invoiceId = .json StatusOK v ∧
          v.payment_due = r.payment_due := by
  obtain ⟨it, its, hm⟩ := List.exists_cons_of_ne_nil hne
  have hrec := ItemsByOrder_of_unique s hu orderID it its hm
  have hmem : ∀ x ∈ it :: its, x ∈ s.order_items ∧ x.order_id = orderID := by
    intro x hx
    rw [← hm, List.mem_filter] at hx
    exact ⟨hx.1, by simpa using hx.2⟩
  have hsum : sumAmount ((it :: its).map (enrich s)) =
      sumDoubles ((s.order_items.filter (fun it => it.order_id = orderID)).map
        (fun it => float64 (p it * float64 (q it : ℚ)))) := by
    rw [hm]
    exact sumAmount_map_enrich s hu p q (it :: its)
      (fun x hx => hq x (hmem x hx).1 (hmem x hx).2)
      (fun x hx => hp x (hmem x hx).1 (hmem x hx).2)
  refine ⟨_, hrec, hsum, ?_, ?_, ?_⟩
  · intro x hx
    simp only
    rw [hsum, hx, List.map_singleton, sumDoubles_singleton _ (float64_multiply _ _)]
  · intro x1 x2 hx
    simp only
    rw [hsum, hx, List.map_cons, List.map_singleton,
      sumDoubles_pair _ _ (float64_multiply _ _) (float64_multiply _ _)]
  · intro invoiceId inv hinv hoid
    subst hoid
    exact ⟨_, GetInvoiceById_of_record s invoiceId inv _ [] hinv hrec, rfl⟩

/-- C1 (amended), at `storeThreeBreads`: one item of quantity 3 and food price
0.10, where the `float64` product differs from the exact one. -/
theorem payment_due_eq_sum_witness :
    UniqueIds storeThreeBreads ∧
    storeThreeBreads.order_items.filter (fun it => it.order_id = "o2") ≠ [] ∧
    (∀ it ∈ storeThreeBreads.order_items, it.order_id = "o2" → it.quantity = some 3) ∧
    (∀ it ∈ storeThreeBreads.order_items, it.order_id = "o2" →
      ∃ f ∈ storeThreeBreads.food, some f.food_id = it.food_id ∧
        f.price = some (3602879701896397 / 36028797018963968)) ∧
    ∃ r, ItemsByOrder storeThreeBreads "o2" = .ok [r] ∧
      r.payment_due =
        sumDoubles ((storeThreeBreads.order_items.filter (fun it => it.order_id = "o2")).map
          (fun _ => float64 (3602879701896397 / 36028797018963968 * float64 ((3 : Int) : ℚ)))) ∧
      (∀ it, storeThreeBreads.order_items.filter (fun it => it.order_id = "o2") = [it] →
        r.payment_due =
          float64 (3602879701896397 / 36028797018963968 * float64 ((3 : Int) : ℚ))) ∧
      (∀ it1 it2,
        storeThreeBreads.order_items.filter (fun it => it.order_id = "o2") = [it1, it2] →
        r.payment_due =
          float64 (float64 (3602879701896397 / 36028797018963968 * float64 ((3 : Int) : ℚ)) +
            float64 (3602879701896397 / 36028797018963968 * float64 ((3 : Int) : ℚ)))) ∧
      ∀ invoiceId inv,
        storeThreeBreads.invoices.find? (fun i => i.invoice_id = invoiceId) = some inv →
        inv.order_id = "o2" →
        ∃ v, GetInvoiceById storeThreeBreads invoiceId = .json StatusOK v ∧
          v.payment_due = r.payment_due :=
  ⟨by decide, by decide, by simp [storeThreeBreads, item4],
    by simp [storeThreeBreads, item4, bread],
    payment_due_eq_sum storeThreeBreads "o2" (fun _ => 3602879701896397 / 36028797018963968)
      (fun _ => 3) (by decide) (by decide) (by simp [storeThreeBreads, item4])
      (by simp [storeThreeBreads, item4, bread])⟩

/-- C2 (as stated, refuted): on `storeDuplicateFood` the only item of order
`o1` has quantity 2, and the aggregate record has `total_count = 4`: the item
is unwound once per food document that carries its food id. -/
theorem total_count_counts_duplicates :
    matchStage storeDuplicateFood "o1" = [item2] ∧ item2.quantity = some 2 ∧
    ItemsByOrder storeDuplicateFood "o1" = .ok [recordDuplicateFood] ∧
    recordDuplicateFood.total_count = 4 := by
  refine ⟨rfl, rfl, ?_, rfl⟩
  simp [ItemsByOrder, joinStages, matchStage, lookupFoodStage, lookupOrderStage,
    lookupTableStage, unwindPreserve, projectStage, groupStage, accumulate, finalProject,
    multiply, groupKey, storeDuplicateFood, item2, soup, soupCopy, recordDuplicateFood,
    enrichedItem2, sumAmount, float64_two]
  norm_num [float64_quarter, float64_half, sumDoubles_pair]

/-- C2 (amended): in a store whose food, order and table ids are unique, for an
order with at least one item, `ItemsByOrder` returns one record whose
`total_count` is the sum of the quantities of exactly the order items whose
`order_id` is the input (a null quantity adding nothing). -/
theorem total_count_eq_sum (s : Store) (orderID : String) (hu : UniqueIds s)
    (hne : matchStage s orderID ≠ []) :
    ∃ r, ItemsByOrder s orderID = .ok [r] ∧
      r.total_count =
        ((s.order_items.filter (fun it => it.order_id = orderID)).map
          (fun it => it.quantity.getD 0)).sum := by
  obtain ⟨it, its, hm⟩ := List.exists_cons_of_ne_nil hne
  refine ⟨_, ItemsByOrder_of_unique s hu orderID it its hm, ?_⟩
  have hm2 : s.order_items.filter (fun it => it.order_id = orderID) = it :: its := hm
  rw [hm2]
  simp only [sumQuantity, List.map_map]
  rfl

/-- C2 (amended), at `storeOneItem`. -/
theorem total_count_eq_sum_witness :
    UniqueIds storeOneItem ∧ matchStage storeOneItem "o1" ≠ [] ∧
    ∃ r, ItemsByOrder storeOneItem "o1" = .ok [r] ∧
      r.total_count =
        ((storeOneItem.order_items.filter (fun it => it.order_id = "o1")).map
          (fun it => it.quantity.getD 0)).sum :=
  ⟨by decide, by decide, total_count_eq_sum storeOneItem "o1" (by decide) (by decide)⟩

/-- C7: in a store whose order, table and food ids are unique, `ItemsByOrder`
returns at most one aggregate record for any order id, and the item lists of
the returned records hold the order items whose `order_id` is the input
exactly once each, in order. When the order has an item there is exactly one
record, its item list alone holds them all, and `GetInvoiceById` replies 200
to every invoice of the order with that item list as `order_details`. -/
theorem single_group_of_unique (s : Store) (orderID : String) (hu : UniqueIds s) :
    ∃ recs, ItemsByOrder s orderID = .ok recs ∧ recs.length ≤ 1 ∧
      (outputItems recs).map (fun e => (e._id, e.quantity)) =
        (s.order_items.filter (fun it => it.order_id = orderID)).map
          (fun it => (it._id, it.quantity)) ∧
      (s.order_items.filter (fun it => it.order_id = orderID) ≠ [] →
        ∃ first, recs = [first] ∧
          first.order_items.map (fun e => (e._id, e.quantity)) =
            (s.order_items.filter (fun it => it.order_id = orderID)).map
              (fun it => (it._id, it.quantity)) ∧
          ∀ invoiceId inv,
            s.invoices.find? (fun i => i.invoice_id = invoiceId) = some inv →
            inv.order_id = orderID →
            ∃ v, GetInvoiceById s invoiceId = .json StatusOK v ∧
              v.order_details = first.order_items) := by
  cases hm : s.order_items.filter (fun it => it.order_id = orderID) with
  | nil =>
    have hrec := ItemsByOrder_of_no_items s orderID hm
    exact ⟨[], hrec, by simp, by simp [outputItems], fun h => absurd rfl h⟩
  | cons it its =>
    have hrec := ItemsByOrder_of_unique s hu orderID it its hm
    have hids : ((it :: its).map (enrich s)).map (fun e => (e._id, e.quantity)) =
        (it :: its).map (fun it => (it._id, it.quantity)) := by
      rw [List.map_map]
      rfl
    refine ⟨_, hrec, by simp, by simpa [outputItems] using hids, ?_⟩
    intro _
    refine ⟨_, rfl, hids, ?_⟩
    intro invoiceId inv hinv hoid
    subst hoid
    exact ⟨_, GetInvoiceById_of_record s invoiceId inv _ [] hinv hrec, rfl⟩

/-- C7, at `storeOneItem`, whose order `o1` holds the one item `item1`: the one
record is `recordOneItem` and the view of the invoice `v1` is `viewOneItem`. -/
theorem single_group_of_unique_witness :
    UniqueIds storeOneItem ∧
    storeOneItem.order_items.filter (fun it => it.order_id = "o1") = [item1] ∧
    ItemsByOrder storeOneItem "o1" = .ok [recordOneItem] ∧
    recordOneItem.order_items.map (fun e => (e._id, e.quantity)) = [("i1", some 1)] ∧
    ∃ recs, ItemsByOrder storeOneItem "o1" = .ok recs ∧ recs.length ≤ 1 ∧
      (outputItems recs).map (fun e => (e._id, e.quantity)) =
        (storeOneItem.order_items.filter (fun it => it.order_id = "o1")).map
          (fun it => (it._id, it.quantity)) ∧
      (storeOneItem.order_items.filter (fun it => it.order_id = "o1") ≠ [] →
        ∃ first, recs = [first] ∧
          first.order_items.map (fun e => (e._id, e.quantity)) =
            (storeOneItem.order_items.filter (fun it => it.order_id = "o1")).map
              (fun it => (it._id, it.quantity)) ∧
          ∀ invoiceId inv,
            storeOneItem.invoices.find? (fun i => i.invoice_id = invoiceId) = some inv →
            inv.order_id = "o1" →
            ∃ v, GetInvoiceById storeOneItem invoiceId = .json StatusOK v ∧
              v.order_details = first.order_items) :=
  ⟨by decide, rfl, ItemsByOrder_storeOneItem, rfl,
    single_group_of_unique storeOneItem "o1" (by decide)⟩

/-- C3 (as stated, refuted): on `storeNoItems` order `o1` has no order item;
`ItemsByOrder` returns the empty list with a nil error, and `GetInvoiceById`
for the invoice `v1` of that order replies with status 500, not 404. -/
theorem no_items_not_notfound :
    matchStage storeNoItems "o1" = [] ∧
    ItemsByOrder storeNoItems "o1" = .ok [] ∧
    GetInvoiceById storeNoItems "v1" =
      .error StatusInternalServerError "order details not found" ∧
    (GetInvoiceById storeNoItems "v1").status ≠ StatusNotFound := by
  have h : GetInvoiceById storeNoItems "v1" =
      .error StatusInternalServerError "order details not found" := by
    simp [GetInvoiceById, storeNoItems, invoice1, ItemsByOrder_of_no_items, matchStage]
  refine ⟨rfl, ItemsByOrder_of_no_items _ _ rfl, h, ?_⟩
  rw [h]
  decide

/-- C3 (amended): for an order id with no order item, `ItemsByOrder` returns
the empty list with a nil error, and `GetInvoiceById` for an invoice of that
order never returns a view: its reply is the error "order details not found",
with a status other than 200. -/
theorem no_items_empty_result (s : Store) (orderID : String)
    (h0 : s.order_items.filter (fun it => it.order_id = orderID) = []) :
    ItemsByOrder s orderID = .ok [] ∧
    ∀ invoiceId inv, s.invoices.find? (fun i => i.invoice_id = invoiceId) = some inv →
      inv.order_id = orderID →
      ∃ st, GetInvoiceById s invoiceId = .error st "order details not found" ∧
        st ≠ StatusOK := by
  have hrec := ItemsByOrder_of_no_items s orderID h0
  refine ⟨hrec, ?_⟩
  intro invoiceId inv hinv hoid
  subst hoid
  refine ⟨StatusInternalServerError, ?_, by decide⟩
  simp [GetInvoiceById, hinv, hrec]

/-- C3 (amended), at `storeNoItems`. -/
theorem no_items_empty_result_witness :
    storeNoItems.order_items.filter (fun it => it.order_id = "o1") = [] ∧
    ItemsByOrder storeNoItems "o1" = .ok [] ∧
    ∀ invoiceId inv,
      storeNoItems.invoices.find? (fun i => i.invoice_id = invoiceId) = some inv →
      inv.order_id = "o1" →
      ∃ st, GetInvoiceById storeNoItems invoiceId = .error st "order details not found" ∧
        st ≠ StatusOK :=
  ⟨rfl, no_items_empty_result storeNoItems "o1" rfl⟩

/-- C4 (as stated, refuted): on `storeMissingFood` the item `i3` of order `o1`
names a food id found in no food document; the aggregation succeeds and the
record of `i3` has `amount` null, not the number 0. -/
theorem missing_food_amount_null :
    MissingFood storeMissingFood item3 ∧
    ItemsByOrder storeMissingFood "o1" = .ok [recordMissingFood] ∧
    recordMissingFood.order_items = [enrichedItem1, enrichedItem3] ∧
    enrichedItem3._id = item3._id ∧ enrichedItem3.amount = none ∧
    enrichedItem3.amount ≠ some 0 := by
  refine ⟨by decide, ?_, rfl, rfl, rfl, by simp [enrichedItem3]⟩
  simp [ItemsByOrder, joinStages, matchStage, lookupFoodStage, lookupOrderStage,
    lookupTableStage, unwindPreserve, projectStage, groupStage, accumulate, finalProject,
    multiply, groupKey, storeMissingFood, item1, item3, soup, recordMissingFood,
    enrichedItem1, enrichedItem3, sumAmount, float64_one, float64_inv_eight,
    sumDoubles_singleton]

/-- C4 (amended): for an order one of whose items names a food id found in no
food document, the aggregation does not fail. That item has an enriched record
in the output with the item's `_id` and quantity, without food name, image or
price and with a null `amount`. Every order item of the order has an enriched
record in the output and every output record comes from an item of the order,
with the item's `_id` and quantity. The `payment_due` of each aggregate record
is the `$sum` of the amounts of its records that are numbers, a null amount
adding nothing. -/
theorem missing_food_degrades (s : Store) (orderID : String) (it : OrderItem)
    (hit : it ∈ s.order_items) (hord : it.order_id = orderID) (hmiss : MissingFood s it) :
    ∃ recs, ItemsByOrder s orderID = .ok recs ∧
      (∃ e ∈ outputItems recs, e._id = it._id ∧ e.quantity = it.quantity ∧
        e.food_name = none ∧ e.food_image = none ∧ e.price = none ∧ e.amount = none) ∧
      (∀ x ∈ s.order_items, x.order_id = orderID → ∃ e ∈ outputItems recs,
        e._id = x._id ∧ e.quantity = x.quantity ∧
        (MissingFood s x →
          e.food_name = none ∧ e.food_image = none ∧ e.price = none ∧ e.amount = none)) ∧
      (∀ e ∈ outputItems recs, ∃ x ∈ s.order_items, x.order_id = orderID ∧
        e._id = x._id ∧ e.quantity = x.quantity ∧
        (MissingFood s x →
          e.food_name = none ∧ e.food_image = none ∧ e.price = none ∧ e.amount = none)) ∧
      (∀ r ∈ recs,
        r.payment_due = sumDoubles (r.order_items.filterMap (fun e => e.amount))) := by
  have key : ∀ x j, j ∈ expand s x →
      (projectStage j)._id = x._id ∧ (projectStage j).quantity = x.quantity ∧
      (MissingFood s x →
        (projectStage j).food_name = none ∧ (projectStage j).food_image = none ∧
        (projectStage j).price = none ∧ (projectStage j).amount = none) := by
    intro x j hj
    obtain ⟨hitem, hsome, -⟩ := mem_expand s x j hj
    refine ⟨by rw [← hitem]; rfl, by rw [← hitem]; rfl, ?_⟩
    intro hm
    have hnone : j.food = none := by
      cases hf : j.food with
      | none => rfl
      | some f => exact absurd (hsome f hf).2 (hm f (hsome f hf).1)
    simp [projectStage, hnone, multiply]
  have hmatch : ∀ x, x ∈ matchStage s orderID ↔ x ∈ s.order_items ∧ x.order_id = orderID := by
    intro x
    unfold matchStage
    rw [List.mem_filter]
    simp
  have hall : ∀ x ∈ s.order_items, x.order_id = orderID →
      ∃ e ∈ outputItems
          ((groupStage ((joinStages s orderID).map projectStage)).map finalProject),
        e._id = x._id ∧ e.quantity = x.quantity ∧
        (MissingFood s x →
          e.food_name = none ∧ e.food_image = none ∧ e.price = none ∧ e.amount = none) := by
    intro x hx hxo
    obtain ⟨j, js, hj⟩ := List.exists_cons_of_ne_nil (expand_ne_nil s x)
    have hmem : j ∈ expand s x := by rw [hj]; exact List.mem_cons_self _ _
    exact ⟨projectStage j,
      (mem_outputItems s orderID _).mpr ⟨x, (hmatch x).mpr ⟨hx, hxo⟩, j, hmem, rfl⟩,
      key x j hmem⟩
  refine ⟨_, rfl, ?_, hall, ?_, ?_⟩
  · obtain ⟨e, he, h1, h2, h3⟩ := hall it hit hord
    exact ⟨e, he, h1, h2, h3 hmiss⟩
  · intro e he
    obtain ⟨x, hx, j, hj, rfl⟩ := (mem_outputItems s orderID e).mp he
    exact ⟨x, ((hmatch x).mp hx).1, ((hmatch x).mp hx).2, key x j hj⟩
  · intro r hr
    rw [List.mem_map] at hr
    obtain ⟨g, hg, rfl⟩ := hr
    exact (groupStage_sums _ g hg).1

/-- C4 (amended), at `storeMissingFood`, whose order `o1` holds `item3` with the
food id of no food beside `item1`. -/
theorem missing_food_degrades_witness :
    item3 ∈ storeMissingFood.order_items ∧ item3.order_id = "o1" ∧
    MissingFood storeMissingFood item3 ∧
    storeMissingFood.order_items.filter (fun it => it.order_id = "o1") = [item1, item3] ∧
    ∃ recs, ItemsByOrder storeMissingFood "o1" = .ok recs ∧
      (∃ e ∈ outputItems recs, e._id = item3._id ∧ e.quantity = item3.quantity ∧
        e.food_name = none ∧ e.food_image = none ∧ e.price = none ∧ e.amount = none) ∧
      (∀ x ∈ storeMissingFood.order_items, x.order_id = "o1" → ∃ e ∈ outputItems recs,
        e._id = x._id ∧ e.quantity = x.quantity ∧
        (MissingFood storeMissingFood x →
          e.food_name = none ∧ e.food_image = none ∧ e.price = none ∧ e.amount = none)) ∧
      (∀ e ∈ outputItems recs, ∃ x ∈ storeMissingFood.order_items, x.order_id = "o1" ∧
        e._id = x._id ∧ e.quantity = x.quantity ∧
        (MissingFood storeMissingFood x →
          e.food_name = none ∧ e.food_image = none ∧ e.price = none ∧ e.amount = none)) ∧
      (∀ r ∈ recs,
        r.payment_due = sumDoubles (r.order_items.filterMap (fun e => e.amount))) :=
  ⟨by decide, rfl, by decide, rfl,
    missing_food_degrades storeMissingFood "o1" item3 (by decide) rfl (by decide)⟩

/-- C5 (as stated, refuted): `storeRepriced` differs from `storeOneItem` only
in the current price of the food the item of order `o1` references (0.25
instead of 0.125; the item's captured `unit_price` is 0.125 in both), and
`ItemsByOrder` returns the line amount and `payment_due` 0.125 on the first and
0.25 on the second. -/
theorem repricing_changes_amounts :
    storeRepriced = { storeOneItem with food := [{ soup with price := some (1 / 4) }] } ∧
    storeRepriced.order_items = storeOneItem.order_items ∧
    ItemsByOrder storeOneItem "o1" = .ok [recordOneItem] ∧
    ItemsByOrder storeRepriced "o1" = .ok [recordRepriced] ∧
    recordOneItem.order_items.map (fun e => e.amount) = [some (1 / 8)] ∧
    recordRepriced.order_items.map (fun e => e.amount) = [some (1 / 4)] ∧
    recordOneItem.payment_due = 1 / 8 ∧ recordRepriced.payment_due = 1 / 4 ∧
    recordOneItem.payment_due ≠ recordRepriced.payment_due := by
  refine ⟨rfl, rfl, ItemsByOrder_storeOneItem, ?_, rfl, rfl, rfl, rfl, ?_⟩
  · simp [ItemsByOrder, joinStages, matchStage, lookupFoodStage, lookupOrderStage,
      lookupTableStage, unwindPreserve, projectStage, groupStage, accumulate, finalProject,
      multiply, groupKey, storeRepriced, storeOneItem, soupRepriced, item1, soup,
      recordRepriced, enrichedItem1, sumAmount, float64_one, float64_inv_four,
      sumDoubles_singleton]
  · norm_num [recordOneItem, recordRepriced]

/-- C5 (amended): `ItemsByOrder` never reads the captured `unit_price` of the
order items: two stores that differ only in the `unit_price` of order items
give the same result. Every order item of the order has a record in the
output, and every output record comes from an order item of the order, with
the item's `_id` and quantity, and either from a food document that now has
the item's food id, or from none when no food document has it. In the first
case the record's price is the price that food document holds now and its
amount the `float64` product of that price and the item's quantity (null when
one of the two is null); in the second case price and amount are null. -/
theorem amount_from_current_price (s : Store) (orderID : String)
    (u : OrderItem → Option ℚ) (it : OrderItem) (hit : it ∈ s.order_items)
    (hord : it.order_id = orderID) :
    ItemsByOrder (setUnitPrices u s) orderID = ItemsByOrder s orderID ∧
    ∃ recs, ItemsByOrder s orderID = .ok recs ∧
      (∃ e ∈ outputItems recs, e._id = it._id ∧ e.quantity = it.quantity) ∧
      ∀ e ∈ outputItems recs, ∃ x ∈ s.order_items, x.order_id = orderID ∧
        e._id = x._id ∧ e.quantity = x.quantity ∧
        ((MissingFood s x ∧ e.price = none ∧ e.amount = none) ∨
          ∃ f ∈ s.food, some f.food_id = x.food_id ∧ e.price = f.price ∧
            (∀ p q, f.price = some p → x.quantity = some q →
              e.amount = some (float64 (p * float64 (q : ℚ)))) ∧
            (f.price = none ∨ x.quantity = none → e.amount = none)) := by
  have hmatch : ∀ x, x ∈ matchStage s orderID ↔ x ∈ s.order_items ∧ x.order_id = orderID := by
    intro x
    unfold matchStage
    rw [List.mem_filter]
    simp
  refine ⟨?_, _, rfl, ?_, ?_⟩
  · unfold ItemsByOrder
    rw [joinStages_setUnitPrices]
  · obtain ⟨j, js, hj⟩ := List.exists_cons_of_ne_nil (expand_ne_nil s it)
    have hmem : j ∈ expand s it := by rw [hj]; exact List.mem_cons_self _ _
    obtain ⟨hitem, -, -⟩ := mem_expand s it j hmem
    exact ⟨projectStage j,
      (mem_outputItems s orderID _).mpr ⟨it, (hmatch it).mpr ⟨hit, hord⟩, j, hmem, rfl⟩,
      by rw [← hitem]; rfl, by rw [← hitem]; rfl⟩
  · intro e he
    obtain ⟨x, hx, j, hj, rfl⟩ := (mem_outputItems s orderID e).mp he
    obtain ⟨hitem, hsome, hnone⟩ := mem_expand s x j hj
    refine ⟨x, ((hmatch x).mp hx).1, ((hmatch x).mp hx).2, by rw [← hitem]; rfl,
      by rw [← hitem]; rfl, ?_⟩
    cases hf : j.food with
    | none =>
      exact Or.inl ⟨hnone hf, by simp [projectStage, hf], by simp [projectStage, hf, multiply]⟩
    | some f =>
      refine Or.inr ⟨f, (hsome f hf).1, (hsome f hf).2, by simp [projectStage, hf], ?_, ?_⟩
      · intro p q hp hq
        simp [projectStage, hf, hp, hitem, hq, multiply]
      · intro h
        rcases h with h | h
        · simp [projectStage, hf, h, multiply]
        · cases hp : f.price <;> simp [projectStage, hf, hp, hitem, h, multiply]

/-- C5 (amended), at `storeOneItem` and its item `item1`, every captured
`unit_price` being replaced by 9. -/
theorem amount_from_current_price_witness :
    item1 ∈ storeOneItem.order_items ∧ item1.order_id = "o1" ∧
    ItemsByOrder (setUnitPrices (fun _ => some 9) storeOneItem) "o1" =
      ItemsByOrder storeOneItem "o1" ∧
    ∃ recs, ItemsByOrder storeOneItem "o1" = .ok recs ∧
      (∃ e ∈ outputItems recs, e._id = item1._id ∧ e.quantity = item1.quantity) ∧
      ∀ e ∈ outputItems recs, ∃ x ∈ storeOneItem.order_items, x.order_id = "o1" ∧
        e._id = x._id ∧ e.quantity = x.quantity ∧
        ((MissingFood storeOneItem x ∧ e.price = none ∧ e.amount = none) ∨
          ∃ f ∈ storeOneItem.food, some f.food_id = x.food_id ∧ e.price = f.price ∧
            (∀ p q, f.price = some p → x.quantity = some q →
              e.amount = some (float64 (p * float64 (q : ℚ)))) ∧
            (f.price = none ∨ x.quantity = none → e.amount = none)) :=
  ⟨List.mem_cons_self _ _, rfl,
    amount_from_current_price storeOneItem "o1" (fun _ => some 9) item1
      (List.mem_cons_self _ _) rfl⟩

/-- C6 (the code at the failing input): after `CreateTable` stored table `t1`
with table number 5 in `tables` and `CreateOrderItem` stored order `o1` with
table id `t1` in `orders`, `ItemsByOrder` on `o1` returns a record without a
table number: its `$lookup` stages read the collections `order` and `table`,
which stay empty. -/
theorem table_number_not_joined :
    storeAfterCreates.tables.map (fun t => (t.table_id, t.table_number)) =
      [("t1", some 5)] ∧
    storeAfterCreates.orders.map (fun o => (o.order_id, o.table_id)) =
      [("o1", some "t1")] ∧
    storeAfterCreates.order = [] ∧ storeAfterCreates.table = [] ∧
    ItemsByOrder storeAfterCreates "o1" = .ok [recordOneItem] ∧
    recordOneItem.table_number = none := by
  refine ⟨rfl, rfl, rfl, rfl, ?_, rfl⟩
  simp [ItemsByOrder, joinStages, matchStage, lookupFoodStage, lookupOrderStage,
    lookupTableStage, unwindPreserve, projectStage, groupStage, accumulate, finalProject,
    multiply, groupKey, storeAfterCreates, CreateOrderItem, CreateTable, stampItems,
    storeSeed, packRequest, tableRequest, soup, recordOneItem, enrichedItem1, sumAmount,
    float64_one, float64_inv_eight, sumDoubles_singleton]

/-- C10 (as stated, refuted): with one food in the collection, page size 4 and
page number 2^62 + 1, the start index `(page - 1) * recordPerPage = 2^64` wraps
to 0 in a Go `int` and `GetFoods` returns the first page, not the empty page;
with page size 1 and page number 2^31 + 1 the start index 2^31 is not a 32-bit
integer, `$slice` fails and `GetFoods` replies with status 500. -/
theorem paging_fails_on_large_page_numbers :
    storeSeed.food = [soup] ∧
    GetFoodsPage storeSeed 4 (2 ^ 62 + 1) =
      .json StatusOK { total_count := 1, food_items := [soup] } ∧
    (storeSeed.food.drop ((2 ^ 62 + 1 - 1) * 4)).take 4 = [] ∧
    GetFoodsPage storeSeed 1 (2 ^ 31 + 1) =
      .error StatusInternalServerError
        "Second argument to $slice cannot be represented as a 32-bit integer" := by
  refine ⟨rfl, rfl, ?_, rfl⟩
  simp [storeSeed]

/-- C10 (amended): for a food collection of `n ≥ 1` documents and every page
size and page number that are at least 1, with the page size and the start
index `(pageNumber - 1) * pageSize` below 2^31, `GetFoods` replies 200 with
`total_count = n` and the contiguous slice of at most `pageSize` documents that
starts after the first `(pageNumber - 1) * pageSize` (empty when the start lies
past `n`); for page size 10, page number 2 and 25 documents these are the
documents 11 to 20 and `total_count = 25`. -/
theorem paging_returns_slice (s : Store) (pageSize pageNumber : Int)
    (hn : s.food ≠ []) (hs : 1 ≤ pageSize) (hp : 1 ≤ pageNumber)
    (hs32 : pageSize < 2 ^ 31) (hstart : (pageNumber - 1) * pageSize < 2 ^ 31) :
    GetFoodsPage s pageSize pageNumber =
      .json StatusOK
        { total_count := s.food.length
          food_items :=
            (s.food.drop ((pageNumber - 1) * pageSize).toNat).take pageSize.toNat } ∧
    GetFoodsPage storeMenu25 10 2 =
      .json StatusOK
        { total_count := 25, food_items := (List.range' 10 10).map foodNumber } := by
  constructor
  · have h1 : ¬ pageSize < 1 := by omega
    have h2 : ¬ pageNumber < 1 := by omega
    have h0 : 0 ≤ (pageNumber - 1) * pageSize := Int.mul_nonneg (by omega) (by omega)
    obtain ⟨d, ds, hd⟩ := List.exists_cons_of_ne_nil hn
    simp only [GetFoodsPage, h1, h2, if_false, wrapInt_of_range _ h0 (by omega), foodPipeline,
      hd, groupAll, List.mapM_cons, List.mapM_nil, projectPage,
      slice_of_int32 _ _ _ h0 hstart hs hs32]
    rfl
  · rfl

/-- C10 (amended), at page size 10 and page number 2 of `storeMenu25`. -/
theorem paging_returns_slice_witness :
    storeMenu25.food ≠ [] ∧ (1 : Int) ≤ 10 ∧ (1 : Int) ≤ 2 ∧ (10 : Int) < 2 ^ 31 ∧
    ((2 : Int) - 1) * 10 < 2 ^ 31 ∧
    GetFoodsPage storeMenu25 10 2 =
      .json StatusOK
        { total_count := storeMenu25.food.length
          food_items := (storeMenu25.food.drop (((2 : Int) - 1) * 10).toNat).take
            (10 : Int).toNat } :=
  ⟨by decide, by decide, by decide, by decide, by decide,
    (paging_returns_slice storeMenu25 10 2 (by decide) (by decide) (by decide) (by decide)
      (by decide)).1⟩

/-- C8 (the code at the failing input): the `float64` nearest to 0.015 lies
below 0.015, so the multiple of 0.01 nearest to it is 0.01, which is also what
rounding it half away from zero to 2 digits gives; `toFixed` of it is the
`float64` 0.02, because the `float64` product with 100 is 1.5. For the amount
10^17 the product with 100 exceeds the range of `int` and `toFixed` returns
-92233720368547760. `toFixed(19.995, 2)` is 20.00. -/
theorem toFixed_not_nearest_cent :
    float64 (3 / 200) = 1080863910568919 / 72057594037927936 ∧
    (1080863910568919 / 72057594037927936 : ℚ) < 3 / 200 ∧
    |(1080863910568919 / 72057594037927936 : ℚ) - 1 / 100| <
      |(1080863910568919 / 72057594037927936 : ℚ) - 2 / 100| ∧
    roundHalfAwayFromZero (1080863910568919 / 72057594037927936) 2 = 1 / 100 ∧
    toFixed (1080863910568919 / 72057594037927936) 2 = float64 (2 / 100) ∧
    toFixed (1080863910568919 / 72057594037927936) 2 ≠
      float64 (roundHalfAwayFromZero (1080863910568919 / 72057594037927936) 2) ∧
    roundHalfAwayFromZero (10 ^ 17) 2 = 10 ^ 17 ∧
    toFixed (10 ^ 17) 2 = -92233720368547760 ∧
    toFixed (10 ^ 17) 2 ≠ float64 (roundHalfAwayFromZero (10 ^ 17) 2) ∧
    toFixed (float64 (3999 / 200)) 2 = 20 ∧
    roundHalfAwayFromZero (3999 / 200) 2 = 20 := by
  have hr1 : roundHalfAwayFromZero (1080863910568919 / 72057594037927936) 2 = 1 / 100 := by
    have hfl : ⌊(1080863910568919 / 72057594037927936 : ℚ) * 10 ^ 2 + 1 / 2⌋ = 1 := by
      rw [Int.floor_eq_iff]
      constructor <;> norm_num
    unfold roundHalfAwayFromZero
    rw [if_pos (by norm_num), hfl]
    norm_num
  have hr2 : roundHalfAwayFromZero (10 ^ 17) 2 = 10 ^ 17 := by
    have hfl : ⌊(10 ^ 17 : ℚ) * 10 ^ 2 + 1 / 2⌋ = 10 ^ 19 := by
      rw [Int.floor_eq_iff]
      constructor <;> norm_num
    unfold roundHalfAwayFromZero
    rw [if_pos (by norm_num), hfl]
    norm_num
  have hr3 : roundHalfAwayFromZero (3999 / 200) 2 = 20 := by
    have hfl : ⌊(3999 / 200 : ℚ) * 10 ^ 2 + 1 / 2⌋ = 2000 := by
      rw [Int.floor_eq_iff]
      constructor <;> norm_num
    unfold roundHalfAwayFromZero
    rw [if_pos (by norm_num), hfl]
    norm_num
  have h17 : float64 (10 ^ 17) = 10 ^ 17 := by
    have := float64_int_mul_zpow 6250000000000000 4 (by norm_num) (by norm_num)
    norm_num at this ⊢
    exact this
  refine ⟨float64_decimal_0015, by norm_num, ?_, hr1, ?_, ?_, hr2, toFixed_overflow, ?_, ?_,
    hr3⟩
  · rw [abs_of_pos (by norm_num), abs_of_neg (by norm_num)]
    norm_num
  · rw [toFixed_decimal_0015, float64_decimal_002]
  · rw [hr1, toFixed_decimal_0015, float64_decimal_001]
    norm_num
  · rw [hr2, toFixed_overflow, h17]
    norm_num
  · rw [float64_decimal_19995, toFixed_decimal_19995]

/-- C9 (as stated, refuted): `CreateFood` with the request price
40597907227499.125 writes the price `p = toFixed(x, 2)`, the `float64`
40597907227499.1328125, and `toFixed(p, 2)` is the next `float64`, not `p`. -/
theorem stored_price_not_fixed :
    (CreateFood (fun _ => true) "a9" 0 storeOneMenu (some foodRequestLarge)).1.food.map
        (fun f => f.price) = [some (toFixed (324783257819993 / 8) 2)] ∧
    toFixed (324783257819993 / 8) 2 = 5196532125119889 / 128 ∧
    toFixed (toFixed (324783257819993 / 8) 2) 2 = 2598266062559945 / 64 ∧
    toFixed (toFixed (324783257819993 / 8) 2) 2 ≠ toFixed (324783257819993 / 8) 2 := by
  refine ⟨rfl, toFixed_large, ?_, ?_⟩
  · rw [toFixed_large, toFixed_large_again]
  · rw [toFixed_large, toFixed_large_again]
    norm_num


/-- C9 (amended): every price `CreateFood` or `UpdateFood` writes is
`toFixed(x, 2)` of the request price `x`. `CreateFood` leaves the food
collection as it is or appends one document with that price; `UpdateFood`
leaves the price of every stored food as it is or sets it to that value. For
every request price of magnitude at most 10^13 the written value `p`
satisfies `toFixed(p, 2) = p`. -/
theorem stored_price_is_toFixed (validate : Food → Bool) (newID : ObjectID) (now : Time)
    (s : Store) (foodId : String) (body : Option Food) :
    ((CreateFood validate newID now s body).1.food = s.food ∨
      ∃ x f, body.bind (fun b => b.price) = some x ∧
        (CreateFood validate newID now s body).1.food = s.food ++ [f] ∧
        f.price = some (toFixed x 2)) ∧
    List.Forall₂
      (fun old new => new.price = old.price ∨
        ∃ x, body.bind (fun b => b.price) = some x ∧ new.price = some (toFixed x 2))
      s.food (UpdateFood now s foodId body).1.food ∧
    ∀ x : ℚ, |x| ≤ 10 ^ 13 → toFixed (toFixed x 2) 2 = toFixed x 2 := by
  refine ⟨?_, ?_, toFixed_idempotent⟩
  · cases body with
    | none => exact Or.inl rfl
    | some food =>
      unfold CreateFood
      simp only
      split_ifs with hv
      · exact Or.inl rfl
      · cases hm : s.menus.find? (fun m => some m.menu_id = food.menu_id) with
        | none => exact Or.inl rfl
        | some m =>
          cases hp : food.price with
          | none => simp [hp]
          | some x =>
            simp only [hp]
            exact Or.inr ⟨x, _, by simp [hp], rfl, rfl⟩
  · cases body with
    | none => exact List.forall₂_same.mpr (fun x _ => Or.inl rfl)
    | some food =>
      unfold UpdateFood
      simp only [Option.bind]
      cases hmid : food.menu_id with
      | none =>
        exact updateFoodDoc_prices s foodId food [FoodUpdate.updated_at now] (by simp)
      | some menuId =>
        simp only
        cases hm : s.menus.find? (fun m => m.menu_id = menuId) with
        | none => exact List.forall₂_same.mpr (fun x _ => Or.inl rfl)
        | some m =>
          exact updateFoodDoc_prices s foodId food
            [FoodUpdate.menu_id menuId, FoodUpdate.updated_at now] (by simp)

/-- C11 (as stated, refuted): on the 25 foods of `storeMenu25`, the request with
`recordPerPage=abc` (which parses to 0) and `page=3` is answered with page 3 of
size 10, the documents 21 to 25: only the page size is replaced by its default,
the page number is not reset to 1. -/
theorem clamping_keeps_other_parameter :
    atoi "abc" = 0 ∧ atoi "3" = 3 ∧
    GetFoods storeMenu25 (some "abc") (some "3") =
      .json StatusOK
        { total_count := 25, food_items := (List.range' 20 5).map foodNumber } ∧
    GetFoodsPage storeMenu25 10 1 =
      .json StatusOK
        { total_count := 25, food_items := (List.range' 0 10).map foodNumber } ∧
    GetFoods storeMenu25 (some "abc") (some "3") ≠ GetFoodsPage storeMenu25 10 1 := by
  have h1 : GetFoods storeMenu25 (some "abc") (some "3") =
      .json StatusOK
        { total_count := 25, food_items := (List.range' 20 5).map foodNumber } := rfl
  have h2 : GetFoodsPage storeMenu25 10 1 =
      .json StatusOK
        { total_count := 25, food_items := (List.range' 0 10).map foodNumber } := rfl
  refine ⟨rfl, rfl, h1, h2, ?_⟩
  rw [h1, h2]
  intro h
  have hlen := congrArg
    (fun r : Response FoodPage =>
      match r with
      | .json _ b => b.food_items.length
      | _ => 0) h
  simp at hlen

/-- C11 (amended): the food listing never rejects a request for its paging
parameters (no 400 reply), a non-numeric value parsing to 0, and it clamps each
parameter on its own: a page size below 1 is replaced by 10 and a page number
below 1 by 1, the other parameter being kept; when both are below 1 the window
is the one of page size 10 and page number 1. -/
theorem clamping_is_per_parameter (s : Store) (recordPerPage page : Int) :
    (∀ recordPerPageQuery pageQuery : Option String,
      GetFoods s recordPerPageQuery pageQuery =
        GetFoodsPage s (atoi (recordPerPageQuery.getD "10")) (atoi (pageQuery.getD "1"))) ∧
    (∀ (str : String) (c : Char), c ∈ str.toList → c.isDigit = false → c ≠ '-' →
      c ≠ '+' → atoi str = 0) ∧
    (GetFoodsPage s recordPerPage page).status ≠ StatusBadRequest ∧
    (recordPerPage < 1 → GetFoodsPage s recordPerPage page = GetFoodsPage s 10 page) ∧
    (page < 1 → GetFoodsPage s recordPerPage page = GetFoodsPage s recordPerPage 1) ∧
    (recordPerPage < 1 → page < 1 →
      GetFoodsPage s recordPerPage page = GetFoodsPage s 10 1) := by
  refine ⟨fun _ _ => rfl, atoi_of_non_digit, ?_, GetFoodsPage_clamp_size s recordPerPage page,
    GetFoodsPage_clamp_page s recordPerPage page, ?_⟩
  · rcases GetFoodsPage_status s recordPerPage page with h | h <;> rw [h] <;> decide
  · intro h1 h2
    rw [GetFoodsPage_clamp_size s recordPerPage page h1, GetFoodsPage_clamp_page s 10 page h2]

/-- C12 (as stated, refuted): on `storeTwelve`, with 12 users and 12 foods,
`GetUsers` with `recordPerPage=0` returns all 12 users where `GetFoods` returns
a window of 10, and `GetUsers` with `page=0` fails with status 500 where
`GetFoods` returns the first page; the reply of `GetUsers` is the list of users
and holds no total count. -/
theorem users_listing_not_clamped :
    GetUsersPage storeTwelve 0 1 = .json StatusOK ((List.range 12).map userNumber) ∧
    GetFoodsPage storeTwelve 0 1 =
      .json StatusOK
        { total_count := 12, food_items := (List.range 10).map foodNumber } ∧
    GetUsersPage storeTwelve 10 0 =
      .error StatusInternalServerError "skip value must be non-negative" ∧
    GetFoodsPage storeTwelve 10 0 =
      .json StatusOK
        { total_count := 12, food_items := (List.range 10).map foodNumber } :=
  ⟨rfl, rfl, rfl, rfl⟩

/-- C12 (amended): for every page size and page number that are at least 1,
with the page size and the start index `(page - 1) * recordPerPage` below 2^31,
`GetUsers` replies 200 with the window of its collection that has the start
index and the length of the window `GetFoods` returns of the food collection;
the reply is that list of users alone. -/
theorem users_window_matches_foods (s : Store) (recordPerPage page : Int)
    (hs : 1 ≤ recordPerPage) (hp : 1 ≤ page) (hs32 : recordPerPage < 2 ^ 31)
    (hstart : (page - 1) * recordPerPage < 2 ^ 31) :
    GetUsersPage s recordPerPage page =
      .json StatusOK
        ((s.user.drop ((page - 1) * recordPerPage).toNat).take recordPerPage.toNat) ∧
    (s.food ≠ [] →
      GetFoodsPage s recordPerPage page =
        .json StatusOK
          { total_count := s.food.length
            food_items :=
              (s.food.drop ((page - 1) * recordPerPage).toNat).take recordPerPage.toNat }) ∧
    (∀ recordPerPageQuery pageQuery : Option String,
      GetUsers s recordPerPageQuery pageQuery =
        GetUsersPage s (atoi (recordPerPageQuery.getD "10")) (atoi (pageQuery.getD "1"))) :=
  ⟨GetUsersPage_of_range s recordPerPage page hs hp (by omega),
    fun hn => GetFoodsPage_of_range s recordPerPage page hn hs hp hs32 hstart,
    fun _ _ => rfl⟩

/-- C12 (amended), at page size 5 and page number 2 of `storeTwelve`. -/
theorem users_window_matches_foods_witness :
    (1 : Int) ≤ 5 ∧ (1 : Int) ≤ 2 ∧ (5 : Int) < 2 ^ 31 ∧ ((2 : Int) - 1) * 5 < 2 ^ 31 ∧
    GetUsersPage storeTwelve 5 2 =
      .json StatusOK
        ((storeTwelve.user.drop (((2 : Int) - 1) * 5).toNat).take (5 : Int).toNat) :=
  ⟨by decide, by decide, by decide, by decide,
    (users_window_matches_foods storeTwelve 5 2 (by decide) (by decide) (by decide)
      (by decide)).1⟩

/-- C13: over an empty food collection the food listing replies 200 with
`total_count = 0` and an empty item list, for every page size and page number
and for every value of the two query parameters, present or absent. -/
theorem empty_collection_lists_nothing (s : Store) (recordPerPage page : Int)
    (recordPerPageQuery pageQuery : Option String) (h : s.food = []) :
    GetFoodsPage s recordPerPage page =
      .json StatusOK { total_count := 0, food_items := [] } ∧
    GetFoods s recordPerPageQuery pageQuery =
      .json StatusOK { total_count := 0, food_items := [] } := by
  constructor
  · simp only [GetFoodsPage, foodPipeline, h, groupAll, List.mapM_nil]
    rfl
  · simp only [GetFoods, GetFoodsPage, foodPipeline, h, groupAll, List.mapM_nil]
    rfl

/-- C13, at `storeOneMenu` with page size 0 and page number 2^40, and with a
non-numeric page size and an out-of-range page number in the query. -/
theorem empty_collection_lists_nothing_witness :
    storeOneMenu.food = [] ∧
    GetFoodsPage storeOneMenu 0 (2 ^ 40) =
      .json StatusOK { total_count := 0, food_items := [] } ∧
    GetFoods storeOneMenu (some "x") (some "99999999999999999999") =
      .json StatusOK { total_count := 0, food_items := [] } :=
  ⟨rfl, empty_collection_lists_nothing storeOneMenu 0 (2 ^ 40) (some "x")
    (some "99999999999999999999") rfl⟩

/-- C14: for a stored invoice and a non-empty result of `ItemsByOrder` on its
order, `GetInvoiceById` replies 200 with the view whose payment method is
"N/A" when the invoice has none and the stored one otherwise, whose invoice
id, order id, payment status and payment due date are those of the invoice,
and whose payment due, table number and order details are those of the first
aggregate record. -/
theorem invoice_view_is_merge (s : Store) (invoiceId : String) (inv : Invoice)
    (first : AggregateRecord) (rest : List AggregateRecord)
    (hinv : s.invoices.find? (fun i => i.invoice_id = invoiceId) = some inv)
    (hrec : ItemsByOrder s inv.order_id = .ok (first :: rest)) :
    ∃ v, GetInvoiceById s invoiceId = .json StatusOK v ∧
      (inv.payment_method = none → v.payment_method = "N/A") ∧
      (∀ m, inv.payment_method = some m → v.payment_method = m) ∧
      v.invoice_id = inv.invoice_id ∧ v.order_id = inv.order_id ∧
      v.payment_status = inv.payment_status ∧
      v.payment_due_date = inv.payment_due_date ∧
      v.payment_due = first.payment_due ∧ v.table_number = first.table_number ∧
      v.order_details = first.order_items := by
  refine ⟨_, GetInvoiceById_of_record s invoiceId inv first rest hinv hrec, ?_, ?_,
    rfl, rfl, rfl, rfl, rfl, rfl, rfl⟩
  · intro h
    simp [h]
  · intro m h
    simp [h]

/-- C14, at the invoice `v1` of `storeOneItem`. -/
theorem invoice_view_is_merge_witness :
    storeOneItem.invoices.find? (fun i => i.invoice_id = "v1") = some invoice1 ∧
    ItemsByOrder storeOneItem invoice1.order_id = .ok [recordOneItem] ∧
    ∃ v, GetInvoiceById storeOneItem "v1" = .json StatusOK v ∧
      (invoice1.payment_method = none → v.payment_method = "N/A") ∧
      (∀ m, invoice1.payment_method = some m → v.payment_method = m) ∧
      v.invoice_id = invoice1.invoice_id ∧ v.order_id = invoice1.order_id ∧
      v.payment_status = invoice1.payment_status ∧
      v.payment_due_date = invoice1.payment_due_date ∧
      v.payment_due = recordOneItem.payment_due ∧
      v.table_number = recordOneItem.table_number ∧
      v.order_details = recordOneItem.order_items :=
  ⟨rfl, ItemsByOrder_storeOneItem,
    invoice_view_is_merge storeOneItem "v1" invoice1 recordOneItem [] rfl
      ItemsByOrder_storeOneItem⟩

/-- C15 (as stated, refuted): `storeOneMenu` holds no food at all, and
`CreateOrderItem` with a pack whose item names the food `f1` replies 201 and
inserts the order and the item. -/
theorem order_items_created_without_food :
    storeOneMenu.food = [] ∧ packRequest.order_items.map (fun it => it.food_id) = [some "f1"] ∧
    (CreateOrderItem "c1" "o1" (fun _ => "i1") 0 storeOneMenu (some packRequest)).2 =
      .json StatusCreated createdOrder1 ∧
    (CreateOrderItem "c1" "o1" (fun _ => "i1") 0 storeOneMenu (some packRequest)).1.orders.map
      (fun o => o.order_id) = ["o1"] ∧
    (CreateOrderItem "c1" "o1" (fun _ => "i1") 0 storeOneMenu
      (some packRequest)).1.order_items.map (fun it => (it.order_id, it.food_id)) =
      [("o1", some "f1")] :=
  ⟨rfl, rfl, rfl, rfl, rfl⟩

/-- C15 (amended): `CreateFood` for a menu id that no menu document has, and
`CreateInvoice` for an order id that no order document has, reply with status
400 and leave every collection as it is. -/
theorem create_checks_menu_and_order (validateFood : Food → Bool)
    (validateInvoice : Invoice → Bool) (newID : ObjectID) (now : Time) (s : Store)
    (food : Food) (invoice : Invoice)
    (hmenu : ∀ m ∈ s.menus, some m.menu_id ≠ food.menu_id)
    (horder : ∀ o ∈ s.orders, o.order_id ≠ invoice.order_id) :
    (CreateFood validateFood newID now s (some food)).1 = s ∧
    (CreateFood validateFood newID now s (some food)).2.status = StatusBadRequest ∧
    (CreateInvoice validateInvoice newID now s (some invoice)).1 = s ∧
    (CreateInvoice validateInvoice newID now s (some invoice)).2 =
      .error StatusBadRequest "order not found" := by
  have h1 : s.menus.find? (fun m => some m.menu_id = food.menu_id) = none := by
    rw [List.find?_eq_none]
    intro m hm
    simpa using hmenu m hm
  have h2 : s.orders.find? (fun o => o.order_id = invoice.order_id) = none := by
    rw [List.find?_eq_none]
    intro o ho
    simpa using horder o ho
  refine ⟨?_, ?_, ?_, ?_⟩
  · unfold CreateFood
    simp only [h1]
    split_ifs <;> rfl
  · unfold CreateFood
    simp only [h1]
    split_ifs <;> rfl
  · simp only [CreateInvoice, h2]
  · simp only [CreateInvoice, h2]

/-- C15 (amended), at `storeSeed`, which holds no menu and no order. -/
theorem create_checks_menu_and_order_witness :
    (∀ m ∈ storeSeed.menus, some m.menu_id ≠ foodRequest.menu_id) ∧
    (∀ o ∈ storeSeed.orders, o.order_id ≠ invoiceRequest.order_id) ∧
    (CreateFood (fun _ => true) "a9" 0 storeSeed (some foodRequest)).1 = storeSeed ∧
    (CreateFood (fun _ => true) "a9" 0 storeSeed (some foodRequest)).2.status =
      StatusBadRequest ∧
    (CreateInvoice (fun _ => true) "a9" 0 storeSeed (some invoiceRequest)).1 = storeSeed ∧
    (CreateInvoice (fun _ => true) "a9" 0 storeSeed (some invoiceRequest)).2 =
      .error StatusBadRequest "order not found" :=
  ⟨by simp [storeSeed], by simp [storeSeed],
    create_checks_menu_and_order (fun _ => true) (fun _ => true) "a9" 0 storeSeed
      foodRequest invoiceRequest (by simp [storeSeed]) (by simp [storeSeed])⟩

/-- C16: `UpdateFood` with a request whose menu id, if it holds one, is the id
of a menu, `UpdateInvoice`, `UpdateTable`, and `UpdateOrderItem` with a request
that holds a quantity, a unit price or a food id, each for the id of a stored
document, reply 200 with one matched document. The fields of the `$set`
document are exactly the updatable fields the request holds, followed by
`updated_at`, and the store after the update is the one before with that
`$set` document applied to the first document with the given id: that
document has the fields the request holds replaced by the request's values
(the price by its `toFixed(·, 2)`), `updated_at` set to the clock reading and
every other field as stored; every other document and collection is as
before. -/
theorem updates_are_partial (now : Time) (s : Store)
    (foodId invoiceId tableId orderItemId : String)
    (food : Food) (invoice : Invoice) (table : Table) (item : OrderItem)
    (fpre fpost : List Food) (f : Food) (ipre ipost : List Invoice) (i : Invoice)
    (tpre tpost : List Table) (t : Table) (opre opost : List OrderItem) (o : OrderItem)
    (hf : s.food = fpre ++ f :: fpost) (hfid : f.food_id = foodId)
    (hfpre : ∀ x ∈ fpre, x.food_id ≠ foodId)
    (hmenu : ∀ m, food.menu_id = some m → ∃ menu ∈ s.menus, menu.menu_id = m)
    (hi : s.invoices = ipre ++ i :: ipost) (hiid : i.invoice_id = invoiceId)
    (hipre : ∀ x ∈ ipre, x.invoice_id ≠ invoiceId)
    (ht : s.tables = tpre ++ t :: tpost) (htid : t.table_id = tableId)
    (htpre : ∀ x ∈ tpre, x.table_id ≠ tableId)
    (ho : s.order_items = opre ++ o :: opost) (hoid : o.order_item_id = orderItemId)
    (hopre : ∀ x ∈ opre, x.order_item_id ≠ orderItemId)
    (hitem : item.quantity ≠ none ∨ item.unit_price ≠ none ∨ item.food_id ≠ none) :
    ((foodUpdateObj now food).map FoodUpdate.field =
        present [("name", food.name.isSome), ("price", food.price.isSome),
          ("food_image", food.food_image.isSome), ("menu_id", food.menu_id.isSome)] ++
          ["updated_at"] ∧
      (UpdateFood now s foodId (some food)).1 =
        { s with food := (updateOne (fun d => d.food_id = foodId)
            (fun d => (foodUpdateObj now food).foldl (fun d u => u.apply d) d) s.food) } ∧
      UpdateFood now s foodId (some food) =
        ({ s with food := fpre ++
            { f with
              name := keep food.name f.name
              price := keep (food.price.map (fun x => toFixed x 2)) f.price
              food_image := keep food.food_image f.food_image
              menu_id := keep food.menu_id f.menu_id
              updated_at := now } :: fpost },
          .json StatusOK { matched_count := 1 })) ∧
    ((invoiceUpdateObj now invoice).map InvoiceUpdate.field =
        present [("payment_method", invoice.payment_method.isSome),
          ("payment_status", invoice.payment_status.isSome)] ++ ["updated_at"] ∧
      (UpdateInvoice now s invoiceId (some invoice)).1 =
        { s with invoices := (updateOne (fun d => d.invoice_id = invoiceId)
            (fun d => (invoiceUpdateObj now invoice).foldl (fun d u => u.apply d) d)
            s.invoices) } ∧
      UpdateInvoice now s invoiceId (some invoice) =
        ({ s with invoices := ipre ++
            { i with
              payment_method := keep invoice.payment_method i.payment_method
              payment_status := keep invoice.payment_status i.payment_status
              updated_at := now } :: ipost },
          .json StatusOK { matched_count := 1 })) ∧
    ((tableUpdateObj now table).map TableUpdate.field =
        present [("number_of_guests", table.number_of_guests.isSome),
          ("table_number", table.table_number.isSome)] ++ ["updated_at"] ∧
      (UpdateTable now s tableId (some table)).1 =
        { s with tables := (updateOne (fun d => d.table_id = tableId)
            (fun d => (tableUpdateObj now table).foldl (fun d u => u.apply d) d) s.tables) } ∧
      UpdateTable now s tableId (some table) =
        ({ s with tables := tpre ++
            { t with
              number_of_guests := keep table.number_of_guests t.number_of_guests
              table_number := keep table.table_number t.table_number
              updated_at := now } :: tpost },
          .json StatusOK { matched_count := 1 })) ∧
    ((orderItemUpdateObj now item).map OrderItemUpdate.field =
        present [("quantity", item.quantity.isSome), ("unit_price", item.unit_price.isSome),
          ("food_id", item.food_id.isSome)] ++ ["updated_at"] ∧
      (UpdateOrderItem now s orderItemId (some item)).1 =
        { s with order_items := (updateOne (fun d => d.order_item_id = orderItemId)
            (fun d => (orderItemUpdateObj now item).foldl (fun d u => u.apply d) d)
            s.order_items) } ∧
      UpdateOrderItem now s orderItemId (some item) =
        ({ s with order_items := opre ++
            { o with
              quantity := keep item.quantity o.quantity
              unit_price := keep item.unit_price o.unit_price
              food_id := keep item.food_id o.food_id
              updated_at := now } :: opost },
          .json StatusOK { matched_count := 1 })) := by
  refine ⟨⟨foodUpdateObj_fields now food, ?_, ?_⟩, ⟨invoiceUpdateObj_fields now invoice, ?_, ?_⟩,
    ⟨tableUpdateObj_fields now table, ?_, ?_⟩, ⟨orderItemUpdateObj_fields now item, ?_, ?_⟩⟩
  · rw [UpdateFood_of_menu now s foodId food hmenu]
    rfl
  · rw [UpdateFood_of_menu now s foodId food hmenu]
    unfold updateFoodDoc
    simp only
    rw [hf, updateOne_split _ _ f fpost (by simpa using hfid) fpre
      (fun x hx => by simpa using hfpre x hx), foodUpdateObj_apply,
      any_split _ fpre f fpost (by simpa using hfid)]
    rfl
  · rw [UpdateInvoice_some]
  · rw [UpdateInvoice_some, hi, updateOne_split _ _ i ipost (by simpa using hiid) ipre
      (fun x hx => by simpa using hipre x hx), invoiceUpdateObj_apply,
      any_split _ ipre i ipost (by simpa using hiid)]
    rfl
  · rw [UpdateTable_some]
  · rw [UpdateTable_some, ht, updateOne_split _ _ t tpost (by simpa using htid) tpre
      (fun x hx => by simpa using htpre x hx), tableUpdateObj_apply,
      any_split _ tpre t tpost (by simpa using htid)]
    rfl
  · rw [UpdateOrderItem_of_field now s orderItemId item hitem]
  · rw [UpdateOrderItem_of_field now s orderItemId item hitem, ho,
      updateOne_split _ _ o opost (by simpa using hoid) opre
      (fun x hx => by simpa using hopre x hx), orderItemUpdateObj_apply,
      any_split _ opre o opost (by simpa using hoid)]
    rfl

/-- C16, at `storeWithMenu`: the food `f1` gets a new name and the menu `m1`,
the invoice `v1` the payment method, the table `t1` the number of guests and
the order item `i1` the quantity; `updated_at` becomes 7 and every other field
of the four documents stays as stored. -/
theorem updates_are_partial_witness :
    storeWithMenu.food = [] ++ soup :: [] ∧ soup.food_id = "f1" ∧
    (∀ m, foodPatch.menu_id = some m → ∃ menu ∈ storeWithMenu.menus, menu.menu_id = m) ∧
    storeWithMenu.invoices = [] ++ invoice1 :: [] ∧ invoice1.invoice_id = "v1" ∧
    storeWithMenu.tables = [] ++ table5 :: [] ∧ table5.table_id = "t1" ∧
    storeWithMenu.order_items = [] ++ item1 :: [] ∧ item1.order_item_id = "i1" ∧
    (orderItemPatch.quantity ≠ none ∨ orderItemPatch.unit_price ≠ none ∨
      orderItemPatch.food_id ≠ none) ∧
    UpdateFood 7 storeWithMenu "f1" (some foodPatch) =
      ({ storeWithMenu with
          food := [{ soup with name := some "broth", menu_id := some "m1", updated_at := 7 }] },
        .json StatusOK { matched_count := 1 }) ∧
    UpdateInvoice 7 storeWithMenu "v1" (some invoicePatch) =
      ({ storeWithMenu with
          invoices := [{ invoice1 with payment_method := some "CARD", updated_at := 7 }] },
        .json StatusOK { matched_count := 1 }) ∧
    UpdateTable 7 storeWithMenu "t1" (some tablePatch) =
      ({ storeWithMenu with
          tables := [{ table5 with number_of_guests := some 2, updated_at := 7 }] },
        .json StatusOK { matched_count := 1 }) ∧
    UpdateOrderItem 7 storeWithMenu "i1" (some orderItemPatch) =
      ({ storeWithMenu with
          order_items := [{ item1 with quantity := some 5, updated_at := 7 }] },
        .json StatusOK { matched_count := 1 }) := by
  have hmenu : ∀ m, foodPatch.menu_id = some m →
      ∃ menu ∈ storeWithMenu.menus, menu.menu_id = m := by
    intro m hm
    exact ⟨menu1, List.mem_cons_self _ _, by simpa [foodPatch] using hm⟩
  have hitem : orderItemPatch.quantity ≠ none ∨ orderItemPatch.unit_price ≠ none ∨
      orderItemPatch.food_id ≠ none := Or.inl (by simp [orderItemPatch])
  have h := updates_are_partial 7 storeWithMenu "f1" "v1" "t1" "i1" foodPatch invoicePatch
    tablePatch orderItemPatch [] [] soup [] [] invoice1 [] [] table5 [] [] item1
    rfl rfl (by simp) hmenu rfl rfl (by simp) rfl rfl (by simp) rfl rfl (by simp) hitem
  exact ⟨rfl, rfl, hmenu, rfl, rfl, rfl, rfl, rfl, rfl, hitem, h.1.2.2, h.2.1.2.2, h.2.2.1.2.2,
    h.2.2.2.2.2⟩

/-- C18 (the code at the failing input): on `storeWithMenu`, `UpdateInvoice` and
`UpdateTable` with a request that holds none of their updatable fields reply
200 and rewrite `updated_at` of the stored document, because they append
`updated_at` before testing the `$set` document for emptiness; `UpdateMenu`,
`UpdateOrder` and `UpdateOrderItem` reply 400 "no fields to update" to such a
request and leave the store as it is. -/
theorem empty_update_not_refused :
    UpdateInvoice 7 storeWithMenu "v1" (some emptyInvoice) =
      ({ storeWithMenu with invoices := [{ invoice1 with updated_at := 7 }] },
        .json StatusOK { matched_count := 1 }) ∧
    UpdateTable 7 storeWithMenu "t1" (some emptyTable) =
      ({ storeWithMenu with tables := [{ table5 with updated_at := 7 }] },
        .json StatusOK { matched_count := 1 }) ∧
    UpdateMenu 7 storeWithMenu "m1" (some emptyMenu) =
      (storeWithMenu, .error StatusBadRequest "no fields to update") ∧
    UpdateOrder 7 storeWithMenu "o1" (some emptyOrder) =
      (storeWithMenu, .error StatusBadRequest "no fields to update") ∧
    UpdateOrderItem 7 storeWithMenu "i1" (some emptyOrderItem) =
      (storeWithMenu, .error StatusBadRequest "no fields to update") :=
  ⟨rfl, rfl, rfl, rfl, rfl⟩

/-- C17 (as stated, refuted): on `storeSeedDuplicate`, where the order id `o1`
is not in use, `CreateOrderItem` with a pack of one item of quantity 2 inserts
the order and the item, and `ItemsByOrder` on the echoed id returns
`total_count = 4`: the food collection holds two documents with the food id of
the item. -/
theorem created_pack_counted_twice :
    storeSeedDuplicate.orders = [] ∧ storeSeedDuplicate.order_items = [] ∧
    packRequestTwo.order_items.map (fun it => it.quantity) = [some 2] ∧
    (CreateOrderItem "c1" "o1" (fun _ => "i2") 0 storeSeedDuplicate
      (some packRequestTwo)).2 =
      .json StatusCreated { order_id := "o1", order_items := ["i2"] } ∧
    ItemsByOrder
      (CreateOrderItem "c1" "o1" (fun _ => "i2") 0 storeSeedDuplicate
        (some packRequestTwo)).1 "o1" = .ok [recordDuplicateFood] ∧
    recordDuplicateFood.total_count = 4 := by
  refine ⟨rfl, rfl, rfl, rfl, ?_, rfl⟩
  simp [ItemsByOrder, joinStages, matchStage, lookupFoodStage, lookupOrderStage,
    lookupTableStage, unwindPreserve, projectStage, groupStage, accumulate, finalProject,
    multiply, groupKey, CreateOrderItem, stampItems, storeSeedDuplicate, storeSeed,
    packRequestTwo, soup, soupCopy, recordDuplicateFood, enrichedItem2, sumAmount,
    float64_two]
  norm_num [float64_quarter, float64_half, sumDoubles_pair]

/-- C17 (amended): in a store whose food, order and table ids are unique and in
which the new order id is not in use, `CreateOrderItem` with a pack of
`k ≥ 1` items replies 201 echoing the order id and inserts one order and
exactly `k` order items, each with that order id and the food id, quantity and
unit price of the request; step 1 of `ItemsByOrder` on the echoed id selects
exactly those items, and the `total_count` of the aggregate record is the sum
of the quantities of the pack. -/
theorem created_pack_is_selected (orderObjID orderID : ObjectID) (itemID : Nat → ObjectID)
    (now : Time) (s : Store) (pack : OrderItemPack) (hk : pack.order_items ≠ [])
    (hu : UniqueIds s) (hfo : ∀ o ∈ s.orders, o.order_id ≠ orderID)
    (hfi : ∀ it ∈ s.order_items, it.order_id ≠ orderID) :
    ∃ (o : Order) (docs : List OrderItem),
      (CreateOrderItem orderObjID orderID itemID now s (some pack)).2 =
        .json StatusCreated { order_id := orderID, order_items := docs.map (fun d => d._id) } ∧
      (CreateOrderItem orderObjID orderID itemID now s (some pack)).1.orders =
        s.orders ++ [o] ∧
      o.order_id = orderID ∧ o.table_id = pack.table_id ∧
      (CreateOrderItem orderObjID orderID itemID now s (some pack)).1.order_items =
        s.order_items ++ docs ∧
      docs.length = pack.order_items.length ∧
      docs.map (fun d => (d.order_id, d.food_id, d.quantity, d.unit_price)) =
        pack.order_items.map (fun it => (orderID, it.food_id, it.quantity, it.unit_price)) ∧
      matchStage (CreateOrderItem orderObjID orderID itemID now s (some pack)).1 orderID =
        docs ∧
      ∃ r, ItemsByOrder (CreateOrderItem orderObjID orderID itemID now s (some pack)).1
          orderID = .ok [r] ∧
        r.total_count = (pack.order_items.map (fun it => it.quantity.getD 0)).sum := by
  rw [CreateOrderItem_some orderObjID orderID itemID now s pack hk]
  have hmatch : matchStage
      { s with
        orders := s.orders ++
          [{ _id := orderObjID, order_id := orderID, table_id := pack.table_id,
             order_date := 0, created_at := now, updated_at := now }]
        order_items := s.order_items ++ stampItems itemID orderID now 0 pack.order_items }
      orderID = stampItems itemID orderID now 0 pack.order_items := by
    have hold : s.order_items.filter (fun it => it.order_id = orderID) = [] := by
      rw [List.filter_eq_nil_iff]
      intro it hit
      simpa using hfi it hit
    simp only [matchStage, List.filter_append, hold, List.nil_append, stampItems_filter]
  have hu' : UniqueIds
      { s with
        orders := s.orders ++
          [{ _id := orderObjID, order_id := orderID, table_id := pack.table_id,
             order_date := 0, created_at := now, updated_at := now }]
        order_items := s.order_items ++ stampItems itemID orderID now 0 pack.order_items } := by
    obtain ⟨h1, h2, h3, h4, h5⟩ := hu
    refine ⟨h1, ?_, h3, h4, h5⟩
    simp only [List.map_append, List.map_cons, List.map_nil]
    rw [List.nodup_append]
    refine ⟨h2, List.nodup_singleton _, ?_⟩
    intro a ha hb
    rw [List.mem_singleton] at hb
    subst hb
    rw [List.mem_map] at ha
    obtain ⟨o, ho, hoid⟩ := ha
    exact hfo o ho hoid
  obtain ⟨d, ds, hd⟩ :
      ∃ d ds, stampItems itemID orderID now 0 pack.order_items = d :: ds := by
    apply List.exists_cons_of_ne_nil
    intro hnil
    have := stampItems_length itemID orderID now 0 pack.order_items
    rw [hnil] at this
    exact hk (List.length_eq_zero.mp this.symm)
  refine ⟨_, stampItems itemID orderID now 0 pack.order_items, rfl, rfl, rfl, rfl, rfl,
    stampItems_length itemID orderID now 0 pack.order_items,
    stampItems_fields itemID orderID now 0 pack.order_items, hmatch, ?_⟩
  refine ⟨_, ItemsByOrder_of_unique _ hu' orderID d ds (by rw [hmatch, hd]), ?_⟩
  simp only
  rw [sumQuantity_map_enrich, ← hd, stampItems_quantities]

/-- C17 (amended), at `storeSeed` and the pack `packRequest`. -/
theorem created_pack_is_selected_witness :
    packRequest.order_items ≠ [] ∧ UniqueIds storeSeed ∧
    (∀ o ∈ storeSeed.orders, o.order_id ≠ "o1") ∧
    (∀ it ∈ storeSeed.order_items, it.order_id ≠ "o1") ∧
    ∃ (o : Order) (docs : List OrderItem),
      (CreateOrderItem "c1" "o1" (fun _ => "i1") 0 storeSeed (some packRequest)).2 =
        .json StatusCreated { order_id := "o1", order_items := docs.map (fun d => d._id) } ∧
      (CreateOrderItem "c1" "o1" (fun _ => "i1") 0 storeSeed (some packRequest)).1.orders =
        storeSeed.orders ++ [o] ∧
      o.order_id = "o1" ∧ o.table_id = packRequest.table_id ∧
      (CreateOrderItem "c1" "o1" (fun _ => "i1") 0 storeSeed (some packRequest)).1.order_items =
        storeSeed.order_items ++ docs ∧
      docs.length = packRequest.order_items.length ∧
      docs.map (fun d => (d.order_id, d.food_id, d.quantity, d.unit_price)) =
        packRequest.order_items.map
          (fun it => ("o1", it.food_id, it.quantity, it.unit_price)) ∧
      matchStage (CreateOrderItem "c1" "o1" (fun _ => "i1") 0 storeSeed (some packRequest)).1
        "o1" = docs ∧
      ∃ r, ItemsByOrder (CreateOrderItem "c1" "o1" (fun _ => "i1") 0 storeSeed
          (some packRequest)).1 "o1" = .ok [r] ∧
        r.total_count = (packRequest.order_items.map (fun it => it.quantity.getD 0)).sum :=
  ⟨by simp [packRequest], by decide, by simp [storeSeed], by simp [storeSeed],
    created_pack_is_selected "c1" "o1" (fun _ => "i1") 0 storeSeed packRequest
      (by simp [packRequest]) (by decide) (by simp [storeSeed]) (by simp [storeSeed])⟩
end Restaurant
